import Mathlib

/-!
# Evolution 3D Simulator: a shallow embedding of the simulation core

JavaScript numbers are modelled as exact rationals (`ℚ`); `-Infinity` as the
absent value of an `Option ℚ` accumulator.  Where a bound is tight enough for
the rounding of binary64 arithmetic to matter, the rounding is modelled by
`toDouble`.  `Math.random()` is an explicit stream of draws with a cursor,
`Date.now()` an explicit clock argument (two arguments for the two readings a
`rememberInteraction` call makes), and the runtime functions `Math.sqrt`,
`Math.cos`, `Math.sin` and the constant `Math.PI` are parameters (`JsMath`).
Object identity of organisms and food items is their index in the world's
arrays; rendering calls (`EntityModel`) are left out.
-/

namespace EvoSim

/-! ## Runtime services -/

/-- The stream of `Math.random()` results together with the number of draws
already consumed. -/
structure RandomSource where
  draws : ℕ → ℚ
  pos : ℕ

/-- One call of `Math.random()`. -/
def RandomSource.next (r : RandomSource) : ℚ × RandomSource :=
  (r.draws r.pos, { r with pos := r.pos + 1 })

/-- The functions of the JavaScript `Math` object the core calls. -/
structure JsMath where
  sqrt : ℚ → ℚ
  cos : ℚ → ℚ
  sin : ℚ → ℚ
  pi : ℚ

/-- JavaScript `a || d` on a number that may be missing: `undefined`, and `0`,
are falsy and select the default. -/
def jsOr (a : Option ℚ) (d : ℚ) : ℚ :=
  match a with
  | none => d
  | some v => if v = 0 then d else v

/-- `Math.floor(u * n)` used as an array index. -/
def floorIndex (u : ℚ) (n : ℕ) : ℕ :=
  (Int.floor (u * (n : ℚ))).toNat

/-! ## Data model -/

/-- A position `{x, y, z}`. -/
structure Vec3 where
  x : ℚ
  y : ℚ
  z : ℚ
  deriving DecidableEq

/-- A planar direction `{x, z}`. -/
structure Dir where
  x : ℚ
  z : ℚ
  deriving DecidableEq

/-- Squared planar distance `dx * dx + dz * dz` between two positions. -/
def distanceSquared (p q : Vec3) : ℚ :=
  (p.x - q.x) * (p.x - q.x) + (p.z - q.z) * (p.z - q.z)

/-- The seven behaviour type tags (`'aggressive'`, ..., `'deepq'`). -/
inductive BehaviorType
  | aggressive
  | altruistic
  | titfortat
  | cooperative
  | selfish
  | qlearning
  | deepq
  deriving DecidableEq, Repr

/-- The `behaviorTypes` array of `Organism.reproduce`, in source order. -/
def behaviorTypes : List BehaviorType :=
  [.aggressive, .altruistic, .titfortat, .cooperative, .selfish, .qlearning, .deepq]

/-- A memory record `{wasPositive, timestamp}`. -/
structure MemoryEntry where
  wasPositive : Bool
  timestamp : ℚ
  deriving DecidableEq

/-- The `Map` of `BaseBehavior.memory`, in insertion order, keyed by `mesh.id`. -/
abbrev Memory := List (ℕ × MemoryEntry)

/-- `Map.prototype.get`. -/
def Memory.get (m : Memory) (id : ℕ) : Option MemoryEntry :=
  (m.find? (fun kv => kv.1 == id)).map (fun kv => kv.2)

/-- `Map.prototype.has`. -/
def Memory.has (m : Memory) (id : ℕ) : Bool :=
  m.any (fun kv => kv.1 == id)

/-- `Map.prototype.set`: an existing key keeps its place, a new key is appended. -/
def Memory.set (m : Memory) (id : ℕ) (e : MemoryEntry) : Memory :=
  if m.has id then m.map (fun kv => if kv.1 == id then (id, e) else kv)
  else m ++ [(id, e)]

/-- `Map.prototype.delete`. -/
def Memory.delete (m : Memory) (id : ℕ) : Memory :=
  m.filter (fun kv => !(kv.1 == id))

/-- The state every behaviour carries (`BaseBehavior`); the display colour is
left out. -/
structure BaseBehavior where
  type : BehaviorType
  memory : Memory := []
  interactionStrength : ℚ := 1
  memoryDuration : ℚ := 50
  unlimitedMemory : Bool := false

/-- `BaseBehavior.getLastInteraction(targetId)`. -/
def BaseBehavior.getLastInteraction (b : BaseBehavior) (targetId : ℕ) : Option MemoryEntry :=
  b.memory.get targetId

/-- `BaseBehavior.cleanMemory()` run when `Date.now()` reads `now`: every entry
with `now - timestamp > memoryDuration * 1000` is deleted. -/
def BaseBehavior.cleanMemory (b : BaseBehavior) (now : ℚ) : BaseBehavior :=
  if b.unlimitedMemory then b
  else
    let expirationTime := b.memoryDuration * 1000
    { b with memory := b.memory.filter (fun kv => !(decide (now - kv.2.timestamp > expirationTime))) }

/-- `BaseBehavior.rememberInteraction(targetId, wasPositive)`.  The call reads
the clock twice: `Date.now()` reads `now` for the timestamp of the entry, and
`later` when `cleanMemory` runs afterwards. -/
def BaseBehavior.rememberInteraction (b : BaseBehavior) (targetId : ℕ) (wasPositive : Bool)
    (now later : ℚ) : BaseBehavior :=
  let b1 := { b with memory := b.memory.set targetId { wasPositive := wasPositive, timestamp := now } }
  if !b1.unlimitedMemory then b1.cleanMemory later else b1

/-- A reference held in `Organism.target`: another organism or a food item. -/
inductive Target
  | organism (idx : ℕ)
  | food (idx : ℕ)
  deriving DecidableEq

/-- An organism owning a behaviour instance of type `β`. -/
structure Organism (β : Type) where
  behavior : β
  meshId : ℕ
  energy : ℚ
  speed : ℚ
  size : ℚ
  maxLifespan : ℚ
  reproductionRate : ℚ
  age : ℚ := 0
  isAlive : Bool := true
  target : Option Target := none
  lastInteractionTime : ℚ := 0
  interactionCooldown : ℚ := 12 / 10
  energyConsumptionRate : ℚ := 2
  resourceMultiplier : ℚ := 1
  position : Vec3
  direction : Dir
  lastCollisionTime : ℚ := 0
  collisionAvoidanceTime : ℚ := 0
  avoidanceDirection : Option Dir := none
  previousPosition : Vec3

/-- `Organism.getBoundingRadius()`. -/
def Organism.getBoundingRadius {β : Type} (o : Organism β) : ℚ :=
  o.size * (8 / 10)

/-- The pair `{selfEnergyDelta, targetEnergyDelta}` returned by `interact`. -/
structure InteractionResult where
  selfEnergyDelta : ℚ
  targetEnergyDelta : ℚ
  deriving DecidableEq

/-! ## Reactive behaviours: `interact`

`now` and `later` are the two clock readings of the `rememberInteraction` call
an `interact` makes. -/

/-- `AggressiveBehavior.interact(self, target)`. -/
def AggressiveBehavior.interact {β : Type} (b : BaseBehavior) (now later : ℚ)
    (_self target : Organism β) : InteractionResult × BaseBehavior :=
  let energyStolen := min 10 (target.energy * (2 / 10))
  let b := b.rememberInteraction target.meshId false now later
  ({ selfEnergyDelta := energyStolen, targetEnergyDelta := -energyStolen }, b)

/-- `AltruisticBehavior.interact(self, target)`. -/
def AltruisticBehavior.interact {β : Type} (b : BaseBehavior) (now later : ℚ)
    (self target : Organism β) : InteractionResult × BaseBehavior :=
  if self.energy > 30 then
    let energyToShare := min 10 (self.energy * (15 / 100))
    let b := b.rememberInteraction target.meshId true now later
    ({ selfEnergyDelta := -energyToShare, targetEnergyDelta := energyToShare }, b)
  else
    ({ selfEnergyDelta := 0, targetEnergyDelta := 0 }, b)

/-- `CooperativeBehavior.interact(self, target)`.  In the exact arithmetic of
this model `selfEnergyDelta` is -5.6; the binary64 number the engine returns is
given by `CooperativeBehavior.interactBinary64`, defined below. -/
def CooperativeBehavior.interact {β : Type} (b : BaseBehavior) (now later : ℚ)
    (_self target : Organism β) : InteractionResult × BaseBehavior :=
  let energyExchange : ℚ := 8
  let b := b.rememberInteraction target.meshId true now later
  ({ selfEnergyDelta := -energyExchange * (7 / 10), targetEnergyDelta := energyExchange }, b)

/-- `SelfishBehavior.interact(self, target)`. -/
def SelfishBehavior.interact {β : Type} (b : BaseBehavior) (now later : ℚ)
    (_self target : Organism β) : InteractionResult × BaseBehavior :=
  let energyToTake := min 5 (target.energy * (1 / 10))
  let b := b.rememberInteraction target.meshId false now later
  ({ selfEnergyDelta := energyToTake, targetEnergyDelta := -energyToTake }, b)

/-- `TitForTatBehavior.interact(self, target)`. -/
def TitForTatBehavior.interact {β : Type} (b : BaseBehavior) (now later : ℚ)
    (_self target : Organism β) : InteractionResult × BaseBehavior :=
  match b.getLastInteraction target.meshId with
  | none =>
    let energyToShare : ℚ := 5
    let b := b.rememberInteraction target.meshId true now later
    ({ selfEnergyDelta := -energyToShare, targetEnergyDelta := energyToShare }, b)
  | some lastInteraction =>
    if lastInteraction.wasPositive then
      let energyToShare : ℚ := 5
      let b := b.rememberInteraction target.meshId true now later
      ({ selfEnergyDelta := -energyToShare, targetEnergyDelta := energyToShare }, b)
    else
      let energyToTake := min 8 (target.energy * (15 / 100))
      let b := b.rememberInteraction target.meshId false now later
      ({ selfEnergyDelta := energyToTake, targetEnergyDelta := -energyToTake }, b)

/-! ## Binary64 rounding -/

/-- Rounding of a rational to the nearest integer, ties to the even one. -/
def roundHalfEven (r : ℚ) : ℤ :=
  if r - Int.floor r < 1 / 2 then Int.floor r
  else if r - Int.floor r > 1 / 2 then Int.floor r + 1
  else if Int.floor r % 2 = 0 then Int.floor r
  else Int.floor r + 1

/-- The power of two `2^e` with `2^e ≤ x < 2^(e+1)` for a positive rational
`x`, found by halving or doubling at most `fuel` times. -/
def binade : ℕ → ℚ → ℚ
  | 0, _ => 1
  | fuel + 1, x =>
    if 2 ≤ x then 2 * binade fuel (x / 2)
    else if x < 1 then binade fuel (x * 2) / 2
    else 1

/-- The binary64 number nearest to `x`, ties to even, for `x` in the normal
range (`2^-1022 ≤ |x| < 2^1024`) and for 0: the value a number literal denotes
and the result an arithmetic operation of the engine delivers for the exact
result `x`.  Around `x` the binary64 numbers are `2^e / 2^52` apart. -/
def toDouble (x : ℚ) : ℚ :=
  if x = 0 then 0
  else
    roundHalfEven (x / (binade 1100 |x| / 4503599627370496)) *
      (binade 1100 |x| / 4503599627370496)

/-- The object `CooperativeBehavior.interact` returns, as the engine computes
it in binary64: the literal `0.7` is the binary64 number nearest to 7/10 and
the product `-energyExchange * 0.7` is rounded. -/
def CooperativeBehavior.interactBinary64 : InteractionResult :=
  let energyExchange : ℚ := 8
  { selfEnergyDelta := toDouble (-energyExchange * toDouble (7 / 10))
    targetEnergyDelta := energyExchange }

/-! ## Tabular Q-learning -/

/-- The entries of `QLearningBehavior.actions`. -/
inductive QAction
  | cooperate
  | compete
  | ignore
  deriving DecidableEq, Repr

/-- The array `this.actions`, in source order. -/
def QAction.actions : List QAction := [.cooperate, .compete, .ignore]

/-- The object `qTable`: a state key has no row until it is initialised, and a
row holds one value per action. -/
abbrev QTable := String → Option (QAction → ℚ)

/-- The state of a `QLearningBehavior`. -/
structure QLearningBehavior extends BaseBehavior where
  learningRate : ℚ := 1 / 10
  discountFactor : ℚ := 9 / 10
  explorationRate : ℚ := 2 / 10
  qTable : QTable := fun _ => none
  lastState : Option String := none
  lastAction : Option QAction := none
  lastReward : ℚ := 0

/-- The constructor `new QLearningBehavior()`. -/
def QLearningBehavior.new : QLearningBehavior :=
  { type := .qlearning }

/-- `QLearningBehavior.initializeState(state)`: a fresh row of zeros. -/
def QLearningBehavior.initializeState (q : QLearningBehavior) (state : String) :
    QLearningBehavior :=
  { q with qTable := fun k => if k = state then some (fun _ => 0) else q.qTable k }

/-- The read `this.qTable[state][action]` of an initialised row. -/
def QLearningBehavior.qValue (q : QLearningBehavior) (state : String) (action : QAction) : ℚ :=
  match q.qTable state with
  | some row => row action
  | none => 0

/-- The write `this.qTable[state][action] = v` into an initialised row. -/
def QLearningBehavior.setQValue (q : QLearningBehavior) (state : String) (action : QAction)
    (v : ℚ) : QLearningBehavior :=
  { q with qTable := fun k =>
      if k = state then (q.qTable k).map (fun row a => if a = action then v else row a)
      else q.qTable k }

/-- `QLearningBehavior.getMaxQValue(state)`; the accumulator starts at
`-Infinity` (`none`). -/
def QLearningBehavior.getMaxQValue (q : QLearningBehavior) (state : String) :
    ℚ × QLearningBehavior :=
  let q := if (q.qTable state).isNone then q.initializeState state else q
  let maxValue : Option ℚ := QAction.actions.foldl
    (fun maxValue action =>
      match maxValue with
      | none => some (q.qValue state action)
      | some m => if q.qValue state action > m then some (q.qValue state action) else some m)
    none
  (maxValue.getD 0, q)

/-- `QLearningBehavior.learn(state, action, reward, nextState)`. -/
def QLearningBehavior.learn (q : QLearningBehavior) (state : String) (action : QAction)
    (reward : ℚ) (nextState : String) : QLearningBehavior :=
  let q := if (q.qTable state).isNone then q.initializeState state else q
  let q := if (q.qTable nextState).isNone then q.initializeState nextState else q
  let currentQ := q.qValue state action
  let (maxNextQ, q) := q.getMaxQValue nextState
  q.setQValue state action
    (currentQ + q.learningRate * (reward + q.discountFactor * maxNextQ - currentQ))

/-- The value the spec's update rule reads for `Q(s, a)`: an unseen state
counts as all zeros. -/
def QLearningBehavior.valueOrZero (q : QLearningBehavior) (state : String) (action : QAction) : ℚ :=
  ((q.qTable state).map (fun row => row action)).getD 0

/-- The spec's `max_a' Q(s', a')` over the three actions, unseen states being
all zeros. -/
def QLearningBehavior.specMax (q : QLearningBehavior) (state : String) : ℚ :=
  max (max (q.valueOrZero state .cooperate) (q.valueOrZero state .compete))
    (q.valueOrZero state .ignore)

/-- The table after the two lazy initialisations at the head of `learn`. -/
def QLearningBehavior.prepared (q : QLearningBehavior) (s s' : String) : QLearningBehavior :=
  let q := if (q.qTable s).isNone then q.initializeState s else q
  if (q.qTable s').isNone then q.initializeState s' else q

/-- A fresh learner whose table has one row, for the state `"next"`, with
maximum 2. -/
def QLearningBehavior.sample : QLearningBehavior :=
  { QLearningBehavior.new with
    qTable := fun k => if k = "next" then some (fun a => if a = .compete then 2 else 1) else none }

/-! ## Call traces on a behaviour's memory -/

/-- A call on a behaviour's memory together with the clock readings made
during the call: `rememberInteraction` reads the clock for the timestamp (`now`)
and again for the cleaning (`later`). -/
inductive MemoryCall
  | rememberInteraction (targetId : ℕ) (wasPositive : Bool) (now later : ℚ)
  | getLastInteraction (targetId : ℕ) (now : ℚ)

/-- The behaviour after one call; `getLastInteraction` only reads. -/
def BaseBehavior.call (b : BaseBehavior) : MemoryCall → BaseBehavior
  | .rememberInteraction targetId wasPositive now later =>
    b.rememberInteraction targetId wasPositive now later
  | .getLastInteraction _ _ => b

/-- The behaviour after a sequence of calls, oldest first. -/
def BaseBehavior.calls (b : BaseBehavior) (cs : List MemoryCall) : BaseBehavior :=
  cs.foldl BaseBehavior.call b

/-- A behaviour with the constructor's defaults (memory duration 50 s, bounded
memory) that recorded a positive interaction with target 7 at clock time 0. -/
def BaseBehavior.sampleRemembered : BaseBehavior :=
  ({ type := .cooperative } : BaseBehavior).rememberInteraction 7 true 0 0

/-- An organism with the given energy, standing at the origin. -/
def Organism.sample (energy : ℚ) : Organism Unit :=
  { behavior := (), meshId := 1, energy := energy, speed := 1, size := 1, maxLifespan := 100,
    reproductionRate := 5 / 1000, position := ⟨0, 0, 0⟩, direction := ⟨1, 0⟩,
    previousPosition := ⟨0, 0, 0⟩ }

/-! ## Food, obstacles and the world registry -/

/-- A food item; `size` is the value drawn by the constructor. -/
structure Food where
  type : String
  energyValue : ℚ
  position : Vec3
  size : ℚ
  isConsumed : Bool := false

/-- `Food.getBoundingRadius()`. -/
def Food.getBoundingRadius (f : Food) : ℚ :=
  f.size * (4 / 10)

/-- `Food.consume()`: the energy yielded and the food afterwards. -/
def Food.consume (f : Food) : ℚ × Food :=
  if f.isConsumed then (0, f) else (f.energyValue, { f with isConsumed := true })

/-- The `userData` of an obstacle; `boundingRadius` is `none` when the property
is missing. -/
structure Obstacle where
  type : String
  boundingRadius : Option ℚ
  position : Vec3

/-- The world registry as the core reads it: the three arrays, `terrain.size`,
the value of `world.simulation?.mutationRate` (`none` while no simulation is
attached) and the id the next created mesh receives. -/
structure World (β : Type) where
  entities : List (Organism β) := []
  foods : List Food := []
  obstacles : List Obstacle := []
  terrainSize : ℚ := 40
  mutationRate : Option ℚ := none
  nextMeshId : ℕ := 0

/-- An array paired with its indices. -/
def indexed {α : Type} (l : List α) : List (ℕ × α) :=
  l.enum

/-- In-place mutation of the organism stored at index `i`. -/
def World.modifyEntity {β : Type} (w : World β) (i : ℕ) (f : Organism β → Organism β) :
    World β :=
  match w.entities[i]? with
  | some o => { w with entities := w.entities.set i (f o) }
  | none => w

/-- `World.addEntity(entity)`. -/
def World.addEntity {β : Type} (w : World β) (entity : Organism β) : World β :=
  { w with entities := w.entities ++ [entity] }

/-- `World.addFood(food)`. -/
def World.addFood {β : Type} (w : World β) (food : Food) : World β :=
  { w with foods := w.foods ++ [food] }

/-- `TerrainGenerator.getRandomPosition()`: two draws scaled to
`size / 2.5`. -/
def World.getRandomPosition {β : Type} (w : World β) (rand : RandomSource) : Vec3 × RandomSource :=
  let bound := w.terrainSize / (25 / 10)
  let (u1, rand) := rand.next
  let (u2, rand) := rand.next
  ({ x := (u1 * 2 - 1) * bound, y := 0, z := (u2 * 2 - 1) * bound }, rand)

/-! ## The behaviour interface seen by an organism -/

/-- The methods an organism calls on its behaviour instance, whatever its
class.  `selectTarget` receives the neighbours with their world indices and
answers with the index of the chosen one; each method returns the behaviour's
own state afterwards and the random stream it consumed.  `interact` receives
the clock reading at the call; how far the clock has advanced when the
behaviour reads it again is part of the function given here. -/
structure BehaviorOps (β : Type) where
  type : β → BehaviorType
  interactionStrength : β → ℚ
  selectTarget : β → Organism β → List (ℕ × Organism β) → RandomSource → Option ℕ × β × RandomSource
  interact : β → ℚ → Organism β → Organism β → RandomSource → InteractionResult × β × RandomSource
  construct : BehaviorType → RandomSource → β × RandomSource

/-- `BehaviorFactory.createBehavior(type)`; `none` is the type `'random'`.  The
random index is in range for draws in `[0, 1)`; the `switch` default is the
cooperative behaviour. -/
def BehaviorFactory.createBehavior {β : Type} (ops : BehaviorOps β) (type : Option BehaviorType)
    (rand : RandomSource) : β × RandomSource :=
  match type with
  | some t => ops.construct t rand
  | none =>
    let (u, rand) := rand.next
    ops.construct (behaviorTypes.getD (floorIndex u behaviorTypes.length) .cooperative) rand

/-- The `stats` object handed to the `Organism` constructor. -/
structure Stats where
  energy : ℚ
  speed : ℚ
  size : ℚ
  lifespan : ℚ
  reproductionRate : ℚ
  deriving DecidableEq

/-- `Organism.normalizeDirection()` applied to a direction. -/
def normalizeDirection (M : JsMath) (d : Dir) : Dir :=
  let length := M.sqrt (d.x * d.x + d.z * d.z)
  if length > 0 then { x := d.x / length, z := d.z / length } else d

/-- The `Organism` constructor; `meshId` is the id of the mesh it creates. -/
def Organism.new {β : Type} (M : JsMath) (stats : Stats) (behavior : β)
    (position : Option Vec3) (meshId : ℕ) (rand : RandomSource) : Organism β × RandomSource :=
  let position := position.getD { x := 0, y := 0, z := 0 }
  let (u1, rand) := rand.next
  let (u2, rand) := rand.next
  ({ behavior := behavior
     meshId := meshId
     energy := jsOr (some stats.energy) 100
     speed := jsOr (some stats.speed) 1
     size := jsOr (some stats.size) 1
     maxLifespan := jsOr (some stats.lifespan) 100
     reproductionRate := jsOr (some stats.reproductionRate) (5 / 1000)
     position := position
     direction := normalizeDirection M { x := u1 * 2 - 1, z := u2 * 2 - 1 }
     previousPosition := position }, rand)

/-- `EntityFactory.createOrganism(type, position, stats)`; the world is
returned with its mesh counter advanced. -/
def EntityFactory.createOrganism {β : Type} (M : JsMath) (ops : BehaviorOps β) (w : World β)
    (type : Option BehaviorType) (position : Option Vec3) (stats : Option Stats) (rand : RandomSource) :
    Organism β × World β × RandomSource :=
  let (behavior, rand) := BehaviorFactory.createBehavior ops type rand
  let (stats, rand) :=
    match stats with
    | some st => (st, rand)
    | none =>
      let (u1, rand) := rand.next
      let (u2, rand) := rand.next
      let (u3, rand) := rand.next
      let (u4, rand) := rand.next
      let (u5, rand) := rand.next
      ({ energy := 50 + u1 * 50, speed := 5 / 10 + u2 * (15 / 10), size := 5 / 10 + u3 * (5 / 10),
         lifespan := 20 + u4 * 80, reproductionRate := 1 / 1000 + u5 * (9 / 1000) }, rand)
  let (organism, rand) := Organism.new M stats behavior position w.nextMeshId rand
  (organism, { w with nextMeshId := w.nextMeshId + 1 }, rand)

/-! ## Organism: feeding and interaction -/

/-- `Organism.findNearestFood(world)`: the index of the nearest unconsumed food;
the running minimum starts at `Infinity` (`none`). -/
def Organism.findNearestFood {β : Type} (o : Organism β) (w : World β) : Option ℕ :=
  ((indexed w.foods).foldl
    (fun (acc : Option ℕ × Option ℚ) kf =>
      if kf.2.isConsumed then acc
      else
        let d := distanceSquared kf.2.position o.position
        match acc.2 with
        | none => (some kf.1, some d)
        | some minDistance => if d < minDistance then (some kf.1, some d) else acc)
    (none, none)).1

/-- `Organism.getNearbyEntities(world, radius)` for the organism at index `i`. -/
def Organism.getNearbyEntities {β : Type} (o : Organism β) (w : World β) (i : ℕ) (radius : ℚ) :
    List (ℕ × Organism β) :=
  (indexed w.entities).filter (fun je =>
    if je.1 = i ∨ je.2.isAlive = false then false
    else decide (distanceSquared je.2.position o.position ≤ radius * radius))

/-- `Organism.isTargetInRange(target, range)`. -/
def Organism.isTargetInRange {β : Type} (o : Organism β) (targetPosition : Vec3) (range : ℚ) :
    Bool :=
  decide (distanceSquared targetPosition o.position ≤ range * range)

/-- `Organism.eatFood(food)` for the organism at index `i` and the food at
index `k`. -/
def Organism.eatFood {β : Type} (w : World β) (i k : ℕ) : World β :=
  match w.foods[k]? with
  | none => w
  | some food =>
    let (energyGained, food) := food.consume
    let w := { w with foods := w.foods.set k food }
    let w := w.modifyEntity i (fun o =>
      { o with energy := o.energy + energyGained * (1 + (o.resourceMultiplier - 1) * (5 / 10)) })
    let w := w.modifyEntity i (fun o => { o with energy := min o.energy 150 })
    w.modifyEntity i (fun o => { o with target := none })

/-- `Organism.interactWithTarget(target)` for the organism at index `i` and the
target organism at index `j`. -/
def Organism.interactWithTarget {β : Type} (ops : BehaviorOps β) (now : ℚ) (w : World β)
    (i j : ℕ) (rand : RandomSource) : World β × RandomSource :=
  match w.entities[i]?, w.entities[j]? with
  | some self, some target =>
    if target.isAlive = false then (w, rand)
    else
      let (interactionResult, behavior, rand) := ops.interact self.behavior now self target rand
      let w := w.modifyEntity i (fun o => { o with behavior := behavior })
      let strengthMultiplier := jsOr (some (ops.interactionStrength behavior)) 1
      let w := w.modifyEntity i (fun o =>
        { o with energy := o.energy + interactionResult.selfEnergyDelta * strengthMultiplier })
      let w := w.modifyEntity j (fun o =>
        { o with energy := o.energy + interactionResult.targetEnergyDelta * strengthMultiplier })
      let w := w.modifyEntity i (fun o => { o with energy := min o.energy 150 })
      let w := w.modifyEntity j (fun o => { o with energy := min o.energy 150 })
      (w, rand)
  | _, _ => (w, rand)

/-! ## Organism: safe spawn search and reproduction -/

/-- `Organism.isPositionSafe(position, entities, obstacles, world)` for the
organism at index `i`.  An obstacle without a radius makes `minDistance` a NaN,
and a comparison with NaN is false. -/
def Organism.isPositionSafe {β : Type} (o : Organism β) (position : Vec3) (w : World β)
    (i : ℕ) : Bool :=
  let myRadius := o.getBoundingRadius
  (indexed w.entities).all (fun je =>
    if je.1 = i ∨ je.2.isAlive = false then true
    else
      let minDistance := myRadius + je.2.getBoundingRadius
      !(decide (distanceSquared position je.2.position < minDistance * minDistance)))
  && w.obstacles.all (fun obstacle =>
    match obstacle.boundingRadius with
    | none => true
    | some obstacleRadius =>
      let minDistance := myRadius + obstacleRadius
      !(decide (distanceSquared position obstacle.position < minDistance * minDistance)))
  && w.foods.all (fun food =>
    if food.isConsumed then true
    else
      let minDistance := myRadius + food.getBoundingRadius
      !(decide (distanceSquared position food.position < minDistance * minDistance)))

/-- The spiral loop of `findSafeSpawnPosition` with `n` attempts left. -/
def Organism.spiralSearch {β : Type} (M : JsMath) (o : Organism β) (w : World β) (i : ℕ)
    (safeDistance : ℚ) : ℕ → ℚ → ℚ → RandomSource → Option Vec3 × RandomSource
  | 0, _, _, rand => (none, rand)
  | n + 1, angle, distance, rand =>
    let x := o.position.x + M.cos angle * distance
    let z := o.position.z + M.sin angle * distance
    let position : Vec3 := { x := x, y := 0, z := z }
    if o.isPositionSafe position w i then (some position, rand)
    else
      let angle := angle + M.pi / 4
      let distance := distance + 6 / 10
      let worldBound := w.terrainSize / (21 / 10)
      if |x| > worldBound ∨ |z| > worldBound then
        let (u, rand) := rand.next
        Organism.spiralSearch M o w i safeDistance n (u * M.pi * 2) safeDistance rand
      else Organism.spiralSearch M o w i safeDistance n angle distance rand

/-- The fallback loop of `findSafeSpawnPosition` with `n` attempts left. -/
def Organism.randomSearch {β : Type} (o : Organism β) (w : World β) (i : ℕ) :
    ℕ → RandomSource → Option Vec3 × RandomSource
  | 0, rand => (none, rand)
  | n + 1, rand =>
    let worldBound := w.terrainSize / (25 / 10)
    let (u1, rand) := rand.next
    let (u2, rand) := rand.next
    let position : Vec3 := { x := (u1 * 2 - 1) * worldBound, y := 0, z := (u2 * 2 - 1) * worldBound }
    if o.isPositionSafe position w i then (some position, rand)
    else Organism.randomSearch o w i n rand

/-- `Organism.findSafeSpawnPosition(world)` for the organism at index `i`. -/
def Organism.findSafeSpawnPosition {β : Type} (M : JsMath) (o : Organism β) (w : World β)
    (i : ℕ) (rand : RandomSource) : Option Vec3 × RandomSource :=
  let safeDistance := max (15 / 10) (o.size * 2)
  let (u, rand) := rand.next
  let angle := u * M.pi * 2
  match Organism.spiralSearch M o w i safeDistance 20 angle safeDistance rand with
  | (some position, rand) => (some position, rand)
  | (none, rand) => Organism.randomSearch o w i 5 rand

/-- The perturbed trait `T * (1 - mutationFactor + Math.random() * mutationFactor * 2)`. -/
def childTrait (T mutationFactor u : ℚ) : ℚ :=
  T * (1 - mutationFactor + u * mutationFactor * 2)

/-- The `childStats` object of `Organism.reproduce`, from the four draws in
source order. -/
def Organism.childStats {β : Type} (o : Organism β) (mutationFactor u1 u2 u3 u4 : ℚ) : Stats :=
  { energy := 70
    speed := childTrait o.speed mutationFactor u1
    size := childTrait o.size mutationFactor u2
    lifespan := childTrait o.maxLifespan mutationFactor u3
    reproductionRate := childTrait o.reproductionRate mutationFactor u4 }

/-- `Organism.reproduce(world)` for the organism at index `i`; the third
component is the offspring returned, if any. -/
def Organism.reproduce {β : Type} (M : JsMath) (ops : BehaviorOps β) (w : World β) (i : ℕ)
    (rand : RandomSource) : World β × RandomSource × Option (Organism β) :=
  match w.entities[i]? with
  | none => (w, rand, none)
  | some o =>
    if o.energy < 50 then (w, rand, none)
    else
      let mutationFactor := 2 / 10 * jsOr w.mutationRate (1 / 10)
      let (u1, rand) := rand.next
      let (u2, rand) := rand.next
      let (u3, rand) := rand.next
      let (u4, rand) := rand.next
      let childStats := o.childStats mutationFactor u1 u2 u3 u4
      let (roll, rand) := rand.next
      let (behaviorType, rand) :=
        if roll < jsOr w.mutationRate (1 / 10) then
          let (u, rand) := rand.next
          (behaviorTypes[floorIndex u behaviorTypes.length]?, rand)
        else (some (ops.type o.behavior), rand)
      match o.findSafeSpawnPosition M w i rand with
      | (none, rand) => (w, rand, none)
      | (some safePosition, rand) =>
        let (offspring, w, rand) :=
          EntityFactory.createOrganism M ops w behaviorType (some safePosition) (some childStats) rand
        let w := w.addEntity offspring
        let w := w.modifyEntity i (fun o => { o with energy := o.energy - 20 })
        (w, rand, some offspring)

/-! ## Organism: the per-tick update -/

/-- The first half of `decideAction`: once the cooldown is over, feeding when
energy is below 70, otherwise target selection and interaction. -/
def Organism.decideInteraction {β : Type} (ops : BehaviorOps β) (now : ℚ)
    (w : World β) (i : ℕ) (rand : RandomSource) : World β × RandomSource :=
  match w.entities[i]? with
  | none => (w, rand)
  | some o =>
    let cooldownOver := decide (o.age - o.lastInteractionTime > o.interactionCooldown)
    if cooldownOver then
      if o.energy < 70 then
        match o.findNearestFood w with
        | none => (w, rand)
        | some k =>
          match w.foods[k]? with
          | none => (w, rand)
          | some food =>
            if food.isConsumed then (w, rand)
            else
              let w := w.modifyEntity i (fun o => { o with target := some (.food k) })
              if o.isTargetInRange food.position (15 / 10) then
                let w := Organism.eatFood w i k
                (w.modifyEntity i (fun o => { o with lastInteractionTime := o.age }), rand)
              else (w, rand)
      else
        let nearbyEntities := o.getNearbyEntities w i 5
        if nearbyEntities.length > 0 then
          let (target, behavior, rand) := ops.selectTarget o.behavior o nearbyEntities rand
          let w := w.modifyEntity i (fun o =>
            { o with behavior := behavior, target := target.map Target.organism })
          match target with
          | none => (w, rand)
          | some j =>
            match w.entities[j]? with
            | none => (w, rand)
            | some t =>
              if o.isTargetInRange t.position (15 / 10) then
                let (w, rand) := Organism.interactWithTarget ops now w i j rand
                (w.modifyEntity i (fun o => { o with lastInteractionTime := o.age }), rand)
              else (w, rand)
        else (w, rand)
    else (w, rand)

/-- The second half of `decideAction`: above the reproduction threshold, one
draw against `reproductionRate * deltaTime * resourceMultiplier`. -/
def Organism.tryReproduce {β : Type} (M : JsMath) (ops : BehaviorOps β) (deltaTime : ℚ)
    (w : World β) (i : ℕ) (rand : RandomSource) : World β × RandomSource :=
  match w.entities[i]? with
  | none => (w, rand)
  | some o =>
    let reproductionThreshold : ℚ := 50
    if o.energy > reproductionThreshold then
      let (u, rand) := rand.next
      if u < o.reproductionRate * deltaTime * o.resourceMultiplier then
        let (w, rand, _) := Organism.reproduce M ops w i rand
        (w, rand)
      else (w, rand)
    else (w, rand)

/-- `Organism.decideAction(deltaTime, world)` for the organism at index `i`. -/
def Organism.decideAction {β : Type} (M : JsMath) (ops : BehaviorOps β) (deltaTime now : ℚ)
    (w : World β) (i : ℕ) (rand : RandomSource) : World β × RandomSource :=
  let (w, rand) := Organism.decideInteraction ops now w i rand
  Organism.tryReproduce M ops deltaTime w i rand

/-- The object returned by `checkCollision`. -/
inductive Collision
  | entity (idx : ℕ)
  | obstacle (idx : ℕ)
  deriving DecidableEq

/-- `Organism.checkCollision(newPosition, world)` for the organism at index
`i`: the first colliding organism, else the first colliding obstacle. -/
def Organism.checkCollision {β : Type} (o : Organism β) (newPosition : Vec3) (w : World β)
    (i : ℕ) : Option Collision :=
  let myRadius := o.getBoundingRadius
  match (indexed w.entities).find? (fun je =>
      if je.1 = i ∨ je.2.isAlive = false then false
      else
        let minDistance := myRadius + je.2.getBoundingRadius
        decide (distanceSquared newPosition je.2.position < minDistance * minDistance)) with
  | some je => some (.entity je.1)
  | none =>
    match (indexed w.obstacles).find? (fun ko =>
        match ko.2.boundingRadius with
        | none => false
        | some obstacleRadius =>
          let minDistance := myRadius + obstacleRadius
          decide (distanceSquared newPosition ko.2.position < minDistance * minDistance)) with
    | some ko => some (.obstacle ko.1)
    | none => none

/-- The position of the organism or obstacle a collision object refers to. -/
def Collision.position {β : Type} (w : World β) : Collision → Option Vec3
  | .entity j => (w.entities[j]?).map (fun e => e.position)
  | .obstacle k => (w.obstacles[k]?).map (fun ob => ob.position)

/-- `Organism.handleCollision(collision, world)`.  A collision object comes from
`checkCollision` and is of type `'entity'` or `'obstacle'`, so the two branches
of the source that compute the direction away from it are one here and its
last branch is never taken. -/
def Organism.handleCollision {β : Type} (M : JsMath) (o : Organism β) (collision : Collision)
    (w : World β) (rand : RandomSource) : Organism β × RandomSource :=
  let now := o.age
  if now - o.lastCollisionTime < 5 / 10 then (o, rand)
  else
    let o := { o with lastCollisionTime := now }
    let o := { o with collisionAvoidanceTime := 2 }
    let other := (collision.position w).getD o.position
    let awayX := o.position.x - other.x
    let awayZ := o.position.z - other.z
    let length := M.sqrt (awayX * awayX + awayZ * awayZ)
    let normalizedAwayX := if length > 0 then awayX / length else awayX
    let normalizedAwayZ := if length > 0 then awayZ / length else awayZ
    let (u, rand) := rand.next
    let randomAngle := (u - 5 / 10) * M.pi * (3 / 10)
    let cos := M.cos randomAngle
    let sin := M.sin randomAngle
    let avoidanceDirection : Dir :=
      { x := normalizedAwayX * cos - normalizedAwayZ * sin,
        z := normalizedAwayX * sin + normalizedAwayZ * cos }
    let o := { o with avoidanceDirection := some avoidanceDirection }
    ({ o with direction := normalizeDirection M o.direction }, rand)

/-- The test of `move` that the current target can still be pursued: an
organism that is alive, or a food item that is not consumed; the result is the
target's position. -/
def World.liveTargetPosition {β : Type} (w : World β) : Option Target → Option Vec3
  | none => none
  | some (.organism j) =>
    match w.entities[j]? with
    | some t => if t.isAlive then some t.position else none
    | none => none
  | some (.food k) =>
    match w.foods[k]? with
    | some f => if f.isConsumed then none else some f.position
    | none => none

/-- `Math.max(-worldBound, Math.min(worldBound, v))`. -/
def clampToBound (worldBound v : ℚ) : ℚ :=
  max (-worldBound) (min worldBound v)

/-- The first block of `move`: choosing the direction.  When the avoidance
direction is copied into `direction` the two are one object, so the
normalisation shows in both. -/
def Organism.steer {β : Type} (M : JsMath) (deltaTime : ℚ) (w : World β) (o : Organism β)
    (rand : RandomSource) : Organism β × RandomSource :=
  if o.collisionAvoidanceTime > 0 then
    let o := { o with collisionAvoidanceTime := o.collisionAvoidanceTime - deltaTime }
    let o : Organism β :=
      match o.avoidanceDirection with
      | some d =>
        { o with direction := normalizeDirection M d,
                 avoidanceDirection := some (normalizeDirection M d) }
      | none => o
    let o := if o.collisionAvoidanceTime ≤ 0 then { o with avoidanceDirection := none } else o
    (o, rand)
  else
    match w.liveTargetPosition o.target with
    | some targetPosition =>
      let toTarget : Dir :=
        { x := targetPosition.x - o.position.x, z := targetPosition.z - o.position.z }
      ({ o with direction := normalizeDirection M toTarget }, rand)
    | none =>
      let (u, rand) := rand.next
      let (o, rand) : Organism β × RandomSource :=
        if u < 2 / 100 then
          let (u1, rand) := rand.next
          let (u2, rand) := rand.next
          ({ o with direction := normalizeDirection M { x := u1 * 2 - 1, z := u2 * 2 - 1 } }, rand)
        else (o, rand)
      ({ o with target := none }, rand)

/-- The second block of `move`: the proposed displacement, accepted when it is
collision-free, otherwise replaced by the pre-tick position and possibly a
fifth of the step along the avoidance direction. -/
def Organism.displace {β : Type} (M : JsMath) (deltaTime : ℚ) (w : World β) (i : ℕ)
    (o : Organism β) (rand : RandomSource) : Organism β × RandomSource :=
  let moveDistance := o.speed * deltaTime
  let newPosition : Vec3 :=
    { x := o.position.x + o.direction.x * moveDistance
      y := o.position.y
      z := o.position.z + o.direction.z * moveDistance }
  match o.checkCollision newPosition w i with
  | none => ({ o with position := newPosition }, rand)
  | some collision =>
    let (o, rand) := o.handleCollision M collision w rand
    let o := { o with position := o.previousPosition }
    match o.avoidanceDirection with
    | some avoidanceDirection =>
      let safeDistance := moveDistance * (2 / 10)
      let safePosition : Vec3 :=
        { x := o.position.x + avoidanceDirection.x * safeDistance
          y := o.position.y
          z := o.position.z + avoidanceDirection.z * safeDistance }
      if (o.checkCollision safePosition w i).isNone then
        ({ o with position := safePosition }, rand)
      else (o, rand)
    | none => (o, rand)

/-- The last block of `move`: the boundary check. -/
def Organism.clampToWorld {β : Type} (w : World β) (o : Organism β) : Organism β :=
  let worldBound := w.terrainSize / (21 / 10)
  let o := { o with position := { o.position with x := clampToBound worldBound o.position.x } }
  { o with position := { o.position with z := clampToBound worldBound o.position.z } }

/-- `Organism.move(deltaTime, world)` for the organism at index `i`. -/
def Organism.move {β : Type} (M : JsMath) (deltaTime : ℚ) (w : World β) (i : ℕ) (rand : RandomSource) :
    World β × RandomSource :=
  match w.entities[i]? with
  | none => (w, rand)
  | some o =>
    let (o, rand) := o.steer M deltaTime w rand
    let (o, rand) := o.displace M deltaTime w i rand
    let o := o.clampToWorld w
    ({ w with entities := w.entities.set i o }, rand)

/-- `Organism.die()`. -/
def Organism.die {β : Type} (o : Organism β) : Organism β :=
  { o with isAlive := false }

/-- The energy `update` leaves after the decay step: `movementFactor` is 0.9
when a target is set and 0.4 otherwise. -/
def Organism.decayedEnergy {β : Type} (o : Organism β) (deltaTime : ℚ) : ℚ :=
  let movementFactor : ℚ := if o.target.isSome then 9 / 10 else 4 / 10
  o.energy - deltaTime * o.energyConsumptionRate * movementFactor

/-- `Organism.update(deltaTime, world)` for the organism at index `i`, with the
clock reading `now` for the tick. -/
def Organism.update {β : Type} (M : JsMath) (ops : BehaviorOps β) (deltaTime now : ℚ)
    (w : World β) (i : ℕ) (rand : RandomSource) : World β × RandomSource :=
  match w.entities[i]? with
  | none => (w, rand)
  | some o =>
    if o.isAlive = false then (w, rand)
    else
      let o := { o with previousPosition := o.position }
      let o := { o with age := o.age + deltaTime }
      let o := { o with energy := o.decayedEnergy deltaTime }
      if o.energy ≤ 0 ∨ o.age ≥ o.maxLifespan then
        ({ w with entities := w.entities.set i o.die }, rand)
      else
        let w := { w with entities := w.entities.set i o }
        let (w, rand) := Organism.decideAction M ops deltaTime now w i rand
        Organism.move M deltaTime w i rand

/-! ## Statistics tracker -/

/-- A history record `{time, count}`. -/
structure Sample where
  time : ℚ
  count : ℕ
  deriving DecidableEq

/-- The state of a `StatisticsTracker`: `stats.totalPopulation`,
`stats.behaviorCounts` (one counter per behaviour type),
`stats.history.population`, `stats.history.behaviors` (one series per type) and
the bookkeeping fields. -/
structure StatisticsTracker where
  totalPopulation : ℕ := 0
  behaviorCounts : BehaviorType → ℕ := fun _ => 0
  populationHistory : List Sample := []
  behaviorHistory : BehaviorType → List Sample := fun _ => []
  lastUpdateTime : ℚ
  updateInterval : ℚ := 1000
  births : ℕ := 0
  deaths : ℕ := 0
  lastBirthCount : ℕ := 0
  lastDeathCount : ℕ := 0
  lastPopulation : ℕ := 0

/-- The constructor, run when `Date.now()` reads `now`. -/
def StatisticsTracker.new (now : ℚ) : StatisticsTracker :=
  { lastUpdateTime := now }

/-- The counting loop of `update` over one entity. -/
def StatisticsTracker.countEntity {β : Type} (ops : BehaviorOps β) (s : StatisticsTracker)
    (entity : Organism β) : StatisticsTracker :=
  if entity.isAlive then
    let s := { s with totalPopulation := s.totalPopulation + 1 }
    let behaviorType := ops.type entity.behavior
    { s with behaviorCounts := fun t =>
        if t = behaviorType then s.behaviorCounts t + 1 else s.behaviorCounts t }
  else s

/-- `Array.prototype.shift` applied when the series is longer than
`maxHistoryLength`. -/
def limitHistory (maxHistoryLength : ℕ) (series : List Sample) : List Sample :=
  if series.length > maxHistoryLength then series.tail else series

/-- The block "Reset counts" of `update`, after `lastUpdateTime = now`. -/
def StatisticsTracker.resetCounts (s : StatisticsTracker) (now : ℚ) : StatisticsTracker :=
  { s with lastUpdateTime := now, totalPopulation := 0, behaviorCounts := fun _ => 0 }

/-- The block "Record data for history" of `update`: one sample is pushed on
the population series and on each per-type series. -/
def StatisticsTracker.recordHistory (s : StatisticsTracker) (now : ℚ) : StatisticsTracker :=
  { s with
    populationHistory := s.populationHistory ++ [Sample.mk now s.totalPopulation]
    behaviorHistory := fun t => s.behaviorHistory t ++ [Sample.mk now (s.behaviorCounts t)] }

/-- The block "Limit history length" of `update`, with `maxHistoryLength = 100`. -/
def StatisticsTracker.limitHistories (s : StatisticsTracker) : StatisticsTracker :=
  { s with
    populationHistory := limitHistory 100 s.populationHistory
    behaviorHistory := fun t => limitHistory 100 (s.behaviorHistory t) }

/-- The block "Calculate births and deaths" of `update`. -/
def StatisticsTracker.trackChanges (s : StatisticsTracker) : StatisticsTracker :=
  if s.lastPopulation > 0 then
    if s.totalPopulation > s.lastPopulation then
      { s with births := s.births + (s.totalPopulation - s.lastPopulation) }
    else if s.totalPopulation < s.lastPopulation then
      { s with deaths := s.deaths + (s.lastPopulation - s.totalPopulation) }
    else s
  else s

/-- The last statement of `update`: `lastPopulation = stats.totalPopulation`. -/
def StatisticsTracker.storeLastPopulation (s : StatisticsTracker) : StatisticsTracker :=
  { s with lastPopulation := s.totalPopulation }

/-- `StatisticsTracker.update(entities)` run when `Date.now()` reads `now`. -/
def StatisticsTracker.update {β : Type} (ops : BehaviorOps β) (s : StatisticsTracker) (now : ℚ)
    (entities : List (Organism β)) : StatisticsTracker :=
  if now - s.lastUpdateTime < s.updateInterval then s
  else
    (((entities.foldl (StatisticsTracker.countEntity ops) (s.resetCounts now)).recordHistory
      now).limitHistories).trackChanges.storeLastPopulation

/-- `StatisticsTracker.reset()`. -/
def StatisticsTracker.reset (s : StatisticsTracker) : StatisticsTracker :=
  { s with totalPopulation := 0, behaviorCounts := fun _ => 0, populationHistory := [],
           behaviorHistory := fun _ => [], births := 0, deaths := 0, lastBirthCount := 0,
           lastDeathCount := 0, lastPopulation := 0 }

/-- A division that reports a zero divisor instead of producing a value. -/
def checkedDiv (a b : ℚ) : Option ℚ :=
  if b = 0 then none else some (a / b)

/-- The loop of `getReproductionRate` over consecutive samples: the list
`changes`, or `none` if a division by zero was met. -/
def ratioChanges : List Sample → Option (List ℚ)
  | prev :: current :: rest =>
    if prev.count > 0 then
      match checkedDiv current.count prev.count, ratioChanges (current :: rest) with
      | some q, some changes => some (q :: changes)
      | _, _ => none
    else ratioChanges (current :: rest)
  | _ => some []

/-- `StatisticsTracker.getReproductionRate()`; `none` would be a division by
zero. -/
def StatisticsTracker.getReproductionRate (s : StatisticsTracker) : Option ℚ :=
  if s.populationHistory.length < 2 then some 1
  else
    let last5Points := s.populationHistory.drop (s.populationHistory.length - 5)
    match ratioChanges last5Points with
    | none => none
    | some changes =>
      if changes.length = 0 then some 1
      else checkedDiv (changes.foldl (fun a b => a + b) 0) changes.length

/-- The consecutive pairs `(previous, current)` among the last five samples
whose previous count is positive. -/
def positivePairs (history : List Sample) : List (Sample × Sample) :=
  let last5 := history.drop (history.length - 5)
  (last5.zip last5.tail).filter (fun pc => decide (pc.1.count > 0))

/-- The reproduction ratio as the spec words it: 1 with fewer than two
samples or without a pair, otherwise the arithmetic mean of
`count_i / count_(i-1)` over the pairs. -/
def meanRatio (history : List Sample) : ℚ :=
  if history.length < 2 then 1
  else if (positivePairs history).length = 0 then 1
  else ((positivePairs history).map (fun pc => (pc.2.count : ℚ) / pc.1.count)).sum /
    (positivePairs history).length

/-- The number of living organisms. -/
def livingCount {β : Type} (entities : List (Organism β)) : ℕ :=
  (entities.filter (fun e => e.isAlive)).length

/-- The number of living organisms of behaviour type `t`. -/
def livingOfType {β : Type} (ops : BehaviorOps β) (entities : List (Organism β))
    (t : BehaviorType) : ℕ :=
  (entities.filter (fun e => e.isAlive && decide (ops.type e.behavior = t))).length

/-- The series `new` is the series `old` with `x` appended, the oldest sample
being dropped when `old` already held 100 samples; with at most 100 samples
before there are at most 100 after. -/
def AppendedBounded (old new : List Sample) (x : Sample) : Prop :=
  (old.length < 100 → new = old ++ [x]) ∧
  (old.length = 100 → new = old.tail ++ [x]) ∧
  (old.length ≤ 100 → new.length ≤ 100)

/-- The tracker after a sequence of `update` calls, each with its clock reading
and the organisms it is handed, oldest first. -/
def StatisticsTracker.updates {β : Type} (ops : BehaviorOps β) (s : StatisticsTracker)
    (calls : List (ℚ × List (Organism β))) : StatisticsTracker :=
  calls.foldl (fun s call => s.update ops call.1 call.2) s

/-! ## Simulation manager: initial placement -/

/-- An entry `{interactionStrength, memoryDuration}` of `behaviorParameters`. -/
structure BehaviorParameters where
  interactionStrength : ℚ := 1
  memoryDuration : ℚ := 50
  deriving DecidableEq

/-- The fields of `SimulationManager` with the constructor's values; the
statistics tracker it is handed is taken as built at clock time 0, and
`mutationRate` is also what `world.simulation?.mutationRate` reads once the
world is attached (`World.mutationRate`). -/
structure SimulationManager (β : Type) where
  world : World β
  statistics : StatisticsTracker := StatisticsTracker.new 0
  speed : ℚ := 1
  isPaused : Bool := false
  initialPopulationSize : ℕ := 20
  resourceAbundance : ℚ := 1
  environmentalHarshness : ℚ := 8 / 10
  foodSpawnRate : ℚ := 15 / 10
  foodEnergyValue : ℚ := 30
  baseEnergy : ℚ := 120
  baseSpeed : ℚ := 1
  baseSize : ℚ := 1
  baseLifespan : ℚ := 120
  baseReproductionRate : ℚ := 8 / 1000
  mutationRate : ℚ := 1 / 10
  behaviorParameters : BehaviorType → BehaviorParameters := fun _ => {}
  displayLabels : Bool := false
  showInteractions : Bool := true
  showHealthBars : Bool := false
  timeSinceLastFoodSpawn : ℚ := 0

/-- `SimulationManager.setBaseSize(size)`. -/
def SimulationManager.setBaseSize {β : Type} (sim : SimulationManager β) (size : ℚ) :
    SimulationManager β :=
  { sim with baseSize := size }

/-- The three exclusion tests the placement searches run on one candidate,
with clearance `safeDistance`: against living organisms, against obstacles
(radius `boundingRadius || 0.5`) and against unconsumed food. -/
def World.isClear {β : Type} (w : World β) (safeDistance : ℚ) (position : Vec3) : Bool :=
  w.entities.all (fun entity =>
    if entity.isAlive = false then true
    else !(decide (distanceSquared position entity.position < safeDistance * safeDistance)))
  && w.obstacles.all (fun obstacle =>
    let obstacleRadius := jsOr obstacle.boundingRadius (5 / 10)
    let minDistance := safeDistance + obstacleRadius
    !(decide (distanceSquared position obstacle.position < minDistance * minDistance)))
  && w.foods.all (fun food =>
    if food.isConsumed then true
    else !(decide (distanceSquared position food.position < safeDistance * safeDistance)))

/-- The attempt loop of `findSafePosition` with `n` attempts left. -/
def SimulationManager.findSafePositionLoop {β : Type} (sim : SimulationManager β)
    (safeDistance : ℚ) : ℕ → RandomSource → Option Vec3 × RandomSource
  | 0, rand => (none, rand)
  | n + 1, rand =>
    let (position, rand) := sim.world.getRandomPosition rand
    if sim.world.isClear safeDistance position then (some position, rand)
    else SimulationManager.findSafePositionLoop sim safeDistance n rand

/-- `SimulationManager.findSafePosition()`. -/
def SimulationManager.findSafePosition {β : Type} (sim : SimulationManager β) (rand : RandomSource) :
    Option Vec3 × RandomSource :=
  let safeDistance : ℚ := 2
  let maxAttempts := 20
  sim.findSafePositionLoop safeDistance maxAttempts rand

/-- `SimulationManager.createOrganism(behaviorType, position)`; `none` is the
type `'random'`. -/
def SimulationManager.createOrganism {β : Type} (M : JsMath) (ops : BehaviorOps β)
    (sim : SimulationManager β) (behaviorType : Option BehaviorType) (position : Option Vec3)
    (rand : RandomSource) : Organism β × SimulationManager β × RandomSource :=
  let (u1, rand) := rand.next
  let (u2, rand) := rand.next
  let (u3, rand) := rand.next
  let (u4, rand) := rand.next
  let (u5, rand) := rand.next
  let stats : Stats :=
    { energy := sim.baseEnergy * (8 / 10 + u1 * (4 / 10))
      speed := sim.baseSpeed * (8 / 10 + u2 * (4 / 10))
      size := sim.baseSize * (8 / 10 + u3 * (4 / 10))
      lifespan := sim.baseLifespan * (8 / 10 + u4 * (4 / 10))
      reproductionRate := sim.baseReproductionRate * (8 / 10 + u5 * (4 / 10)) }
  let (organism, world, rand) :=
    EntityFactory.createOrganism M ops sim.world behaviorType position (some stats) rand
  (organism, { sim with world := world }, rand)

/-! ## Predicates used in the statements -/

/-- Every organism of `w` is still at its index in `w'`, with the same `isAlive`
flag and the same age. -/
def World.Stable {β : Type} (w w' : World β) : Prop :=
  ∀ (j : ℕ) (o : Organism β), w.entities[j]? = some o →
    ∃ o', w'.entities[j]? = some o' ∧ o'.isAlive = o.isAlive ∧ o'.age = o.age

/-- The record `update` writes back when the organism dies in the decay step:
only the stored previous position, the age, the energy and the `isAlive` flag
differ from `o`. -/
def Organism.decayedToDeath {β : Type} (o : Organism β) (deltaTime : ℚ) : Organism β :=
  { o with previousPosition := o.position, age := o.age + deltaTime,
           energy := o.decayedEnergy deltaTime, isAlive := false }

/-- The record `update` writes back before `decideAction` when the organism
survives the decay step. -/
def Organism.decayed {β : Type} (o : Organism β) (deltaTime : ℚ) : Organism β :=
  { o with previousPosition := o.position, age := o.age + deltaTime,
           energy := o.decayedEnergy deltaTime }

/-- Crude stand-ins for the `Math` functions, for evaluating the model. -/
def JsMath.crude : JsMath :=
  { sqrt := fun x => x, cos := fun _ => 1, sin := fun _ => 0, pi := 22 / 7 }

/-- A behaviour without state that selects nobody and exchanges nothing. -/
def BehaviorOps.idle : BehaviorOps Unit :=
  { type := fun _ => .cooperative
    interactionStrength := fun _ => 1
    selectTarget := fun _ _ _ rand => (none, (), rand)
    interact := fun _ _ _ _ rand => ({ selfEnergyDelta := 0, targetEnergyDelta := 0 }, (), rand)
    construct := fun _ rand => ((), rand) }

/-- The random stream that always yields one half. -/
def RandomSource.half : RandomSource :=
  { draws := fun _ => 1 / 2, pos := 0 }

/-- The scenario of the spec: a population of one organism with energy 10,
lifespan 100 and age 99. -/
def World.scenario : World Unit :=
  { entities := [{ Organism.sample 10 with age := 99 }] }

/-- A small world: a large organism at `(3, 0, 0)`, a unit-size organism at
`(0, 0, -3)`, one food item at `(0, 0, 5)` and one obstacle without radius at
`(-4, 0, 0)`. -/
def World.sample : World Unit :=
  { entities := [{ Organism.sample 100 with size := 2, position := ⟨3, 0, 0⟩ },
                 { Organism.sample 100 with meshId := 2, position := ⟨0, 0, -3⟩ }]
    foods := [{ type := "apple", energyValue := 30, position := ⟨0, 0, 5⟩, size := 7 / 10 }]
    obstacles := [{ type := "rock", boundingRadius := none, position := ⟨-4, 0, 0⟩ }]
    nextMeshId := 3 }

/-- A simulation manager with the constructor's parameters over `World.sample`. -/
def SimulationManager.sample : SimulationManager Unit :=
  { world := World.sample }

/-! ## The candidate positions of the spawn search -/

/-- The positions the spiral loop of `findSafeSpawnPosition` visits in `n`
attempts when none of them is accepted, with the random stream left after
them. -/
def Organism.spiralCandidates {β : Type} (M : JsMath) (o : Organism β) (w : World β)
    (safeDistance : ℚ) : ℕ → ℚ → ℚ → RandomSource → List Vec3 × RandomSource
  | 0, _, _, rand => ([], rand)
  | n + 1, angle, distance, rand =>
    let x := o.position.x + M.cos angle * distance
    let z := o.position.z + M.sin angle * distance
    let position : Vec3 := { x := x, y := 0, z := z }
    let worldBound := w.terrainSize / (21 / 10)
    let next :=
      if |x| > worldBound ∨ |z| > worldBound then
        Organism.spiralCandidates M o w safeDistance n (rand.next.1 * M.pi * 2) safeDistance
          rand.next.2
      else
        Organism.spiralCandidates M o w safeDistance n (angle + M.pi / 4) (distance + 6 / 10) rand
    (position :: next.1, next.2)

/-- The positions the fallback loop of `findSafeSpawnPosition` visits in `n`
attempts when none of them is accepted. -/
def Organism.randomCandidates {β : Type} (w : World β) : ℕ → RandomSource → List Vec3
  | 0, _ => []
  | n + 1, rand =>
    let worldBound := w.terrainSize / (25 / 10)
    let position : Vec3 :=
      { x := (rand.next.1 * 2 - 1) * worldBound, y := 0,
        z := (rand.next.2.next.1 * 2 - 1) * worldBound }
    position :: Organism.randomCandidates w n rand.next.2.next.2

/-- The candidate positions of `findSafeSpawnPosition`: twenty on the spiral,
then five random ones. -/
def Organism.spawnCandidates {β : Type} (M : JsMath) (o : Organism β) (w : World β)
    (rand : RandomSource) : List Vec3 :=
  let safeDistance := max (15 / 10) (o.size * 2)
  let spiral :=
    Organism.spiralCandidates M o w safeDistance 20 (rand.next.1 * M.pi * 2) safeDistance
      rand.next.2
  spiral.1 ++ Organism.randomCandidates w 5 spiral.2

/-- The unit-size organism of `World.sample`, stored at index 1. -/
def Organism.sampleParent : Organism Unit :=
  { Organism.sample 100 with meshId := 2, position := ⟨0, 0, -3⟩ }

/-- The total energy yielded by `n` successive `consume()` calls on one food
item, with the item afterwards. -/
def Food.consumeTimes (f : Food) : ℕ → ℚ × Food
  | 0 => (0, f)
  | n + 1 =>
    let first := f.consume
    let rest := Food.consumeTimes first.2 n
    (first.1 + rest.1, rest.2)

/-- Every food item of `w` is still at its index in `w'`, with the same energy
value, and consumed if it was consumed. -/
def World.FoodsKept {β : Type} (w w' : World β) : Prop :=
  ∀ (k : ℕ) (f : Food), w.foods[k]? = some f →
    ∃ f', w'.foods[k]? = some f' ∧ f'.energyValue = f.energyValue ∧
      (f.isConsumed = true → f'.isConsumed = true)

/-- The food item of `World.sample`. -/
def Food.sample : Food :=
  { type := "apple", energyValue := 30, position := ⟨0, 0, 5⟩, size := 7 / 10 }

/-! ## Food spawning -/

/-- The `foodTypes` array of `EntityFactory.createFood`. -/
def foodTypes : List String := ["apple", "orange", "berry", "banana"]

/-- The `Food` constructor: `type || 'apple'`, `energyValue || 30`,
`position || {x: 0, y: 0, z: 0}` and a size drawn in `[0.6, 0.8)`. -/
def Food.new (type : Option String) (position : Option Vec3) (energyValue : ℚ)
    (rand : RandomSource) : Food × RandomSource :=
  let (u, rand) := rand.next
  ({ type := match type with
             | some t => if t = "" then "apple" else t
             | none => "apple"
     energyValue := jsOr (some energyValue) 30
     position := position.getD { x := 0, y := 0, z := 0 }
     size := 6 / 10 + u * (2 / 10) }, rand)

/-- `EntityFactory.createFood(type, position, energyValue)`; the type
`'random'` is replaced by a drawn entry of `foodTypes`. -/
def EntityFactory.createFood (type : String) (position : Option Vec3) (energyValue : ℚ)
    (rand : RandomSource) : Food × RandomSource :=
  if type = "random" then
    let (u, rand) := rand.next
    Food.new (foodTypes[floorIndex u foodTypes.length]?) position energyValue rand
  else Food.new (some type) position energyValue rand

/-- `SimulationManager.findSafeFoodPosition()`: fifteen tested candidates with
clearance 1.2, then one untested random position as last resort. -/
def SimulationManager.findSafeFoodPosition {β : Type} (sim : SimulationManager β)
    (rand : RandomSource) : Option Vec3 × RandomSource :=
  let safeDistance : ℚ := 12 / 10
  let maxAttempts := 15
  match sim.findSafePositionLoop safeDistance maxAttempts rand with
  | (some position, rand) => (some position, rand)
  | (none, rand) =>
    let (position, rand) := sim.world.getRandomPosition rand
    (some position, rand)

/-- `SimulationManager.spawnFood()`: the food returned (`none` for `null`) and
the manager afterwards. -/
def SimulationManager.spawnFood {β : Type} (sim : SimulationManager β) (rand : RandomSource) :
    Option Food × SimulationManager β × RandomSource :=
  match sim.findSafeFoodPosition rand with
  | (some position, rand) =>
    let (food, rand) := EntityFactory.createFood "random" (some position) sim.foodEnergyValue rand
    (some food, { sim with world := sim.world.addFood food }, rand)
  | (none, rand) => (none, sim, rand)

/-- The positions `n` successive calls of `getRandomPosition` return, with the
random stream left after them. -/
def World.positionCandidates {β : Type} (w : World β) : ℕ → RandomSource → List Vec3 × RandomSource
  | 0, rand => ([], rand)
  | n + 1, rand =>
    let next := World.positionCandidates w n (w.getRandomPosition rand).2
    ((w.getRandomPosition rand).1 :: next.1, next.2)

/-- A manager over the one-organism world of the scenario, whose organism
stands at the origin. -/
def SimulationManager.crowded : SimulationManager Unit :=
  { world := World.scenario }

/-! ## The stages of `reproduce` -/

/-- The `childStats` object `reproduce` builds from the first four draws, with
mutation factor `0.2 * (world.simulation?.mutationRate || 0.1)`. -/
def Organism.reproduceChildStats {β : Type} (o : Organism β) (w : World β)
    (rand : RandomSource) : Stats :=
  o.childStats (2 / 10 * jsOr w.mutationRate (1 / 10)) rand.next.1 rand.next.2.next.1
    rand.next.2.next.2.next.1 rand.next.2.next.2.next.2.next.1

/-- The mutation roll of `reproduce`: the fifth draw. -/
def Organism.reproduceRoll (rand : RandomSource) : ℚ :=
  rand.next.2.next.2.next.2.next.2.next.1

/-- The behaviour type `reproduce` hands to the factory: the parent's, unless
the roll is below `world.simulation?.mutationRate || 0.1`, in which case the
sixth draw indexes `behaviorTypes`. -/
def Organism.reproduceType {β : Type} (ops : BehaviorOps β) (o : Organism β) (w : World β)
    (rand : RandomSource) : Option BehaviorType :=
  if Organism.reproduceRoll rand < jsOr w.mutationRate (1 / 10) then
    behaviorTypes[floorIndex rand.next.2.next.2.next.2.next.2.next.2.next.1 behaviorTypes.length]?
  else some (ops.type o.behavior)

/-- The random stream `reproduce` hands to `findSafeSpawnPosition`: what is
left after the trait draws, the roll and, when it was made, the type draw. -/
def Organism.reproduceSpawnRand {β : Type} (w : World β) (rand : RandomSource) : RandomSource :=
  if Organism.reproduceRoll rand < jsOr w.mutationRate (1 / 10) then
    rand.next.2.next.2.next.2.next.2.next.2.next.2
  else rand.next.2.next.2.next.2.next.2.next.2

/-- The parent after paying the reproduction cost. -/
def Organism.afterReproduction {β : Type} (o : Organism β) : Organism β :=
  { o with energy := o.energy - 20 }

/-- A behaviour whose only state is its type tag. -/
def BehaviorOps.tagged : BehaviorOps BehaviorType :=
  { type := fun t => t
    interactionStrength := fun _ => 1
    selectTarget := fun t _ _ rand => (none, t, rand)
    interact := fun t _ _ _ rand => ({ selfEnergyDelta := 0, targetEnergyDelta := 0 }, t, rand)
    construct := fun t rand => (t, rand) }

/-- The random stream that always yields zero. -/
def RandomSource.zero : RandomSource :=
  { draws := fun _ => 0, pos := 0 }

/-- A cooperative organism of energy 100, speed 1 and size 1 at the origin. -/
def Organism.cooperativeParent : Organism BehaviorType :=
  { behavior := .cooperative, meshId := 1, energy := 100, speed := 1, size := 1,
    maxLifespan := 100, reproductionRate := 5 / 1000, position := ⟨0, 0, 0⟩,
    direction := ⟨1, 0⟩, previousPosition := ⟨0, 0, 0⟩ }

/-- A world attached to a simulation whose mutation rate was set to 0, holding
the cooperative parent only. -/
def World.noMutation : World BehaviorType :=
  { entities := [Organism.cooperativeParent], mutationRate := some 0 }

/-- Every organism of the world has energy at most 150. -/
def World.EnergyCapped {β : Type} (w : World β) : Prop :=
  ∀ (k : ℕ) (o : Organism β), w.entities[k]? = some o → o.energy ≤ 150

/-- A world whose only organism is almost out of energy (0.01), with the
consumption rate 0.8 the orchestrator sets at the default harshness. -/
def World.starving : World Unit :=
  { entities := [{ Organism.sample (1 / 100) with energyConsumptionRate := 8 / 10 }] }

/-! ## Snapshots: `serialize` and `deserialize` -/

/-- The record `Organism.serialize()` returns. -/
structure OrganismRecord where
  type : BehaviorType
  position : Vec3
  stats : Stats
  age : ℚ
  deriving DecidableEq

/-- A food record `{type, position, energyValue}` of a snapshot. -/
structure FoodRecord where
  type : String
  position : Vec3
  energyValue : ℚ
  deriving DecidableEq

/-- An obstacle record `{type, position}` of a snapshot. -/
structure ObstacleRecord where
  type : String
  position : Vec3
  deriving DecidableEq

/-- The object `SimulationManager.serialize()` returns. -/
structure Snapshot where
  speed : ℚ
  initialPopulationSize : ℕ
  worldSize : ℚ
  resourceAbundance : ℚ
  environmentalHarshness : ℚ
  foodSpawnRate : ℚ
  foodEnergyValue : ℚ
  baseEnergy : ℚ
  baseSpeed : ℚ
  baseSize : ℚ
  baseLifespan : ℚ
  baseReproductionRate : ℚ
  mutationRate : ℚ
  behaviorParameters : BehaviorType → BehaviorParameters
  displayLabels : Bool
  showInteractions : Bool
  showHealthBars : Bool
  entities : List OrganismRecord
  foods : List FoodRecord
  obstacles : List ObstacleRecord

/-- `Organism.serialize()`. -/
def Organism.serialize {β : Type} (ops : BehaviorOps β) (o : Organism β) : OrganismRecord :=
  { type := ops.type o.behavior
    position := { x := o.position.x, y := o.position.y, z := o.position.z }
    stats := { energy := o.energy, speed := o.speed, size := o.size, lifespan := o.maxLifespan,
               reproductionRate := o.reproductionRate }
    age := o.age }

/-- The food record `serialize` writes for a food item. -/
def Food.serialize (food : Food) : FoodRecord :=
  { type := food.type
    position := { x := food.position.x, y := food.position.y, z := food.position.z }
    energyValue := food.energyValue }

/-- The obstacle record `serialize` writes for an obstacle. -/
def Obstacle.serialize (obstacle : Obstacle) : ObstacleRecord :=
  { type := obstacle.type
    position := { x := obstacle.position.x, y := obstacle.position.y, z := obstacle.position.z } }

/-- `SimulationManager.serialize()`. -/
def SimulationManager.serialize {β : Type} (ops : BehaviorOps β) (sim : SimulationManager β) :
    Snapshot :=
  { speed := sim.speed
    initialPopulationSize := sim.initialPopulationSize
    worldSize := sim.world.terrainSize
    resourceAbundance := sim.resourceAbundance
    environmentalHarshness := sim.environmentalHarshness
    foodSpawnRate := sim.foodSpawnRate
    foodEnergyValue := sim.foodEnergyValue
    baseEnergy := sim.baseEnergy
    baseSpeed := sim.baseSpeed
    baseSize := sim.baseSize
    baseLifespan := sim.baseLifespan
    baseReproductionRate := sim.baseReproductionRate
    mutationRate := sim.mutationRate
    behaviorParameters := sim.behaviorParameters
    displayLabels := sim.displayLabels
    showInteractions := sim.showInteractions
    showHealthBars := sim.showHealthBars
    entities := (sim.world.entities.filter (fun e => e.isAlive)).map (Organism.serialize ops)
    foods := (sim.world.foods.filter (fun f => !f.isConsumed)).map Food.serialize
    obstacles := sim.world.obstacles.map Obstacle.serialize }

/-- `World.reset()`: the three arrays are emptied. -/
def World.reset {β : Type} (w : World β) : World β :=
  { w with entities := [], foods := [], obstacles := [] }

/-- `World.addObstacle(obstacle)`. -/
def World.addObstacle {β : Type} (w : World β) (obstacle : Obstacle) : World β :=
  { w with obstacles := w.obstacles ++ [obstacle] }

/-- `EntityFactory.createTree(position)`: the size is drawn in `[1, 1.5)`. -/
def EntityFactory.createTree (position : Vec3) (rand : RandomSource) : Obstacle × RandomSource :=
  let (u, rand) := rand.next
  let size := 1 + u * (5 / 10)
  ({ type := "tree", boundingRadius := some (size * (3 / 10)), position := position }, rand)

/-- `EntityFactory.createRock(position)`: the size is drawn in `[0.2, 0.5)`. -/
def EntityFactory.createRock (position : Vec3) (rand : RandomSource) : Obstacle × RandomSource :=
  let (u, rand) := rand.next
  let size := 2 / 10 + u * (3 / 10)
  ({ type := "rock", boundingRadius := some size, position := position }, rand)

/-- `SimulationManager.addObstacleAt(type, position)`. -/
def SimulationManager.addObstacleAt {β : Type} (sim : SimulationManager β) (type : String)
    (position : Vec3) (rand : RandomSource) : SimulationManager β × RandomSource :=
  if type = "tree" then
    let (obstacle, rand) := EntityFactory.createTree position rand
    ({ sim with world := sim.world.addObstacle obstacle }, rand)
  else if type = "rock" then
    let (obstacle, rand) := EntityFactory.createRock position rand
    ({ sim with world := sim.world.addObstacle obstacle }, rand)
  else (sim, rand)

/-- The body of the `data.entities.forEach` of `deserialize`. -/
def SimulationManager.restoreOrganism {β : Type} (M : JsMath) (ops : BehaviorOps β)
    (state : SimulationManager β × RandomSource) (entityData : OrganismRecord) :
    SimulationManager β × RandomSource :=
  let (organism, sim, rand) :=
    state.1.createOrganism M ops (some entityData.type) (some entityData.position) state.2
  let organism := { organism with energy := entityData.stats.energy }
  let organism := { organism with speed := entityData.stats.speed }
  let organism := { organism with size := entityData.stats.size }
  let organism := { organism with maxLifespan := entityData.stats.lifespan }
  let organism := { organism with reproductionRate := entityData.stats.reproductionRate }
  let organism := { organism with age := jsOr (some entityData.age) 0 }
  ({ sim with world := sim.world.addEntity organism }, rand)

/-- The body of the `data.foods.forEach` of `deserialize`. -/
def SimulationManager.restoreFood {β : Type} (state : SimulationManager β × RandomSource)
    (foodData : FoodRecord) : SimulationManager β × RandomSource :=
  let (food, rand) :=
    EntityFactory.createFood foodData.type (some foodData.position) foodData.energyValue state.2
  ({ state.1 with world := state.1.world.addFood food }, rand)

/-- The body of the `data.obstacles.forEach` of `deserialize`. -/
def SimulationManager.restoreObstacle {β : Type} (state : SimulationManager β × RandomSource)
    (obstacleData : ObstacleRecord) : SimulationManager β × RandomSource :=
  state.1.addObstacleAt obstacleData.type obstacleData.position state.2

/-- The settings block of `deserialize`: the world is reset and every scalar,
the parameter table and the display switches are taken from the snapshot,
`foodSpawnRate` and `foodEnergyValue` through `|| 1.0` and `|| 20`. -/
def SimulationManager.applySettings {β : Type} (sim : SimulationManager β) (data : Snapshot) :
    SimulationManager β :=
  let sim := { sim with world := sim.world.reset }
  let sim := { sim with speed := data.speed, initialPopulationSize := data.initialPopulationSize }
  let sim :=
    if data.worldSize ≠ sim.world.terrainSize then
      { sim with world := { sim.world with terrainSize := data.worldSize } }
    else sim
  let sim := { sim with resourceAbundance := data.resourceAbundance,
                        environmentalHarshness := data.environmentalHarshness,
                        foodSpawnRate := jsOr (some data.foodSpawnRate) 1,
                        foodEnergyValue := jsOr (some data.foodEnergyValue) 20 }
  let sim := { sim with baseEnergy := data.baseEnergy, baseSpeed := data.baseSpeed,
                        baseSize := data.baseSize, baseLifespan := data.baseLifespan,
                        baseReproductionRate := data.baseReproductionRate,
                        mutationRate := data.mutationRate }
  let sim := { sim with world :=
    { sim.world with mutationRate := sim.world.mutationRate.map (fun _ => data.mutationRate) } }
  { sim with behaviorParameters := data.behaviorParameters, displayLabels := data.displayLabels,
             showInteractions := data.showInteractions, showHealthBars := data.showHealthBars }

/-- `SimulationManager.deserialize(data)`. -/
def SimulationManager.deserialize {β : Type} (M : JsMath) (ops : BehaviorOps β)
    (sim : SimulationManager β) (data : Snapshot) (rand : RandomSource) :
    SimulationManager β × RandomSource :=
  let sim := sim.applySettings data
  let state := data.entities.foldl (SimulationManager.restoreOrganism M ops) (sim, rand)
  let state := data.foods.foldl SimulationManager.restoreFood state
  let state := data.obstacles.foldl SimulationManager.restoreObstacle state
  ({ state.1 with statistics := state.1.statistics.reset }, state.2)

/-- The part of a snapshot the round trip is stated on: the scalar parameters,
the display switches, the organism records and the food records. -/
def Snapshot.core (d : Snapshot) :
    (ℚ × ℕ × ℚ × ℚ × ℚ × ℚ × ℚ) × (ℚ × ℚ × ℚ × ℚ × ℚ × ℚ) × (Bool × Bool × Bool) ×
      List OrganismRecord × List FoodRecord :=
  ((d.speed, d.initialPopulationSize, d.worldSize, d.resourceAbundance,
      d.environmentalHarshness, d.foodSpawnRate, d.foodEnergyValue),
    (d.baseEnergy, d.baseSpeed, d.baseSize, d.baseLifespan, d.baseReproductionRate,
      d.mutationRate),
    (d.displayLabels, d.showInteractions, d.showHealthBars), d.entities, d.foods)

/-- A food record is well formed when its type is a proper name (neither empty
nor `'random'`) and its energy value is not zero. -/
def FoodRecord.WellFormed (f : FoodRecord) : Prop :=
  f.type ≠ "" ∧ f.type ≠ "random" ∧ f.energyValue ≠ 0

/-- A world holding the cooperative parent and one apple, attached to a
simulation with the constructor's mutation rate. -/
def World.orchard : World BehaviorType :=
  { entities := [Organism.cooperativeParent], foods := [Food.sample], mutationRate := some (1 / 10) }

/-- A manager with the constructor's parameters over `World.orchard`. -/
def SimulationManager.orchard : SimulationManager BehaviorType :=
  { world := World.orchard }

/-- The manager over `World.orchard` after `setFoodSpawnRate(0)`. -/
def SimulationManager.noFoodSpawn : SimulationManager BehaviorType :=
  { SimulationManager.orchard with foodSpawnRate := 0 }

/-! ## Samples for the reactive behaviours -/

/-- The `BaseBehavior` constructor for the type tag `type`: empty memory,
strength 1, duration 50 s, bounded memory. -/
def BaseBehavior.new (type : BehaviorType) : BaseBehavior :=
  { type := type }

/-- A world of size 40 whose only organism stands far outside the arena, at
`(1000, 0, -1000)`, heading further out at speed 50. -/
def World.runaway : World Unit :=
  { entities := [{ Organism.sample 100 with position := ⟨1000, 0, -1000⟩, speed := 50 }] }

/-! ## Tabular Q-learning: `interact` -/

/-- The string of a behaviour type tag, as `getBehaviorType()` returns it. -/
def BehaviorType.name : BehaviorType → String
  | .aggressive => "aggressive"
  | .altruistic => "altruistic"
  | .titfortat => "titfortat"
  | .cooperative => "cooperative"
  | .selfish => "selfish"
  | .qlearning => "qlearning"
  | .deepq => "deepq"

/-- The energy level `'low'`, `'medium'` or `'high'` of `getState`. -/
def energyLevel (energy : ℚ) : String :=
  if energy < 30 then "low" else if energy > 70 then "high" else "medium"

/-- `QLearningBehavior.getState(self, target)`: the key
`selfLevel_targetLevel_targetBehavior_previousInteraction`. -/
def QLearningBehavior.getState {β : Type} (ops : BehaviorOps β) (q : QLearningBehavior)
    (self target : Organism β) : String :=
  let selfEnergyLevel := energyLevel self.energy
  let targetEnergyLevel := energyLevel target.energy
  let targetBehavior := (ops.type target.behavior).name
  let previousInteraction :=
    match q.toBaseBehavior.getLastInteraction target.meshId with
    | some memory => if memory.wasPositive then "positive" else "negative"
    | none => "none"
  selfEnergyLevel ++ "_" ++ targetEnergyLevel ++ "_" ++ targetBehavior ++ "_" ++
    previousInteraction

/-- `QLearningBehavior.getBestAction(state)`: the first action with the highest
value, the row being initialised when missing. -/
def QLearningBehavior.getBestAction (q : QLearningBehavior) (state : String) :
    QAction × QLearningBehavior :=
  let q := if (q.qTable state).isNone then q.initializeState state else q
  let best := QAction.actions.foldl
    (fun (best : QAction × ℚ) action =>
      if q.qValue state action > best.2 then (action, q.qValue state action) else best)
    (QAction.cooperate, q.qValue state .cooperate)
  (best.1, q)

/-- `QLearningBehavior.selectAction(state)`: a random action with probability
`explorationRate`, otherwise the best one.  The random index is in range for
draws in `[0, 1)`. -/
def QLearningBehavior.selectAction (q : QLearningBehavior) (state : String)
    (rand : RandomSource) : QAction × QLearningBehavior × RandomSource :=
  let (u, rand) := rand.next
  if u < q.explorationRate then
    let (u2, rand) := rand.next
    (QAction.actions.getD (floorIndex u2 QAction.actions.length) .ignore, q, rand)
  else
    let (action, q) := q.getBestAction state
    (action, q, rand)

/-- The block "Execute the chosen action" of `QLearningBehavior.interact`. -/
def QLearningBehavior.execute {β : Type} (q : QLearningBehavior) (action : QAction) (now later : ℚ)
    (self target : Organism β) : InteractionResult × QLearningBehavior :=
  if action = .cooperate then
    let energyToShare := min 8 (self.energy * (1 / 10))
    ({ selfEnergyDelta := -energyToShare, targetEnergyDelta := energyToShare * (15 / 10) },
      { q with toBaseBehavior := q.toBaseBehavior.rememberInteraction target.meshId true now later })
  else if action = .compete then
    let energyToTake := min 10 (target.energy * (15 / 100))
    ({ selfEnergyDelta := energyToTake, targetEnergyDelta := -energyToTake },
      { q with toBaseBehavior := q.toBaseBehavior.rememberInteraction target.meshId false now later })
  else
    ({ selfEnergyDelta := 0, targetEnergyDelta := 0 }, q)

/-- The block "Learn from previous state-action pair if it exists" of
`QLearningBehavior.interact`. -/
def QLearningBehavior.learnFromLast (q : QLearningBehavior) (state : String) :
    QLearningBehavior :=
  match q.lastState, q.lastAction with
  | some lastState, some lastAction => q.learn lastState lastAction q.lastReward state
  | _, _ => q

/-- `QLearningBehavior.interact(self, target)`, `now` and `later` being the two
clock readings of its `rememberInteraction` call. -/
def QLearningBehavior.interact {β : Type} (ops : BehaviorOps β) (q : QLearningBehavior)
    (now later : ℚ) (self target : Organism β) (rand : RandomSource) :
    InteractionResult × QLearningBehavior × RandomSource :=
  let state := q.getState ops self target
  let selected := q.selectAction state rand
  let executed := selected.2.1.execute selected.1 now later self target
  let reward := executed.1.selfEnergyDelta
  let learned := executed.2.learnFromLast state
  (executed.1,
    { learned with lastState := some state, lastAction := some selected.1, lastReward := reward },
    selected.2.2)

/-! ## Neural Q-learning -/

/-- An entry `{state, action, reward, nextState}` of the replay buffer. -/
structure Experience where
  state : List ℚ
  action : QAction
  reward : ℚ
  nextState : List ℚ
  deriving DecidableEq

/-- `this.actions.indexOf(action)`. -/
def QAction.index : QAction → ℕ
  | .cooperate => 0
  | .compete => 1
  | .ignore => 2

/-- The state of a `DeepQLearningBehavior`.  The weight matrices and bias
vectors are read by index; only the entries inside the layer sizes are ever
read or written. -/
structure DeepQLearningBehavior extends BaseBehavior where
  inputSize : ℕ := 12
  hiddenSize : ℕ := 8
  outputSize : ℕ := 3
  learningRate : ℚ := 5 / 100
  discountFactor : ℚ := 9 / 10
  explorationRate : ℚ := 3 / 10
  weights1 : ℕ → ℕ → ℚ
  bias1 : ℕ → ℚ := fun _ => 0
  weights2 : ℕ → ℕ → ℚ
  bias2 : ℕ → ℚ := fun _ => 0
  lastState : Option (List ℚ) := none
  lastAction : Option QAction := none
  lastReward : ℚ := 0
  replayBuffer : List Experience := []
  maxReplayBufferSize : ℕ := 100
  miniBatchSize : ℕ := 10
  explorationDecay : ℚ := 9999 / 10000
  minExplorationRate : ℚ := 5 / 100

/-- The constructor `new DeepQLearningBehavior()` with `initializeNetwork()`:
entry `[i][j]` of a weight matrix takes the draw at its place in the nested
loops, `(Math.random() * 2 - 1) * Math.sqrt(2.0 / (fanIn + fanOut))`. -/
def DeepQLearningBehavior.new (M : JsMath) (rand : RandomSource) :
    DeepQLearningBehavior × RandomSource :=
  ({ type := .deepq
     weights1 := fun i j =>
       if i < 12 ∧ j < 8 then
         (rand.draws (rand.pos + i * 8 + j) * 2 - 1) * M.sqrt (2 / (12 + 8))
       else 0
     weights2 := fun i j =>
       if i < 8 ∧ j < 3 then
         (rand.draws (rand.pos + 12 * 8 + i * 3 + j) * 2 - 1) * M.sqrt (2 / (8 + 3))
       else 0 },
    { rand with pos := rand.pos + 12 * 8 + 8 * 3 })

/-- `getPreviousInteractionValue(targetId)`. -/
def DeepQLearningBehavior.getPreviousInteractionValue (q : DeepQLearningBehavior)
    (targetId : ℕ) : ℚ :=
  match q.toBaseBehavior.getLastInteraction targetId with
  | none => 0
  | some memory => if memory.wasPositive then 1 else -1

/-- `DeepQLearningBehavior.getStateVector(self, target)`: twelve features. -/
def DeepQLearningBehavior.getStateVector {β : Type} (ops : BehaviorOps β)
    (q : DeepQLearningBehavior) (self target : Organism β) : List ℚ :=
  [self.energy / 100,
   target.energy / 100,
   self.size / 2,
   target.size / 2,
   if ops.type target.behavior = .aggressive then 1 else 0,
   if ops.type target.behavior = .altruistic then 1 else 0,
   if ops.type target.behavior = .titfortat then 1 else 0,
   if ops.type target.behavior = .cooperative then 1 else 0,
   if ops.type target.behavior = .selfish then 1 else 0,
   if ops.type target.behavior = .qlearning then 1 else 0,
   if ops.type target.behavior = .deepq then 1 else 0,
   q.getPreviousInteractionValue target.meshId]

/-- The weighted input of hidden neuron `i` before the activation: the inner
loop over the inputs plus the bias. -/
def DeepQLearningBehavior.hiddenInput (q : DeepQLearningBehavior) (stateVector : List ℚ)
    (i : ℕ) : ℚ :=
  (List.range q.inputSize).foldl (fun acc j => acc + stateVector.getD j 0 * q.weights1 j i) 0
    + q.bias1 i

/-- The hidden activation `Math.max(0, hidden[i])` (ReLU). -/
def DeepQLearningBehavior.hidden (q : DeepQLearningBehavior) (stateVector : List ℚ)
    (i : ℕ) : ℚ :=
  max 0 (q.hiddenInput stateVector i)

/-- `DeepQLearningBehavior.forward(stateVector)`: the array of `outputSize`
Q-values. -/
def DeepQLearningBehavior.forward (q : DeepQLearningBehavior) (stateVector : List ℚ) : List ℚ :=
  (List.range q.outputSize).map (fun i =>
    (List.range q.hiddenSize).foldl (fun acc j => acc + q.hidden stateVector j * q.weights2 j i) 0
      + q.bias2 i)

/-- `Math.max(...values)` of a non-empty array. -/
def maxOfArray (values : List ℚ) : ℚ :=
  values.foldl max (values.headD 0)

/-- `DeepQLearningBehavior.getBestAction(stateVector)`: the first index with the
highest Q-value. -/
def DeepQLearningBehavior.getBestAction (q : DeepQLearningBehavior) (stateVector : List ℚ) :
    QAction :=
  let qValues := q.forward stateVector
  let bestActionIndex := ((List.range q.outputSize).drop 1).foldl
    (fun bestActionIndex i =>
      if qValues.getD i 0 > qValues.getD bestActionIndex 0 then i else bestActionIndex)
    0
  QAction.actions.getD bestActionIndex .ignore

/-- `DeepQLearningBehavior.selectAction(stateVector)`.  The random index is in
range for draws in `[0, 1)`. -/
def DeepQLearningBehavior.selectAction (q : DeepQLearningBehavior) (stateVector : List ℚ)
    (rand : RandomSource) : QAction × RandomSource :=
  let (u, rand) := rand.next
  if u < q.explorationRate then
    let (u2, rand) := rand.next
    (QAction.actions.getD (floorIndex u2 QAction.actions.length) .ignore, rand)
  else (q.getBestAction stateVector, rand)

/-- `DeepQLearningBehavior.backpropagate(stateVector, predictedQ, targetQ)`.
Every matrix and vector entry inside the layer sizes is written once, from
gradients computed with the weights before the call. -/
def DeepQLearningBehavior.backpropagate (q : DeepQLearningBehavior) (stateVector : List ℚ)
    (predictedQ targetQ : List ℚ) : DeepQLearningBehavior :=
  let hiddenActivation : ℕ → ℚ := fun i => if q.hiddenInput stateVector i > 0 then 1 else 0
  let hidden : ℕ → ℚ := fun i => q.hidden stateVector i
  let outputGradients : ℕ → ℚ := fun i => predictedQ.getD i 0 - targetQ.getD i 0
  let hiddenGradients : ℕ → ℚ := fun i =>
    (List.range q.outputSize).foldl (fun acc j => acc + outputGradients j * q.weights2 i j) 0
      * hiddenActivation i
  { q with
    weights2 := fun i j =>
      if i < q.hiddenSize ∧ j < q.outputSize then
        q.weights2 i j - q.learningRate * outputGradients j * hidden i
      else q.weights2 i j
    bias2 := fun i =>
      if i < q.outputSize then q.bias2 i - q.learningRate * outputGradients i else q.bias2 i
    weights1 := fun i j =>
      if i < q.inputSize ∧ j < q.hiddenSize then
        q.weights1 i j - q.learningRate * hiddenGradients j * stateVector.getD i 0
      else q.weights1 i j
    bias1 := fun i =>
      if i < q.hiddenSize then q.bias1 i - q.learningRate * hiddenGradients i else q.bias1 i }

/-- The TD target vector of `learn`: a copy of the current prediction with the
taken action's slot overwritten. -/
def DeepQLearningBehavior.targetQ (q : DeepQLearningBehavior) (experience : Experience) :
    List ℚ :=
  let currentQ := q.forward experience.state
  let nextQ := q.forward experience.nextState
  let maxNextQ := maxOfArray nextQ
  currentQ.set experience.action.index (experience.reward + q.discountFactor * maxNextQ)

/-- `DeepQLearningBehavior.learn(experience)`. -/
def DeepQLearningBehavior.learn (q : DeepQLearningBehavior) (experience : Experience) :
    DeepQLearningBehavior :=
  q.backpropagate experience.state (q.forward experience.state) (q.targetQ experience)

/-- `DeepQLearningBehavior.addToReplayBuffer(experience)`: push, then shift
when the buffer is longer than `maxReplayBufferSize`. -/
def DeepQLearningBehavior.addToReplayBuffer (q : DeepQLearningBehavior)
    (experience : Experience) : DeepQLearningBehavior :=
  let q := { q with replayBuffer := q.replayBuffer ++ [experience] }
  if q.replayBuffer.length > q.maxReplayBufferSize then
    { q with replayBuffer := q.replayBuffer.tail }
  else q

/-- The loop of `learnFromReplayBuffer` that draws `n` indices into a buffer of
length `length`. -/
def drawBatchIndices (length : ℕ) : ℕ → RandomSource → List ℕ × RandomSource
  | 0, rand => ([], rand)
  | n + 1, rand =>
    let (u, rand) := rand.next
    let (rest, rand) := drawBatchIndices length n rand
    (floorIndex u length :: rest, rand)

/-- One step of the loop "Learn from each experience in the batch"; the index
is inside the buffer for draws in `[0, 1)`. -/
def DeepQLearningBehavior.learnAt (q : DeepQLearningBehavior) (index : ℕ) :
    DeepQLearningBehavior :=
  match q.replayBuffer[index]? with
  | some experience => q.learn experience
  | none => q

/-- `DeepQLearningBehavior.learnFromReplayBuffer()`. -/
def DeepQLearningBehavior.learnFromReplayBuffer (q : DeepQLearningBehavior)
    (rand : RandomSource) : DeepQLearningBehavior × RandomSource :=
  if q.replayBuffer.length < q.miniBatchSize then (q, rand)
  else
    let (batchIndices, rand) := drawBatchIndices q.replayBuffer.length q.miniBatchSize rand
    (batchIndices.foldl DeepQLearningBehavior.learnAt q, rand)

/-- The block "Execute the chosen action" of `DeepQLearningBehavior.interact`. -/
def DeepQLearningBehavior.execute {β : Type} (q : DeepQLearningBehavior) (action : QAction)
    (now later : ℚ) (self target : Organism β) : InteractionResult × DeepQLearningBehavior :=
  if action = .cooperate then
    let energyToShare := min 8 (self.energy * (1 / 10))
    ({ selfEnergyDelta := -energyToShare, targetEnergyDelta := energyToShare * (15 / 10) },
      { q with toBaseBehavior := q.toBaseBehavior.rememberInteraction target.meshId true now later })
  else if action = .compete then
    let energyToTake := min 10 (target.energy * (15 / 100))
    ({ selfEnergyDelta := energyToTake, targetEnergyDelta := -energyToTake },
      { q with toBaseBehavior := q.toBaseBehavior.rememberInteraction target.meshId false now later })
  else
    ({ selfEnergyDelta := 1, targetEnergyDelta := 0 }, q)

/-- The block "Learn from previous state-action pair if it exists" of
`DeepQLearningBehavior.interact`. -/
def DeepQLearningBehavior.learnFromLast (q : DeepQLearningBehavior) (stateVector : List ℚ)
    (rand : RandomSource) : DeepQLearningBehavior × RandomSource :=
  match q.lastState, q.lastAction with
  | some lastState, some lastAction =>
    (q.addToReplayBuffer
      { state := lastState, action := lastAction, reward := q.lastReward,
        nextState := stateVector }).learnFromReplayBuffer rand
  | _, _ => (q, rand)

/-- The block "Decay exploration rate" of `DeepQLearningBehavior.interact`. -/
def DeepQLearningBehavior.decayExploration (q : DeepQLearningBehavior) :
    DeepQLearningBehavior :=
  { q with explorationRate := max q.minExplorationRate (q.explorationRate * q.explorationDecay) }

/-- `DeepQLearningBehavior.interact(self, target)`, `now` and `later` being the
two clock readings of its `rememberInteraction` call. -/
def DeepQLearningBehavior.interact {β : Type} (ops : BehaviorOps β) (q : DeepQLearningBehavior)
    (now later : ℚ) (self target : Organism β) (rand : RandomSource) :
    InteractionResult × DeepQLearningBehavior × RandomSource :=
  let stateVector := q.getStateVector ops self target
  let selected := q.selectAction stateVector rand
  let executed := q.execute selected.1 now later self target
  let reward := executed.1.selfEnergyDelta
  let learned := executed.2.learnFromLast stateVector selected.2
  let stored : DeepQLearningBehavior :=
    { learned.1 with lastState := some stateVector, lastAction := some selected.1,
                     lastReward := reward }
  (executed.1, stored.decayExploration, learned.2)

/-- The behaviour after a sequence of `interact` calls, each with its two
clock readings, self and target, oldest first. -/
def DeepQLearningBehavior.interacts {β : Type} (ops : BehaviorOps β)
    (state : DeepQLearningBehavior × RandomSource)
    (calls : List (ℚ × ℚ × Organism β × Organism β)) : DeepQLearningBehavior × RandomSource :=
  calls.foldl (fun state call =>
    (DeepQLearningBehavior.interact ops state.1 call.1 call.2.1 call.2.2.1 call.2.2.2
      state.2).2) state

/-- The behaviour after a sequence of `addToReplayBuffer` calls, oldest first. -/
def DeepQLearningBehavior.addAllToReplayBuffer (q : DeepQLearningBehavior)
    (experiences : List Experience) : DeepQLearningBehavior :=
  experiences.foldl DeepQLearningBehavior.addToReplayBuffer q

/-! ## The learners' payouts as the specification words them -/

/-- The payout of a learner for a chosen action: cooperate gives
`g = min(8, 0.1 * self.energy)` and the target receives `1.5 * g`; compete takes
`k = min(10, 0.15 * target.energy)`; ignore transfers nothing and yields
`ignoreGain` to self (0 for the tabular learner, 1 for the neural one). -/
def learnerPayout {β : Type} (ignoreGain : ℚ) (action : QAction) (self target : Organism β) :
    InteractionResult :=
  match action with
  | .cooperate =>
    { selfEnergyDelta := -(min 8 (1 / 10 * self.energy)),
      targetEnergyDelta := 15 / 10 * min 8 (1 / 10 * self.energy) }
  | .compete =>
    { selfEnergyDelta := min 10 (15 / 100 * target.energy),
      targetEnergyDelta := -(min 10 (15 / 100 * target.energy)) }
  | .ignore => { selfEnergyDelta := ignoreGain, targetEnergyDelta := 0 }

/-- The exploration settings of a neural learner: rate, decay and floor. -/
def DeepQLearningBehavior.exploration (q : DeepQLearningBehavior) : ℚ × ℚ × ℚ :=
  (q.explorationRate, q.explorationDecay, q.minExplorationRate)

/-- The replay settings of a neural learner: buffer, capacity and batch size. -/
def DeepQLearningBehavior.replay (q : DeepQLearningBehavior) : List Experience × ℕ × ℕ :=
  (q.replayBuffer, q.maxReplayBufferSize, q.miniBatchSize)

/-- A fresh tabular learner after one interact at clock time 0, as self of
energy 100 with a target of energy 50, every draw being 1/2 (so the best action
of the all-zero row, cooperate, is taken). -/
def QLearningBehavior.afterFirst : QLearningBehavior :=
  (QLearningBehavior.new.interact BehaviorOps.idle 0 0 (Organism.sample 100)
    (Organism.sample 50) RandomSource.half).2.1

/-! ## Samples for the neural learner -/

/-- The random stream that always yields `u`. -/
def RandomSource.always (u : ℚ) : RandomSource :=
  { draws := fun _ => u, pos := 0 }

/-- A neural learner as the constructor builds it when every draw is 3/4 (so
every weight is positive), with `Math.sqrt` replaced by the identity. -/
def DeepQLearningBehavior.sample : DeepQLearningBehavior :=
  (DeepQLearningBehavior.new JsMath.crude (RandomSource.always (3 / 4))).1

/-- An experience: cooperate in a state with two active features, reward -5. -/
def Experience.sample : Experience :=
  { state := [1, 1 / 2, 0, 0, 0, 0, 0, 0, 0, 0, 0, 0]
    action := .cooperate
    reward := -5
    nextState := [1 / 2, 1, 0, 0, 0, 0, 0, 0, 0, 0, 0, 0] }

/-! ## Target selection of the reactive behaviours -/

/-- One step of the `forEach` of `BaseBehavior.selectTarget`: the pair
`(closestEntity, closestDistance)`, with `Infinity` as the absent distance. -/
def closerOf {β : Type} (self : Organism β)
    (acc : Option (ℕ × Organism β) × Option ℚ) (entity : ℕ × Organism β) :
    Option (ℕ × Organism β) × Option ℚ :=
  let d := distanceSquared entity.2.position self.position
  match acc.2 with
  | none => (some entity, some d)
  | some closestDistance => if d < closestDistance then (some entity, some d) else acc

/-- `BaseBehavior.selectTarget(self, nearbyEntities)`: the closest entity; a
neighbour is given with its index in the world. -/
def BaseBehavior.selectTarget {β : Type} (self : Organism β)
    (nearbyEntities : List (ℕ × Organism β)) : Option (ℕ × Organism β) :=
  (nearbyEntities.foldl (closerOf self) (none, none)).1

/-- `BaseBehavior.interact(self, target)`: the default exchange. -/
def BaseBehavior.interact {β : Type} (_self _target : Organism β) : InteractionResult :=
  { selfEnergyDelta := 2, targetEnergyDelta := 2 }

/-- `AggressiveBehavior.selectTarget(self, nearbyEntities)`. -/
def AggressiveBehavior.selectTarget {β : Type} (self : Organism β)
    (nearbyEntities : List (ℕ × Organism β)) : Option (ℕ × Organism β) :=
  let weakerEntities := nearbyEntities.filter (fun entity =>
    decide (entity.2.energy < self.energy) || decide (entity.2.size < self.size))
  if weakerEntities.length > 0 then BaseBehavior.selectTarget self weakerEntities
  else BaseBehavior.selectTarget self nearbyEntities

/-- The element `e` is a first minimum of `key` in `l`: every element before it
has a strictly larger key and every element after it a key at least as large. -/
def FirstMinimum {α : Type} (key : α → ℚ) (l : List α) (e : α) : Prop :=
  ∃ before after, l = before ++ e :: after ∧ (∀ x ∈ before, key e < key x) ∧
    ∀ x ∈ after, key e ≤ key x

/-- Two neighbours at the same distance 3 from the origin: the first with
energy 100, the second with energy 20. -/
def sampleNeighbours : List (ℕ × Organism Unit) :=
  [(1, { Organism.sample 100 with meshId := 2, position := ⟨0, 0, -3⟩ }),
   (2, { Organism.sample 20 with meshId := 3, position := ⟨0, 0, 3⟩ })]

/-- `AltruisticBehavior.selectTarget(self, nearbyEntities)`;
`Array.prototype.sort` is stable, so the first element after sorting is the
first neighbour of lowest energy. -/
def AltruisticBehavior.selectTarget {β : Type} (self : Organism β)
    (nearbyEntities : List (ℕ × Organism β)) : Option (ℕ × Organism β) :=
  let entitiesNeedingHelp := nearbyEntities.filter (fun entity => decide (entity.2.energy < 50))
  if entitiesNeedingHelp.length > 0 then
    (entitiesNeedingHelp.insertionSort (fun a b => a.2.energy ≤ b.2.energy))[0]?
  else BaseBehavior.selectTarget self nearbyEntities

/-- `CooperativeBehavior.selectTarget(self, nearbyEntities)`; `typeOf` reads
the behaviour type of a neighbour. -/
def CooperativeBehavior.selectTarget {β : Type} (typeOf : β → BehaviorType) (b : BaseBehavior)
    (self : Organism β) (nearbyEntities : List (ℕ × Organism β)) : Option (ℕ × Organism β) :=
  let cooperativeEntities := nearbyEntities.filter (fun entity =>
    decide (typeOf entity.2.behavior = .cooperative))
  if cooperativeEntities.length > 0 then BaseBehavior.selectTarget self cooperativeEntities
  else
    let entitiesWithPositiveHistory := nearbyEntities.filter (fun entity =>
      match b.getLastInteraction entity.2.meshId with
      | some history => history.wasPositive
      | none => false)
    if entitiesWithPositiveHistory.length > 0 then
      BaseBehavior.selectTarget self entitiesWithPositiveHistory
    else BaseBehavior.selectTarget self nearbyEntities

/-- `SelfishBehavior.selectTarget(self, nearbyEntities)`: the first neighbour of
highest energy (a stable sort of a copy, in descending order). -/
def SelfishBehavior.selectTarget {β : Type} (_self : Organism β)
    (nearbyEntities : List (ℕ × Organism β)) : Option (ℕ × Organism β) :=
  let targetsByEnergy := nearbyEntities.insertionSort (fun a b => a.2.energy ≥ b.2.energy)
  if targetsByEnergy.length > 0 then targetsByEnergy[0]? else none

/-- `TitForTatBehavior.selectTarget(self, nearbyEntities)`. -/
def TitForTatBehavior.selectTarget {β : Type} (b : BaseBehavior) (self : Organism β)
    (nearbyEntities : List (ℕ × Organism β)) (rand : RandomSource) :
    Option (ℕ × Organism β) × RandomSource :=
  let entitiesWithHistory := nearbyEntities.filter (fun entity => b.memory.has entity.2.meshId)
  if entitiesWithHistory.length > 0 then
    (BaseBehavior.selectTarget self entitiesWithHistory, rand)
  else if nearbyEntities.length > 0 then
    let (u, rand) := rand.next
    (nearbyEntities[floorIndex u nearbyEntities.length]?, rand)
  else (none, rand)

/-- The cooperative behaviour as the organisms call it, for a population whose
behaviours are all cooperative (so the factory is only asked for that type).
The clock is taken not to advance while `interact` runs. -/
def BehaviorOps.cooperative : BehaviorOps BaseBehavior :=
  { type := fun b => b.type
    interactionStrength := fun b => b.interactionStrength
    selectTarget := fun b self nearbyEntities rand =>
      ((CooperativeBehavior.selectTarget (fun b => b.type) b self nearbyEntities).map
        (fun e => e.1), b, rand)
    interact := fun b now self target rand =>
      ((CooperativeBehavior.interact b now now self target).1,
        (CooperativeBehavior.interact b now now self target).2, rand)
    construct := fun _ rand => (BaseBehavior.new .cooperative, rand) }

/-- A cooperative organism of the given energy at `x` on the first axis, whose
behaviour has the given interaction strength. -/
def Organism.cooperativeAt (energy x strength : ℚ) : Organism BaseBehavior :=
  { behavior := { BaseBehavior.new .cooperative with interactionStrength := strength }
    meshId := 1, energy := energy, speed := 1, size := 1, maxLifespan := 100
    reproductionRate := 5 / 1000, position := ⟨x, 0, 0⟩, direction := ⟨1, 0⟩
    previousPosition := ⟨x, 0, 0⟩ }

/-- Two cooperative organisms, of energy 100 and 50, whose interaction strength
was set to 0. -/
def World.muted : World BaseBehavior :=
  { entities := [Organism.cooperativeAt 100 0 0, Organism.cooperativeAt 50 1 0] }

/-- Two organisms of size 1 one unit apart from touching: the first at the
origin heading along the first axis at speed 1, the second at `(2, 0, 0)`. -/
def World.blocked : World Unit :=
  { entities := [Organism.sample 100,
                 { Organism.sample 100 with meshId := 2, position := ⟨2, 0, 0⟩ }] }

/-- The behaviour after a sequence of `TitForTatBehavior.interact` calls, each
with its two clock readings, self and target, oldest first. -/
def TitForTatBehavior.interacts {β : Type} (b : BaseBehavior)
    (calls : List (ℚ × ℚ × Organism β × Organism β)) : BaseBehavior :=
  calls.foldl (fun b call =>
    (TitForTatBehavior.interact b call.1 call.2.1 call.2.2.1 call.2.2.2).2) b

/-- The displacement `move` proposes: one step of length `speed * deltaTime`
along the direction. -/
def Organism.proposedPosition {β : Type} (o : Organism β) (deltaTime : ℚ) : Vec3 :=
  { x := o.position.x + o.direction.x * (o.speed * deltaTime)
    y := o.position.y
    z := o.position.z + o.direction.z * (o.speed * deltaTime) }

/-- The point one fifth of a step away from the pre-tick position along the
direction `d`. -/
def Organism.avoidanceStep {β : Type} (o : Organism β) (deltaTime : ℚ) (d : Dir) : Vec3 :=
  { x := o.previousPosition.x + d.x * (o.speed * deltaTime * (2 / 10))
    y := o.previousPosition.y
    z := o.previousPosition.z + d.z * (o.speed * deltaTime * (2 / 10)) }

/-! ## Simulation manager: the tick -/

/-- `SimulationManager.addOrganism(behaviorType)`: an organism at a random
position, which is not tested for overlap. -/
def SimulationManager.addOrganism {β : Type} (M : JsMath) (ops : BehaviorOps β)
    (sim : SimulationManager β) (behaviorType : Option BehaviorType) (rand : RandomSource) :
    SimulationManager β × RandomSource :=
  let positioned := sim.world.getRandomPosition rand
  let created := sim.createOrganism M ops behaviorType (some positioned.1) positioned.2
  ({ created.2.1 with world := created.2.1.world.addEntity created.1 }, created.2.2)

/-- The loop `for (let i = 0; i < n; i++) this.addOrganism('random')`. -/
def SimulationManager.addOrganisms {β : Type} (M : JsMath) (ops : BehaviorOps β) :
    ℕ → SimulationManager β × RandomSource → SimulationManager β × RandomSource
  | 0, state => state
  | n + 1, state =>
    SimulationManager.addOrganisms M ops n (state.1.addOrganism M ops none state.2)

/-- The loop `for (let i = 0; i < foodCount; i++) this.spawnFood()`. -/
def SimulationManager.spawnFoods {β : Type} :
    ℕ → SimulationManager β × RandomSource → SimulationManager β × RandomSource
  | 0, state => state
  | n + 1, state => SimulationManager.spawnFoods n (state.1.spawnFood state.2).2

/-- The food spawn interval of `update`: `4 / (foodSpawnRate * resourceAbundance)`,
times 0.3 when fewer than 10 organisms are alive; `none` is the `Infinity` a zero
product gives. -/
def SimulationManager.foodSpawnInterval {β : Type} (sim : SimulationManager β)
    (currentPopulation : ℕ) : Option ℚ :=
  if sim.foodSpawnRate * sim.resourceAbundance = 0 then none
  else if currentPopulation < 10 then
    some (4 / (sim.foodSpawnRate * sim.resourceAbundance) * (3 / 10))
  else some (4 / (sim.foodSpawnRate * sim.resourceAbundance))

/-- The `foodCount` of `update`. -/
def SimulationManager.foodCount {β : Type} (sim : SimulationManager β)
    (currentPopulation : ℕ) : ℕ :=
  if sim.resourceAbundance ≥ 15 / 10 then (Int.ceil sim.resourceAbundance).toNat
  else if currentPopulation < 5 then 4
  else if currentPopulation < 10 then 3
  else 1

/-- The block "Update food spawning" of `update`. -/
def SimulationManager.spawnFoodPhase {β : Type} (sim : SimulationManager β)
    (adjustedDeltaTime : ℚ) (currentPopulation : ℕ) (rand : RandomSource) :
    SimulationManager β × RandomSource :=
  let timed := { sim with timeSinceLastFoodSpawn := sim.timeSinceLastFoodSpawn + adjustedDeltaTime }
  match timed.foodSpawnInterval currentPopulation with
  | none => (timed, rand)
  | some foodSpawnInterval =>
    if timed.timeSinceLastFoodSpawn ≥ foodSpawnInterval then
      let spawned := SimulationManager.spawnFoods (timed.foodCount currentPopulation) (timed, rand)
      ({ spawned.1 with timeSinceLastFoodSpawn := 0 }, spawned.2)
    else (timed, rand)

/-- The body of the `entities.forEach` of `update` for the entity at index `k`:
the environmental factors and the per-type behaviour parameters are written
into the entity, then the entity is updated.  `configure` writes
`interactionStrength` and `memoryDuration` into a behaviour instance. -/
def SimulationManager.updateEntity {β : Type} (M : JsMath) (ops : BehaviorOps β)
    (configure : β → BehaviorParameters → β) (adjustedDeltaTime now : ℚ)
    (state : SimulationManager β × RandomSource) (k : ℕ) : SimulationManager β × RandomSource :=
  let prepared := state.1.world.modifyEntity k (fun entity =>
    { entity with
      energyConsumptionRate := 1 * state.1.environmentalHarshness
      resourceMultiplier := state.1.resourceAbundance
      behavior := configure entity.behavior (state.1.behaviorParameters (ops.type entity.behavior)) })
  let updated := Organism.update M ops adjustedDeltaTime now prepared k state.2
  ({ state.1 with world := updated.1 }, updated.2)

/-- The block "Update each entity" of `update`: the entities present when the
loop starts are visited in order; organisms born during the loop are not. -/
def SimulationManager.updateEntities {β : Type} (M : JsMath) (ops : BehaviorOps β)
    (configure : β → BehaviorParameters → β) (adjustedDeltaTime now : ℚ)
    (state : SimulationManager β × RandomSource) : SimulationManager β × RandomSource :=
  (List.range state.1.world.entities.length).foldl
    (SimulationManager.updateEntity M ops configure adjustedDeltaTime now) state

/-- The block "Update statistics" of `update`. -/
def SimulationManager.updateStatistics {β : Type} (ops : BehaviorOps β) (now : ℚ)
    (sim : SimulationManager β) : SimulationManager β :=
  { sim with statistics := sim.statistics.update ops now sim.world.entities }

/-- The safety mechanism at the end of `update`, for the number of organisms
that were alive at the start of the tick. -/
def SimulationManager.safetyNet {β : Type} (M : JsMath) (ops : BehaviorOps β)
    (currentPopulation : ℕ) (state : SimulationManager β × RandomSource) :
    SimulationManager β × RandomSource :=
  if currentPopulation = 0 then SimulationManager.addOrganisms M ops 5 state
  else if currentPopulation < 3 then
    if state.2.next.1 < 1 / 10 then state.1.addOrganism M ops none state.2.next.2
    else (state.1, state.2.next.2)
  else state

/-- The tick of `update` up to and including the statistics, for a manager that
is not paused.  The food animation and the removals deferred by `setTimeout`
are not part of the state modelled. -/
def SimulationManager.beforeSafetyNet {β : Type} (M : JsMath) (ops : BehaviorOps β)
    (configure : β → BehaviorParameters → β) (deltaTime now : ℚ) (sim : SimulationManager β)
    (rand : RandomSource) : SimulationManager β × RandomSource :=
  let adjustedDeltaTime := deltaTime * sim.speed
  let currentPopulation := livingCount sim.world.entities
  let fed := sim.spawnFoodPhase adjustedDeltaTime currentPopulation rand
  let updated := SimulationManager.updateEntities M ops configure adjustedDeltaTime now fed
  (SimulationManager.updateStatistics ops now updated.1, updated.2)

/-- `SimulationManager.update(deltaTime)` run when `Date.now()` reads `now`. -/
def SimulationManager.update {β : Type} (M : JsMath) (ops : BehaviorOps β)
    (configure : β → BehaviorParameters → β) (deltaTime now : ℚ) (sim : SimulationManager β)
    (rand : RandomSource) : SimulationManager β × RandomSource :=
  if sim.isPaused then (sim, rand)
  else
    SimulationManager.safetyNet M ops (livingCount sim.world.entities)
      (sim.beforeSafetyNet M ops configure deltaTime now rand)

/-- A manager with the constructor's parameters over a world without
organisms. -/
def SimulationManager.extinct : SimulationManager Unit :=
  { world := {} }

/-! ## Target selection of the learners -/

/-- One step of the loop of `QLearningBehavior.selectTarget`: the triple
`(bestTarget, bestValue, this)`, with `-Infinity` as the absent value;
`getMaxQValue` may initialise a row of the table. -/
def QLearningBehavior.betterTarget {β : Type} (ops : BehaviorOps β) (self : Organism β)
    (acc : Option (ℕ × Organism β) × Option ℚ × QLearningBehavior) (entity : ℕ × Organism β) :
    Option (ℕ × Organism β) × Option ℚ × QLearningBehavior :=
  let valued := acc.2.2.getMaxQValue (acc.2.2.getState ops self entity.2)
  match acc.2.1 with
  | none => (some entity, some valued.1, valued.2)
  | some bestValue =>
    if valued.1 > bestValue then (some entity, some valued.1, valued.2)
    else (acc.1, some bestValue, valued.2)

/-- `QLearningBehavior.selectTarget(self, nearbyEntities)`. -/
def QLearningBehavior.selectTarget {β : Type} (ops : BehaviorOps β) (q : QLearningBehavior)
    (self : Organism β) (nearbyEntities : List (ℕ × Organism β)) (rand : RandomSource) :
    Option (ℕ × Organism β) × QLearningBehavior × RandomSource :=
  if nearbyEntities.length = 0 then (none, q, rand)
  else if rand.next.1 < q.explorationRate then
    (nearbyEntities[floorIndex rand.next.2.next.1 nearbyEntities.length]?, q, rand.next.2.next.2)
  else
    let best := nearbyEntities.foldl (QLearningBehavior.betterTarget ops self) (none, none, q)
    if best.2.1 = some 0 then
      (nearbyEntities[floorIndex rand.next.2.next.1 nearbyEntities.length]?, best.2.2,
        rand.next.2.next.2)
    else (best.1, best.2.2, rand.next.2)

/-- One step of the loop of `DeepQLearningBehavior.selectTarget`: the pair
`(bestTarget, bestValue)`, with `-Infinity` as the absent value. -/
def DeepQLearningBehavior.betterTarget {β : Type} (ops : BehaviorOps β)
    (q : DeepQLearningBehavior) (self : Organism β)
    (acc : Option (ℕ × Organism β) × Option ℚ) (entity : ℕ × Organism β) :
    Option (ℕ × Organism β) × Option ℚ :=
  let maxQ := maxOfArray (q.forward (q.getStateVector ops self entity.2))
  match acc.2 with
  | none => (some entity, some maxQ)
  | some bestValue => if maxQ > bestValue then (some entity, some maxQ) else acc

/-- `DeepQLearningBehavior.selectTarget(self, nearbyEntities)`. -/
def DeepQLearningBehavior.selectTarget {β : Type} (ops : BehaviorOps β)
    (q : DeepQLearningBehavior) (self : Organism β) (nearbyEntities : List (ℕ × Organism β))
    (rand : RandomSource) : Option (ℕ × Organism β) × RandomSource :=
  if nearbyEntities.length = 0 then (none, rand)
  else if rand.next.1 < q.explorationRate then
    (nearbyEntities[floorIndex rand.next.2.next.1 nearbyEntities.length]?, rand.next.2.next.2)
  else
    match (nearbyEntities.foldl (DeepQLearningBehavior.betterTarget ops q self) (none, none)).1 with
    | some bestTarget => (some bestTarget, rand.next.2)
    | none => (nearbyEntities[0]?, rand.next.2)

/-- A selection result is closed over the neighbour list: it is absent exactly
when the list is empty, and otherwise it is an element of the list. -/
@[reducible]
def ClosedOver {α : Type} (result : Option α) (l : List α) : Prop :=
  (result = none ↔ l = []) ∧ ∀ e, result = some e → e ∈ l

/-! ## Sample worlds for the spawn search -/

/-- The random stream that yields the listed value at each listed position and
zero everywhere else. -/
def RandomSource.zeroExcept (spikes : List (ℕ × ℚ)) : RandomSource :=
  { draws := fun k => ((spikes.find? (fun s => s.1 = k)).map (fun s => s.2)).getD 0, pos := 0 }

/-- A parent of size 1 at the origin and a neighbour of size 1 at `(3.6, 0, 0)`:
the point `(2, 0, 0)` is exactly 1.6 away from the neighbour. -/
def World.crowded : World Unit :=
  { entities := [Organism.sample 100,
                 { Organism.sample 100 with meshId := 2, position := ⟨18 / 5, 0, 0⟩ }] }

/-- A parent of size 1 at `(17.2, 0, 0)` and a neighbour of size 1 at
`(19, 0, 0)`, in the default arena of size 40: the point `(19.2, 0, 0)`, two
units from the parent along the first axis, is occupied and beyond the bound
`40 / 2.1`. -/
def World.cornered : World Unit :=
  { entities := [{ Organism.sample 100 with position := ⟨86 / 5, 0, 0⟩,
                                            previousPosition := ⟨86 / 5, 0, 0⟩ },
                 { Organism.sample 100 with meshId := 2, position := ⟨19, 0, 0⟩ }] }

/-! ## Sample worlds at the edge of the arena -/

/-- An organism of size 1 at `(19, 0, 0)`. -/
def Organism.edgeParent : Organism Unit :=
  { Organism.sample 100 with position := ⟨19, 0, 0⟩, previousPosition := ⟨19, 0, 0⟩ }

/-- The default arena of size 40 (bound `40 / 2.1`, about 19.05) with one
organism, at `(19, 0, 0)`. -/
def World.edge : World Unit :=
  { entities := [Organism.edgeParent] }

/-- An organism of size 1 and speed 2 standing on the bound `40 / 2.1` of the
first axis and heading outwards along `(4/5, 3/5)`. -/
def Organism.wallHugger : Organism Unit :=
  { Organism.sample 100 with
    speed := 2, position := ⟨400 / 21, 0, 0⟩, previousPosition := ⟨400 / 21, 0, 0⟩,
    direction := ⟨4 / 5, 3 / 5⟩ }

/-- An organism of size 1 standing 1.2 inside the bound and 1.1 to the side of
`Organism.wallHugger`. -/
def Organism.bystander : Organism Unit :=
  { Organism.sample 100 with
    meshId := 2, position := ⟨400 / 21 - 6 / 5, 0, 11 / 10⟩,
    previousPosition := ⟨400 / 21 - 6 / 5, 0, 11 / 10⟩ }

/-- The default arena of size 40 with `Organism.wallHugger` and
`Organism.bystander`, which do not overlap: their squared distance is 2.65 and
the sum of their radii is 1.6. -/
def World.boundary : World Unit :=
  { entities := [Organism.wallHugger, Organism.bystander] }

/-! # Theorems -/


/-! ## Tabular Q-learning update (C1) -/

theorem QLearningBehavior.getMaxQValue_fst (q : QLearningBehavior) (s : String) :
    (q.getMaxQValue s).1 = q.specMax s := by
  unfold QLearningBehavior.getMaxQValue QLearningBehavior.specMax QLearningBehavior.valueOrZero
  cases h : q.qTable s with
  | none =>
    simp [QAction.actions, QLearningBehavior.qValue, QLearningBehavior.initializeState]
  | some row =>
    simp only [QAction.actions, QLearningBehavior.qValue, h, Option.isNone_some, List.foldl_cons,
      List.foldl_nil, Option.map_some', Option.getD_some, Bool.false_eq_true, if_false]
    by_cases h1 : row .compete > row .cooperate
    · by_cases h2 : row .ignore > row .compete
      · simp [h1, h2, max_eq_right (le_of_lt h1), max_eq_right (le_of_lt h2)]
      · simp [h1, h2, max_eq_right (le_of_lt h1), max_eq_left (not_lt.mp h2)]
    · by_cases h2 : row .ignore > row .cooperate
      · simp [h1, h2, max_eq_left (not_lt.mp h1), max_eq_right (le_of_lt h2)]
      · simp [h1, h2, max_eq_left (not_lt.mp h1), max_eq_left (not_lt.mp h2)]

theorem QLearningBehavior.getMaxQValue_snd_of_isSome (q : QLearningBehavior) (s : String)
    (h : (q.qTable s).isSome) : (q.getMaxQValue s).2 = q := by
  unfold QLearningBehavior.getMaxQValue
  cases h' : q.qTable s with
  | none => simp [h'] at h
  | some row => simp

theorem QLearningBehavior.prepared_valueOrZero (q : QLearningBehavior) (s s' k : String)
    (a : QAction) : (q.prepared s s').valueOrZero k a = q.valueOrZero k a := by
  unfold QLearningBehavior.prepared QLearningBehavior.valueOrZero
  cases h1 : q.qTable s <;> cases h2 : q.qTable s' <;> by_cases hk : k = s <;>
    by_cases hk' : k = s' <;> by_cases hss : s' = s <;>
    simp_all [QLearningBehavior.initializeState]

theorem QLearningBehavior.prepared_isSome_left (q : QLearningBehavior) (s s' : String) :
    ((q.prepared s s').qTable s).isSome := by
  unfold QLearningBehavior.prepared
  by_cases hss : s' = s
  · subst hss
    cases h1 : q.qTable s' <;> simp_all [QLearningBehavior.initializeState]
  · have hss' : ¬ s = s' := fun h => hss h.symm
    cases h1 : q.qTable s <;> cases h2 : q.qTable s' <;>
      simp_all [QLearningBehavior.initializeState]

theorem QLearningBehavior.prepared_isSome_right (q : QLearningBehavior) (s s' : String) :
    ((q.prepared s s').qTable s').isSome := by
  unfold QLearningBehavior.prepared
  by_cases hss : s' = s
  · subst hss
    cases h1 : q.qTable s' <;> simp_all [QLearningBehavior.initializeState]
  · have hss' : ¬ s = s' := fun h => hss h.symm
    cases h1 : q.qTable s <;> cases h2 : q.qTable s' <;>
      simp_all [QLearningBehavior.initializeState]

theorem QLearningBehavior.prepared_rates (q : QLearningBehavior) (s s' : String) :
    (q.prepared s s').learningRate = q.learningRate ∧
      (q.prepared s s').discountFactor = q.discountFactor := by
  unfold QLearningBehavior.prepared
  by_cases hss : s' = s
  · subst hss
    cases h1 : q.qTable s' <;> simp_all [QLearningBehavior.initializeState]
  · have hss' : ¬ s = s' := fun h => hss h.symm
    cases h1 : q.qTable s <;> cases h2 : q.qTable s' <;>
      simp_all [QLearningBehavior.initializeState]

theorem QLearningBehavior.learn_eq (q : QLearningBehavior) (s : String) (a : QAction) (r : ℚ)
    (s' : String) :
    q.learn s a r s' = (q.prepared s s').setQValue s a
      ((q.prepared s s').qValue s a + q.learningRate *
        (r + q.discountFactor * q.specMax s' - (q.prepared s s').qValue s a)) := by
  have hsnd := (q.prepared s s').getMaxQValue_snd_of_isSome s' (q.prepared_isSome_right s s')
  have hfst := (q.prepared s s').getMaxQValue_fst s'
  have hmax : (q.prepared s s').specMax s' = q.specMax s' := by
    simp [QLearningBehavior.specMax, QLearningBehavior.prepared_valueOrZero]
  have hr := q.prepared_rates s s'
  show (match (q.prepared s s').getMaxQValue s' with
    | (maxNextQ, q1) => q1.setQValue s a ((q.prepared s s').qValue s a + q1.learningRate *
        (r + q1.discountFactor * maxNextQ - (q.prepared s s').qValue s a))) = _
  rw [← Prod.mk.eta (p := (q.prepared s s').getMaxQValue s')]
  simp only [hsnd, hfst, hmax, hr.1, hr.2]

theorem QLearningBehavior.qValue_eq_valueOrZero (q : QLearningBehavior) (s : String)
    (a : QAction) : q.qValue s a = q.valueOrZero s a := by
  unfold QLearningBehavior.qValue QLearningBehavior.valueOrZero
  cases q.qTable s <;> simp

/-- C1: `learn(s, a, r, s')` with α = 0.1 and γ = 0.9 sets `Q(s, a)` to
`Q(s, a) + 0.1 * (r + 0.9 * max_a' Q(s', a') - Q(s, a))`, unseen states
counting as all zeros and the maximum being read from the table before the
write, and leaves every other (state, action) value unchanged. -/
theorem QLearningBehavior.learn_update (q : QLearningBehavior) (s : String) (a : QAction)
    (r : ℚ) (s' : String) (hα : q.learningRate = 1 / 10) (hγ : q.discountFactor = 9 / 10) :
    (q.learn s a r s').valueOrZero s a =
        q.valueOrZero s a + 1 / 10 * (r + 9 / 10 * q.specMax s' - q.valueOrZero s a) ∧
      ∀ (s2 : String) (a2 : QAction), (s2, a2) ≠ (s, a) →
        (q.learn s a r s').valueOrZero s2 a2 = q.valueOrZero s2 a2 := by
  rw [QLearningBehavior.learn_eq, QLearningBehavior.qValue_eq_valueOrZero,
    QLearningBehavior.prepared_valueOrZero, hα, hγ]
  have hsome := q.prepared_isSome_left s s'
  constructor
  · cases hrow : (q.prepared s s').qTable s with
    | none => simp [hrow] at hsome
    | some row => simp [QLearningBehavior.valueOrZero, QLearningBehavior.setQValue, hrow]
  · intro s2 a2 hne
    rw [← q.prepared_valueOrZero s s' s2 a2]
    by_cases hs : s2 = s
    · subst hs
      have ha : a2 ≠ a := fun h => hne (by rw [h])
      cases hrow : (q.prepared s2 s').qTable s2 with
      | none => simp [hrow] at hsome
      | some row => simp [QLearningBehavior.valueOrZero, QLearningBehavior.setQValue, hrow, ha]
    · simp [QLearningBehavior.valueOrZero, QLearningBehavior.setQValue, hs]

/-- C1 at the spec's numbers: Q = 0, r = 5, maxQ(next) = 2 give 0.68. -/
theorem QLearningBehavior.learn_update_witness :
    (QLearningBehavior.sample.learn "s" .cooperate 5 "next").valueOrZero "s" .cooperate
      = 68 / 100 := by
  have h := (QLearningBehavior.learn_update QLearningBehavior.sample "s" .cooperate 5 "next"
    rfl rfl).1
  rw [h]
  simp [QLearningBehavior.sample, QLearningBehavior.new, QLearningBehavior.specMax,
    QLearningBehavior.valueOrZero]
  norm_num

/-! ## Reactive interactions (C2, C3) -/

/-- C2: `CooperativeBehavior.interact` returns `selfEnergyDelta = -5.6` and
`targetEnergyDelta = 8` for every self and every target, whatever their
energies, the behaviour's memory and the clock. -/
theorem CooperativeBehavior.interact_result {β : Type} (b : BaseBehavior) (now later : ℚ)
    (self target : Organism β) :
    (CooperativeBehavior.interact b now later self target).1 =
      { selfEnergyDelta := -(56 / 10), targetEnergyDelta := 8 } := by
  simp only [CooperativeBehavior.interact]
  norm_num

/-- The binary64 numbers involved in the cooperative exchange: the literal
`0.7` is `3152519739159347 / 2^52`, just below 7/10; the product by `-8` is
exact and is the binary64 number nearest to `-5.6`; and the sum with `8` is
exact as well, `2.4000000000000004` (the binary64 number next above the one
nearest to 2.4). -/
theorem CooperativeBehavior.interactBinary64_values :
    toDouble (7 / 10) = 3152519739159347 / 4503599627370496 ∧
      CooperativeBehavior.interactBinary64.selfEnergyDelta = toDouble (-(56 / 10)) ∧
      CooperativeBehavior.interactBinary64.selfEnergyDelta = -8 * toDouble (7 / 10) ∧
      CooperativeBehavior.interactBinary64.targetEnergyDelta = 8 ∧
      toDouble (CooperativeBehavior.interactBinary64.selfEnergyDelta +
          CooperativeBehavior.interactBinary64.targetEnergyDelta) =
        CooperativeBehavior.interactBinary64.selfEnergyDelta +
          CooperativeBehavior.interactBinary64.targetEnergyDelta ∧
      CooperativeBehavior.interactBinary64.selfEnergyDelta +
          CooperativeBehavior.interactBinary64.targetEnergyDelta =
        1351079888211149 / 562949953421312 ∧
      toDouble (24 / 10) = 5404319552844595 / 2251799813685248 :=
  ⟨le_antisymm (by with_unfolding_all decide) (by with_unfolding_all decide),
    le_antisymm (by with_unfolding_all decide) (by with_unfolding_all decide),
    le_antisymm (by with_unfolding_all decide) (by with_unfolding_all decide),
    rfl,
    le_antisymm (by with_unfolding_all decide) (by with_unfolding_all decide),
    le_antisymm (by with_unfolding_all decide) (by with_unfolding_all decide),
    le_antisymm (by with_unfolding_all decide) (by with_unfolding_all decide)⟩

/-- C3 fails for Cooperative by the rounding of binary64 arithmetic: the two
numbers `interact` returns, `-8 * 0.7` and `8`, have a sum above 2.4, both as
exact numbers and when the sum and the bound are taken in binary64
(`2.4000000000000004` against `2.4`). -/
theorem CooperativeBehavior.interactBinary64_sum_above_bound :
    24 / 10 < CooperativeBehavior.interactBinary64.selfEnergyDelta +
        CooperativeBehavior.interactBinary64.targetEnergyDelta ∧
      toDouble (24 / 10) < toDouble (CooperativeBehavior.interactBinary64.selfEnergyDelta +
        CooperativeBehavior.interactBinary64.targetEnergyDelta) := by
  with_unfolding_all decide

/-- C3, amended: for every self and target the sum
`selfEnergyDelta + targetEnergyDelta` returned by `interact` is `≤ 0` for
Selfish and Aggressive, and is `≥ 0` and at most the fixed constant
`2.4000000000000004` (`1351079888211149 / 2^49`) for Cooperative, Altruistic
and TitForTat (so in particular for a cooperating TitForTat).  The constant is
the sum of the two numbers the cooperative exchange returns in binary64; for
the other behaviours the two numbers are opposite, so their sum is 0 whatever
the rounding. -/
theorem interact_energy_sum_bounds {β : Type} (b : BaseBehavior) (now later : ℚ)
    (self target : Organism β) :
    ((SelfishBehavior.interact b now later self target).1.selfEnergyDelta +
        (SelfishBehavior.interact b now later self target).1.targetEnergyDelta ≤ 0) ∧
    ((AggressiveBehavior.interact b now later self target).1.selfEnergyDelta +
        (AggressiveBehavior.interact b now later self target).1.targetEnergyDelta ≤ 0) ∧
    (0 ≤ (CooperativeBehavior.interact b now later self target).1.selfEnergyDelta +
        (CooperativeBehavior.interact b now later self target).1.targetEnergyDelta ∧
      (CooperativeBehavior.interact b now later self target).1.selfEnergyDelta +
        (CooperativeBehavior.interact b now later self target).1.targetEnergyDelta ≤
          1351079888211149 / 562949953421312) ∧
    (0 ≤ CooperativeBehavior.interactBinary64.selfEnergyDelta +
        CooperativeBehavior.interactBinary64.targetEnergyDelta ∧
      CooperativeBehavior.interactBinary64.selfEnergyDelta +
        CooperativeBehavior.interactBinary64.targetEnergyDelta ≤
          1351079888211149 / 562949953421312 ∧
      toDouble (CooperativeBehavior.interactBinary64.selfEnergyDelta +
        CooperativeBehavior.interactBinary64.targetEnergyDelta) ≤
          1351079888211149 / 562949953421312) ∧
    ((SelfishBehavior.interact b now later self target).1.targetEnergyDelta =
        -(SelfishBehavior.interact b now later self target).1.selfEnergyDelta ∧
      (AggressiveBehavior.interact b now later self target).1.targetEnergyDelta =
        -(AggressiveBehavior.interact b now later self target).1.selfEnergyDelta ∧
      (AltruisticBehavior.interact b now later self target).1.targetEnergyDelta =
        -(AltruisticBehavior.interact b now later self target).1.selfEnergyDelta ∧
      (TitForTatBehavior.interact b now later self target).1.targetEnergyDelta =
        -(TitForTatBehavior.interact b now later self target).1.selfEnergyDelta) ∧
    (0 ≤ (AltruisticBehavior.interact b now later self target).1.selfEnergyDelta +
        (AltruisticBehavior.interact b now later self target).1.targetEnergyDelta ∧
      (AltruisticBehavior.interact b now later self target).1.selfEnergyDelta +
        (AltruisticBehavior.interact b now later self target).1.targetEnergyDelta ≤
          1351079888211149 / 562949953421312) ∧
    (0 ≤ (TitForTatBehavior.interact b now later self target).1.selfEnergyDelta +
        (TitForTatBehavior.interact b now later self target).1.targetEnergyDelta ∧
      (TitForTatBehavior.interact b now later self target).1.selfEnergyDelta +
        (TitForTatBehavior.interact b now later self target).1.targetEnergyDelta ≤
          1351079888211149 / 562949953421312) := by
  refine ⟨?_, ?_, ?_, ?_, ⟨?_, ?_, ?_, ?_⟩, ?_, ?_⟩
  · simp [SelfishBehavior.interact]
  · simp [AggressiveBehavior.interact]
  · simp only [CooperativeBehavior.interact]
    norm_num
  · exact ⟨by with_unfolding_all decide, by with_unfolding_all decide,
      by with_unfolding_all decide⟩
  · simp [SelfishBehavior.interact]
  · simp [AggressiveBehavior.interact]
  · unfold AltruisticBehavior.interact
    split_ifs <;> simp
  · unfold TitForTatBehavior.interact
    split
    · simp
    · split_ifs <;> simp
  · unfold AltruisticBehavior.interact
    split_ifs <;> norm_num
  · unfold TitForTatBehavior.interact
    split
    · norm_num
    · split_ifs <;> norm_num

/-! ## Memory expiry (C4) -/

theorem BaseBehavior.rememberInteraction_settings (b : BaseBehavior) (id : ℕ) (p : Bool)
    (now later : ℚ) :
    (b.rememberInteraction id p now later).unlimitedMemory = b.unlimitedMemory ∧
      (b.rememberInteraction id p now later).memoryDuration = b.memoryDuration := by
  unfold BaseBehavior.rememberInteraction BaseBehavior.cleanMemory
  cases h : b.unlimitedMemory <;> simp [h]

theorem BaseBehavior.calls_settings (cs : List MemoryCall) (b : BaseBehavior) :
    (b.calls cs).unlimitedMemory = b.unlimitedMemory ∧
      (b.calls cs).memoryDuration = b.memoryDuration := by
  induction cs generalizing b with
  | nil => exact ⟨rfl, rfl⟩
  | cons c cs ih =>
    have h := ih (b.call c)
    cases c with
    | rememberInteraction id p now later =>
      have h' := b.rememberInteraction_settings id p now later
      exact ⟨h.1.trans h'.1, h.2.trans h'.2⟩
    | getLastInteraction id now => exact h

theorem BaseBehavior.calls_append (b : BaseBehavior) (cs ds : List MemoryCall) :
    b.calls (cs ++ ds) = (b.calls cs).calls ds := by
  simp [BaseBehavior.calls, List.foldl_append]

/-- After a bounded-memory `rememberInteraction` whose cleaning read the clock
at `later`, no entry is older than `memoryDuration` seconds at `later`. -/
theorem BaseBehavior.rememberInteraction_fresh (b : BaseBehavior) (id : ℕ) (p : Bool)
    (now later : ℚ) (hu : b.unlimitedMemory = false) :
    ∀ kv ∈ (b.rememberInteraction id p now later).memory,
      later ≤ kv.2.timestamp + b.memoryDuration * 1000 := by
  intro kv hkv
  simp only [BaseBehavior.rememberInteraction, BaseBehavior.cleanMemory, hu, Bool.not_false,
    if_true, Bool.false_eq_true, if_false, List.mem_filter, Bool.not_eq_true', decide_eq_false_iff_not,
    not_lt] at hkv
  linarith [hkv.2]

theorem BaseBehavior.calls_fresh (cs : List MemoryCall) (b : BaseBehavior) (w : ℚ)
    (hu : b.unlimitedMemory = false)
    (hb : ∀ kv ∈ b.memory, w ≤ kv.2.timestamp + b.memoryDuration * 1000)
    (hcs : ∀ c ∈ cs, ∀ (i : ℕ) (q : Bool) (n l : ℚ),
      c = .rememberInteraction i q n l → w ≤ l) :
    ∀ kv ∈ (b.calls cs).memory, w ≤ kv.2.timestamp + b.memoryDuration * 1000 := by
  induction cs generalizing b with
  | nil => exact hb
  | cons c cs ih =>
    have hcs' : ∀ c ∈ cs, ∀ (i : ℕ) (q : Bool) (n l : ℚ),
        c = .rememberInteraction i q n l → w ≤ l :=
      fun c hc => hcs c (List.mem_cons_of_mem _ hc)
    cases c with
    | rememberInteraction id p now later =>
      have hset := b.rememberInteraction_settings id p now later
      have hw : w ≤ later := hcs _ (List.mem_cons_self _ _) id p now later rfl
      have := ih (b.rememberInteraction id p now later) (hset.1.trans hu)
        (fun kv hkv => by
          rw [hset.2]
          exact le_trans hw (b.rememberInteraction_fresh id p now later hu kv hkv)) hcs'
      rw [hset.2] at this
      exact this
    | getLastInteraction id now => exact ih b hu hb hcs'

theorem Memory.get_mem (m : Memory) (id : ℕ) (e : MemoryEntry) (h : m.get id = some e) :
    (id, e) ∈ m := by
  unfold Memory.get at h
  cases hf : m.find? (fun kv => kv.1 == id) with
  | none => simp [hf] at h
  | some kv =>
    have hmem := List.mem_of_find?_eq_some hf
    have hkey := List.find?_some hf
    simp only [hf, Option.map_some', Option.some.injEq] at h
    have hk : kv.1 = id := by simpa using hkey
    have : kv = (id, e) := Prod.ext hk h
    rw [← this]
    exact hmem

/-- C4, as the code has it: with `unlimitedMemory = false` and memory duration
`d`, once some `rememberInteraction` call has run whose cleaning read the clock
at `w` (and the cleanings of later writes read a clock no earlier than `w`),
every entry that `getLastInteraction` still returns satisfies
`w ≤ timestamp + d * 1000`: an entry recorded at `t` with `t + d * 1000 < w` is
absent, whatever calls came before or after. -/
theorem BaseBehavior.expired_entry_absent_after_write (b : BaseBehavior)
    (pre post : List MemoryCall) (id' : ℕ) (p : Bool) (n w : ℚ) (id : ℕ) (e : MemoryEntry)
    (hu : b.unlimitedMemory = false)
    (hpost : ∀ c ∈ post, ∀ (i : ℕ) (q : Bool) (n l : ℚ),
      c = .rememberInteraction i q n l → w ≤ l)
    (hget : (b.calls (pre ++ [.rememberInteraction id' p n w] ++ post)).getLastInteraction id
      = some e) :
    w ≤ e.timestamp + b.memoryDuration * 1000 := by
  rw [BaseBehavior.calls_append, BaseBehavior.calls_append] at hget
  have hpre := BaseBehavior.calls_settings pre b
  set b1 := b.calls pre with hb1
  have hstep : b1.calls [.rememberInteraction id' p n w] = b1.rememberInteraction id' p n w :=
    rfl
  rw [hstep] at hget
  have hset := b1.rememberInteraction_settings id' p n w
  have hfresh := b1.rememberInteraction_fresh id' p n w (hpre.1.trans hu)
  have hall := BaseBehavior.calls_fresh post (b1.rememberInteraction id' p n w) w
    (hset.1.trans (hpre.1.trans hu)) (fun kv hkv => by rw [hset.2]; exact hfresh kv hkv) hpost
  have hmem := Memory.get_mem _ id e hget
  have := hall (id, e) hmem
  rw [hset.2, hpre.2] at this
  exact this

/-- C4 amended, at a concrete trace: an entry for target 7 recorded at time 0,
a write for target 8 at time 60000 and a read of target 8 afterwards. -/
theorem BaseBehavior.expired_entry_absent_after_write_witness :
    (60000 : ℚ) ≤ 60000 + 50 * 1000 :=
  BaseBehavior.expired_entry_absent_after_write { type := .cooperative }
    [.rememberInteraction 7 true 0 0] [.getLastInteraction 7 60001] 8 false 60000 60000 8
    { wasPositive := false, timestamp := 60000 } rfl
    (by intro c hc i q n l h; simp at hc; subst hc; cases h)
    (by
      simp [BaseBehavior.calls, BaseBehavior.call, BaseBehavior.rememberInteraction,
        BaseBehavior.cleanMemory, BaseBehavior.getLastInteraction, Memory.set, Memory.has,
        Memory.get])

/-- C4 as stated fails: with the default memory duration of 50 s and bounded
memory, an entry recorded for target 7 at clock time 0 is still returned by
`getLastInteraction(7)` at any later time, here 60000 ms, when no write came in
between. -/
theorem BaseBehavior.expired_entry_still_returned :
    BaseBehavior.sampleRemembered.unlimitedMemory = false ∧
      BaseBehavior.sampleRemembered.memoryDuration = 50 ∧
      (0 : ℚ) + BaseBehavior.sampleRemembered.memoryDuration * 1000 < 60000 ∧
      (BaseBehavior.sampleRemembered.calls [.getLastInteraction 7 60000]).getLastInteraction 7 =
        some { wasPositive := true, timestamp := 0 } := by
  simp [BaseBehavior.sampleRemembered, BaseBehavior.calls, BaseBehavior.call,
    BaseBehavior.rememberInteraction, BaseBehavior.cleanMemory, BaseBehavior.getLastInteraction,
    Memory.set, Memory.has, Memory.get]
  norm_num

/-! ## Reproduction trait bounds (C5) -/

theorem childTrait_bounds (T m u : ℚ) (hT : 0 ≤ T) (hm : 0 ≤ m) (hu0 : 0 ≤ u) (hu1 : u < 1) :
    T * (1 - m) ≤ childTrait T m u ∧ childTrait T m u ≤ T * (1 + m) := by
  unfold childTrait
  have h1 : 0 ≤ u * m := mul_nonneg hu0 hm
  have h2 : u * m ≤ m := by nlinarith
  constructor
  · apply mul_le_mul_of_nonneg_left _ hT
    linarith
  · apply mul_le_mul_of_nonneg_left _ hT
    linarith

/-- C5: in `Organism.reproduce`, for parent traits `T ≥ 0` (speed, size,
lifespan, reproductionRate), mutation factor `m ≥ 0` and draws `u` in `[0, 1)`,
each child trait `T * (1 - m + 2 * m * u)` lies in `[T * (1 - m), T * (1 + m)]`. -/
theorem Organism.childStats_within_bounds {β : Type} (o : Organism β) (m u1 u2 u3 u4 : ℚ)
    (hm : 0 ≤ m)
    (hT : 0 ≤ o.speed ∧ 0 ≤ o.size ∧ 0 ≤ o.maxLifespan ∧ 0 ≤ o.reproductionRate)
    (hu : ∀ u ∈ [u1, u2, u3, u4], 0 ≤ u ∧ u < 1) :
    (o.speed * (1 - m) ≤ (o.childStats m u1 u2 u3 u4).speed ∧
      (o.childStats m u1 u2 u3 u4).speed ≤ o.speed * (1 + m)) ∧
    (o.size * (1 - m) ≤ (o.childStats m u1 u2 u3 u4).size ∧
      (o.childStats m u1 u2 u3 u4).size ≤ o.size * (1 + m)) ∧
    (o.maxLifespan * (1 - m) ≤ (o.childStats m u1 u2 u3 u4).lifespan ∧
      (o.childStats m u1 u2 u3 u4).lifespan ≤ o.maxLifespan * (1 + m)) ∧
    (o.reproductionRate * (1 - m) ≤ (o.childStats m u1 u2 u3 u4).reproductionRate ∧
      (o.childStats m u1 u2 u3 u4).reproductionRate ≤ o.reproductionRate * (1 + m)) := by
  have h1 := hu u1 (by simp)
  have h2 := hu u2 (by simp)
  have h3 := hu u3 (by simp)
  have h4 := hu u4 (by simp)
  exact ⟨childTrait_bounds _ m u1 hT.1 hm h1.1 h1.2,
    childTrait_bounds _ m u2 hT.2.1 hm h2.1 h2.2,
    childTrait_bounds _ m u3 hT.2.2.1 hm h3.1 h3.2,
    childTrait_bounds _ m u4 hT.2.2.2 hm h4.1 h4.2⟩

/-- C5 at a concrete parent: traits of `Organism.sample`, mutation factor 0.02
and the draws 0, 1/4, 1/2, 3/4. -/
theorem Organism.childStats_within_bounds_witness :
    (1 : ℚ) * (1 - 2 / 100) ≤ ((Organism.sample 100).childStats (2 / 100) 0 (1 / 4) (1 / 2) (3 / 4)).speed ∧
      ((Organism.sample 100).childStats (2 / 100) 0 (1 / 4) (1 / 2) (3 / 4)).speed
        ≤ 1 * (1 + 2 / 100) :=
  (Organism.childStats_within_bounds (Organism.sample 100) (2 / 100) 0 (1 / 4) (1 / 2) (3 / 4)
    (by norm_num) (by norm_num [Organism.sample])
    (by intro u hu; simp at hu; rcases hu with h | h | h | h <;> subst h <;> norm_num)).1

/-! ## Stability of `isAlive` and age under the operations of the core -/

theorem World.Stable.refl {β : Type} (w : World β) : w.Stable w :=
  fun _ o h => ⟨o, h, rfl, rfl⟩

theorem World.Stable.trans {β : Type} {w1 w2 w3 : World β} (h12 : w1.Stable w2)
    (h23 : w2.Stable w3) : w1.Stable w3 := by
  intro j o h
  obtain ⟨o2, h2, ha2, hg2⟩ := h12 j o h
  obtain ⟨o3, h3, ha3, hg3⟩ := h23 j o2 h2
  exact ⟨o3, h3, ha3.trans ha2, hg3.trans hg2⟩

theorem World.Stable.of_entities_eq {β : Type} {w w' : World β}
    (h : w'.entities = w.entities) : w.Stable w' := by
  intro j o hj
  exact ⟨o, by rw [h]; exact hj, rfl, rfl⟩

theorem World.Stable.set {β : Type} (w : World β) (i : ℕ) (o o' : Organism β)
    (hi : w.entities[i]? = some o) (ha : o'.isAlive = o.isAlive) (hg : o'.age = o.age)
    (w' : World β) (hw : w'.entities = w.entities.set i o') : w.Stable w' := by
  intro j oj hj
  rw [hw]
  by_cases hij : i = j
  · subst hij
    rw [hi] at hj
    cases hj
    have hlt : i < w.entities.length := by
      rcases Nat.lt_or_ge i w.entities.length with h | h
      · exact h
      · rw [List.getElem?_eq_none h] at hi
        cases hi
    exact ⟨o', by simp [List.getElem?_set, hlt], ha, hg⟩
  · exact ⟨oj, by rw [List.getElem?_set_ne hij]; exact hj, rfl, rfl⟩

theorem World.modifyEntity_stable {β : Type} (w : World β) (i : ℕ)
    (f : Organism β → Organism β) (ha : ∀ o, (f o).isAlive = o.isAlive)
    (hg : ∀ o, (f o).age = o.age) : w.Stable (w.modifyEntity i f) := by
  unfold World.modifyEntity
  cases h : w.entities[i]? with
  | none => exact World.Stable.refl w
  | some o => exact World.Stable.set w i o (f o) h (ha o) (hg o) _ rfl

theorem World.addEntity_stable {β : Type} (w : World β) (e : Organism β) :
    w.Stable (w.addEntity e) := by
  intro j o hj
  have hlt : j < w.entities.length := by
    rcases Nat.lt_or_ge j w.entities.length with h | h
    · exact h
    · rw [List.getElem?_eq_none h] at hj
      cases hj
  exact ⟨o, by simp [World.addEntity, List.getElem?_append_left hlt, hj], rfl, rfl⟩

theorem World.Stable.modifyEntity_right {β : Type} {w w' : World β} (h : w.Stable w') (i : ℕ)
    (f : Organism β → Organism β) (ha : ∀ o, (f o).isAlive = o.isAlive)
    (hg : ∀ o, (f o).age = o.age) : w.Stable (w'.modifyEntity i f) :=
  World.Stable.trans h (World.modifyEntity_stable w' i f ha hg)

theorem World.Stable.addEntity_right {β : Type} {w w' : World β} (h : w.Stable w')
    (e : Organism β) : w.Stable (w'.addEntity e) :=
  World.Stable.trans h (World.addEntity_stable w' e)

theorem Organism.eatFood_stable {β : Type} (w : World β) (i k : ℕ) :
    w.Stable (Organism.eatFood w i k) := by
  unfold Organism.eatFood
  cases h : w.foods[k]? with
  | none => exact World.Stable.refl w
  | some food =>
    dsimp only
    refine World.Stable.modifyEntity_right ?_ _ _ (by intro _; rfl) (by intro _; rfl)
    refine World.Stable.modifyEntity_right ?_ _ _ (by intro _; rfl) (by intro _; rfl)
    refine World.Stable.modifyEntity_right ?_ _ _ (by intro _; rfl) (by intro _; rfl)
    exact World.Stable.of_entities_eq rfl

theorem Organism.interactWithTarget_stable {β : Type} (ops : BehaviorOps β) (now : ℚ)
    (w : World β) (i j : ℕ) (rand : RandomSource) :
    w.Stable (Organism.interactWithTarget ops now w i j rand).1 := by
  unfold Organism.interactWithTarget
  split
  · split
    · exact World.Stable.refl w
    · dsimp only
      refine World.Stable.modifyEntity_right ?_ _ _ (by intro _; rfl) (by intro _; rfl)
      refine World.Stable.modifyEntity_right ?_ _ _ (by intro _; rfl) (by intro _; rfl)
      refine World.Stable.modifyEntity_right ?_ _ _ (by intro _; rfl) (by intro _; rfl)
      refine World.Stable.modifyEntity_right ?_ _ _ (by intro _; rfl) (by intro _; rfl)
      refine World.Stable.modifyEntity_right ?_ _ _ (by intro _; rfl) (by intro _; rfl)
      exact World.Stable.refl w
  · exact World.Stable.refl w

theorem Organism.reproduce_stable {β : Type} (M : JsMath) (ops : BehaviorOps β) (w : World β)
    (i : ℕ) (rand : RandomSource) : w.Stable (Organism.reproduce M ops w i rand).1 := by
  unfold Organism.reproduce
  split
  · exact World.Stable.refl w
  · split
    · exact World.Stable.refl w
    · dsimp only
      split
      · exact World.Stable.refl w
      · dsimp only
        refine World.Stable.modifyEntity_right ?_ _ _ (by intro _; rfl) (by intro _; rfl)
        apply World.Stable.addEntity_right
        exact World.Stable.of_entities_eq rfl

theorem Organism.decideInteraction_stable {β : Type} (ops : BehaviorOps β) (now : ℚ)
    (w : World β) (i : ℕ) (rand : RandomSource) :
    w.Stable (Organism.decideInteraction ops now w i rand).1 := by
  unfold Organism.decideInteraction
  split
  · exact World.Stable.refl w
  · dsimp only
    split
    · split
      · split
        · exact World.Stable.refl w
        · split
          · exact World.Stable.refl w
          · split
            · exact World.Stable.refl w
            · split
              · refine World.Stable.modifyEntity_right ?_ _ _ (by intro _; rfl) (by intro _; rfl)
                refine World.Stable.trans ?_ (Organism.eatFood_stable _ i _)
                exact World.modifyEntity_stable _ _ _ (by intro _; rfl) (by intro _; rfl)
              · exact World.modifyEntity_stable _ _ _ (by intro _; rfl) (by intro _; rfl)
      · split
        · split
          · exact World.modifyEntity_stable _ _ _ (by intro _; rfl) (by intro _; rfl)
          · split
            · exact World.modifyEntity_stable _ _ _ (by intro _; rfl) (by intro _; rfl)
            · split
              · dsimp only
                refine World.Stable.modifyEntity_right ?_ _ _ (by intro _; rfl) (by intro _; rfl)
                refine World.Stable.trans ?_ (Organism.interactWithTarget_stable ops now _ i _ _)
                exact World.modifyEntity_stable _ _ _ (by intro _; rfl) (by intro _; rfl)
              · exact World.modifyEntity_stable _ _ _ (by intro _; rfl) (by intro _; rfl)
        · exact World.Stable.refl w
    · exact World.Stable.refl w

theorem Organism.tryReproduce_stable {β : Type} (M : JsMath) (ops : BehaviorOps β)
    (deltaTime : ℚ) (w : World β) (i : ℕ) (rand : RandomSource) :
    w.Stable (Organism.tryReproduce M ops deltaTime w i rand).1 := by
  unfold Organism.tryReproduce
  split
  · exact World.Stable.refl w
  · dsimp only
    split
    · split
      · exact Organism.reproduce_stable M ops w i _
      · exact World.Stable.refl w
    · exact World.Stable.refl w

theorem Organism.decideAction_stable {β : Type} (M : JsMath) (ops : BehaviorOps β)
    (deltaTime now : ℚ) (w : World β) (i : ℕ) (rand : RandomSource) :
    w.Stable (Organism.decideAction M ops deltaTime now w i rand).1 :=
  World.Stable.trans (Organism.decideInteraction_stable ops now w i rand)
    (Organism.tryReproduce_stable M ops deltaTime _ i _)

theorem Organism.handleCollision_alive_age {β : Type} (M : JsMath) (o : Organism β)
    (c : Collision) (w : World β) (rand : RandomSource) :
    (o.handleCollision M c w rand).1.isAlive = o.isAlive ∧
      (o.handleCollision M c w rand).1.age = o.age := by
  unfold Organism.handleCollision
  dsimp only
  split <;> exact ⟨rfl, rfl⟩

theorem Organism.steer_alive_age {β : Type} (M : JsMath) (deltaTime : ℚ) (w : World β)
    (o : Organism β) (rand : RandomSource) :
    (o.steer M deltaTime w rand).1.isAlive = o.isAlive ∧
      (o.steer M deltaTime w rand).1.age = o.age := by
  unfold Organism.steer
  split
  · dsimp only
    split <;> split <;> exact ⟨rfl, rfl⟩
  · split
    · exact ⟨rfl, rfl⟩
    · dsimp only
      split <;> exact ⟨rfl, rfl⟩

theorem Organism.displace_alive_age {β : Type} (M : JsMath) (deltaTime : ℚ) (w : World β)
    (i : ℕ) (o : Organism β) (rand : RandomSource) :
    (o.displace M deltaTime w i rand).1.isAlive = o.isAlive ∧
      (o.displace M deltaTime w i rand).1.age = o.age := by
  have h := fun c => Organism.handleCollision_alive_age M o c w rand
  unfold Organism.displace
  dsimp only
  split
  · exact ⟨rfl, rfl⟩
  · split
    · split <;> exact h _
    · exact h _

theorem Organism.move_stable {β : Type} (M : JsMath) (deltaTime : ℚ) (w : World β) (i : ℕ)
    (rand : RandomSource) : w.Stable (Organism.move M deltaTime w i rand).1 := by
  unfold Organism.move
  cases h : w.entities[i]? with
  | none => exact World.Stable.refl w
  | some o =>
    dsimp only
    have h1 := Organism.steer_alive_age M deltaTime w o rand
    have h2 := Organism.displace_alive_age M deltaTime w i (o.steer M deltaTime w rand).1
      (o.steer M deltaTime w rand).2
    exact World.Stable.set w i o
      (((o.steer M deltaTime w rand).1.displace M deltaTime w i
        (o.steer M deltaTime w rand).2).1.clampToWorld w) h
      (h2.1.trans h1.1) (h2.2.trans h1.2) _ rfl

/-! ## The decay step of `update` (C6) -/

theorem Organism.update_of_dying {β : Type} (M : JsMath) (ops : BehaviorOps β)
    (deltaTime now : ℚ) (w : World β) (i : ℕ) (rand : RandomSource) (o : Organism β)
    (ho : w.entities[i]? = some o) (halive : o.isAlive = true)
    (hc : o.decayedEnergy deltaTime ≤ 0 ∨ o.age + deltaTime ≥ o.maxLifespan) :
    Organism.update M ops deltaTime now w i rand =
      ({ w with entities := w.entities.set i (o.decayedToDeath deltaTime) }, rand) := by
  have hna : ¬ o.isAlive = false := by simp [halive]
  unfold Organism.update
  rw [ho]
  dsimp only
  rw [if_neg hna]
  have hc' : (o.decayed deltaTime).energy ≤ 0 ∨
      (o.decayed deltaTime).age ≥ (o.decayed deltaTime).maxLifespan := hc
  exact if_pos hc'

theorem Organism.update_of_surviving {β : Type} (M : JsMath) (ops : BehaviorOps β)
    (deltaTime now : ℚ) (w : World β) (i : ℕ) (rand : RandomSource) (o : Organism β)
    (ho : w.entities[i]? = some o) (halive : o.isAlive = true)
    (hc : ¬ (o.decayedEnergy deltaTime ≤ 0 ∨ o.age + deltaTime ≥ o.maxLifespan)) :
    Organism.update M ops deltaTime now w i rand =
      Organism.move M deltaTime
        (Organism.decideAction M ops deltaTime now
          { w with entities := w.entities.set i (o.decayed deltaTime) } i rand).1 i
        (Organism.decideAction M ops deltaTime now
          { w with entities := w.entities.set i (o.decayed deltaTime) } i rand).2 := by
  have hna : ¬ o.isAlive = false := by simp [halive]
  unfold Organism.update
  rw [ho]
  dsimp only
  rw [if_neg hna]
  have hc' : ¬ ((o.decayed deltaTime).energy ≤ 0 ∨
      (o.decayed deltaTime).age ≥ (o.decayed deltaTime).maxLifespan) := hc
  exact if_neg hc'

theorem Organism.decideAction_move_stable {β : Type} (M : JsMath) (ops : BehaviorOps β)
    (deltaTime now : ℚ) (w : World β) (i : ℕ) (rand : RandomSource) :
    w.Stable (Organism.move M deltaTime
      (Organism.decideAction M ops deltaTime now w i rand).1 i
      (Organism.decideAction M ops deltaTime now w i rand).2).1 :=
  World.Stable.trans (Organism.decideAction_stable M ops deltaTime now w i rand)
    (Organism.move_stable M deltaTime
      (Organism.decideAction M ops deltaTime now w i rand).1 i
      (Organism.decideAction M ops deltaTime now w i rand).2)

theorem List.getElem?_set_self_of_some {α : Type} (l : List α) (i : ℕ) (a b : α)
    (h : l[i]? = some a) : (l.set i b)[i]? = some b := by
  have hlt : i < l.length := by
    rcases Nat.lt_or_ge i l.length with h' | h'
    · exact h'
    · rw [List.getElem?_eq_none h'] at h
      cases h
  simp [List.getElem?_set, hlt]

/-- C6: for a living organism, `update` stores the age `age + dt` and the
energy `e - dt * rate * f`, with `f = 0.9` when a target is set at the start of
the tick and `0.4` otherwise, and then:
if that energy is `≤ 0` or `age + dt ≥ maxLifespan`, the tick ends there: the
world is the one before with only this organism's stored previous position,
age, energy and `isAlive` flag rewritten (position, target, every other
organism, the food and the obstacles are unchanged), and no random number is
drawn;
otherwise the organism is stored alive with that age and energy, and the rest
of the tick, `decideAction` followed by `move`, runs on that world;
so the organism is not alive after the tick if and only if the energy after
decay is `≤ 0` or `age + dt ≥ maxLifespan`. -/
theorem Organism.update_decay_and_death {β : Type} (M : JsMath) (ops : BehaviorOps β)
    (deltaTime now : ℚ) (w : World β) (i : ℕ) (rand : RandomSource) (o : Organism β)
    (ho : w.entities[i]? = some o) (halive : o.isAlive = true) :
    ((o.energy - deltaTime * o.energyConsumptionRate *
          (if o.target.isSome then 9 / 10 else 4 / 10) ≤ 0 ∨
        o.age + deltaTime ≥ o.maxLifespan) →
      Organism.update M ops deltaTime now w i rand =
        ({ w with entities := w.entities.set i { o with
              previousPosition := o.position,
              age := o.age + deltaTime,
              energy := o.energy - deltaTime * o.energyConsumptionRate *
                (if o.target.isSome then 9 / 10 else 4 / 10),
              isAlive := false } }, rand)) ∧
    (¬ (o.energy - deltaTime * o.energyConsumptionRate *
          (if o.target.isSome then 9 / 10 else 4 / 10) ≤ 0 ∨
        o.age + deltaTime ≥ o.maxLifespan) →
      Organism.update M ops deltaTime now w i rand =
        Organism.move M deltaTime
          (Organism.decideAction M ops deltaTime now
            { w with entities := w.entities.set i { o with
                  previousPosition := o.position,
                  age := o.age + deltaTime,
                  energy := o.energy - deltaTime * o.energyConsumptionRate *
                    (if o.target.isSome then 9 / 10 else 4 / 10) } } i rand).1 i
          (Organism.decideAction M ops deltaTime now
            { w with entities := w.entities.set i { o with
                  previousPosition := o.position,
                  age := o.age + deltaTime,
                  energy := o.energy - deltaTime * o.energyConsumptionRate *
                    (if o.target.isSome then 9 / 10 else 4 / 10) } } i rand).2) ∧
    (∃ o', (Organism.update M ops deltaTime now w i rand).1.entities[i]? = some o' ∧
      (o'.isAlive = false ↔
        (o.energy - deltaTime * o.energyConsumptionRate *
            (if o.target.isSome then 9 / 10 else 4 / 10) ≤ 0 ∨
          o.age + deltaTime ≥ o.maxLifespan))) := by
  refine ⟨fun hc => Organism.update_of_dying M ops deltaTime now w i rand o ho halive hc,
    fun hc => Organism.update_of_surviving M ops deltaTime now w i rand o ho halive hc, ?_⟩
  by_cases hc : o.decayedEnergy deltaTime ≤ 0 ∨ o.age + deltaTime ≥ o.maxLifespan
  · rw [Organism.update_of_dying M ops deltaTime now w i rand o ho halive hc]
    refine ⟨_, List.getElem?_set_self_of_some _ i o _ ho, ?_⟩
    have hc' : o.energy - deltaTime * o.energyConsumptionRate *
        (if o.target.isSome then 9 / 10 else 4 / 10) ≤ 0 ∨
        o.age + deltaTime ≥ o.maxLifespan := hc
    exact ⟨fun _ => hc', fun _ => rfl⟩
  · rw [Organism.update_of_surviving M ops deltaTime now w i rand o ho halive hc]
    have hst := Organism.decideAction_move_stable M ops deltaTime now
      { w with entities := w.entities.set i (o.decayed deltaTime) } i rand
    obtain ⟨o', ho', ha', _⟩ := hst i (o.decayed deltaTime)
      (List.getElem?_set_self_of_some _ i o _ ho)
    refine ⟨o', ho', ?_⟩
    have : o'.isAlive = true := ha'.trans halive
    have hc' : ¬ (o.energy - deltaTime * o.energyConsumptionRate *
        (if o.target.isSome then 9 / 10 else 4 / 10) ≤ 0 ∨
        o.age + deltaTime ≥ o.maxLifespan) := hc
    refine ⟨fun h => ?_, fun h => absurd h hc'⟩
    rw [this] at h
    cases h

/-- C6 at the spec's scenario: energy 10, lifespan 100, age 99 and a tick of
15 s at rate 2 without target (decay 12): the organism is stored with energy
`10 - 15 * 2 * 0.4 = -2` and age 114, and is not alive after the tick. -/
theorem Organism.update_decay_and_death_witness :
    (Organism.update JsMath.crude BehaviorOps.idle 15 0 World.scenario 0
        RandomSource.half).1.entities.map (fun o => (o.energy, o.age, o.isAlive)) =
      [(-2, 114, false)] := by
  rw [(Organism.update_decay_and_death JsMath.crude BehaviorOps.idle 15 0 World.scenario 0
    RandomSource.half { Organism.sample 10 with age := 99 } rfl rfl).1
    (Or.inl (by norm_num [Organism.sample]))]
  with_unfolding_all decide

/-! ## Monotone aging and irreversible death (C7) -/

theorem World.Stable.alive_of {β : Type} {w w' : World β} (h : w.Stable w') (j : ℕ)
    (o : Organism β) (ho : w.entities[j]? = some o) :
    ∃ o', w'.entities[j]? = some o' ∧ (o.isAlive = false → o'.isAlive = false) := by
  obtain ⟨o', ho', ha, _⟩ := h j o ho
  exact ⟨o', ho', fun hd => ha.trans hd⟩

theorem Organism.update_of_dead {β : Type} (M : JsMath) (ops : BehaviorOps β)
    (deltaTime now : ℚ) (w : World β) (i : ℕ) (rand : RandomSource) (o : Organism β)
    (ho : w.entities[i]? = some o) (hdead : o.isAlive = false) :
    Organism.update M ops deltaTime now w i rand = (w, rand) := by
  unfold Organism.update
  rw [ho]
  dsimp only
  rw [if_pos hdead]

theorem Organism.update_of_absent {β : Type} (M : JsMath) (ops : BehaviorOps β)
    (deltaTime now : ℚ) (w : World β) (i : ℕ) (rand : RandomSource) (ho : w.entities[i]? = none) :
    Organism.update M ops deltaTime now w i rand = (w, rand) := by
  unfold Organism.update
  rw [ho]

theorem Organism.update_age_alive {β : Type} (M : JsMath) (ops : BehaviorOps β)
    (deltaTime now : ℚ) (hdt : 0 ≤ deltaTime) (w : World β) (i j : ℕ) (rand : RandomSource)
    (o : Organism β) (ho : w.entities[j]? = some o) :
    ∃ o', (Organism.update M ops deltaTime now w i rand).1.entities[j]? = some o' ∧
      o.age ≤ o'.age ∧ (o.isAlive = false → o'.isAlive = false) := by
  cases hi : w.entities[i]? with
  | none =>
    rw [Organism.update_of_absent M ops deltaTime now w i rand hi]
    exact ⟨o, ho, le_refl _, id⟩
  | some oi =>
    cases halive : oi.isAlive with
    | false =>
      rw [Organism.update_of_dead M ops deltaTime now w i rand oi hi halive]
      exact ⟨o, ho, le_refl _, id⟩
    | true =>
      by_cases hc : oi.decayedEnergy deltaTime ≤ 0 ∨ oi.age + deltaTime ≥ oi.maxLifespan
      · rw [Organism.update_of_dying M ops deltaTime now w i rand oi hi halive hc]
        by_cases hij : i = j
        · subst hij
          rw [hi] at ho
          have hEq : oi = o := Option.some.inj ho
          subst hEq
          refine ⟨_, List.getElem?_set_self_of_some _ i oi _ hi, ?_, fun _ => rfl⟩
          show oi.age ≤ oi.age + deltaTime
          linarith
        · exact ⟨o, by simp only [List.getElem?_set_ne hij]; exact ho, le_refl _, id⟩
      · rw [Organism.update_of_surviving M ops deltaTime now w i rand oi hi halive hc]
        have hst := Organism.decideAction_move_stable M ops deltaTime now
          { w with entities := w.entities.set i (oi.decayed deltaTime) } i rand
        by_cases hij : i = j
        · subst hij
          rw [hi] at ho
          have hEq : oi = o := Option.some.inj ho
          subst hEq
          obtain ⟨o', ho', ha', hg'⟩ := hst i (oi.decayed deltaTime)
            (List.getElem?_set_self_of_some _ i oi _ hi)
          refine ⟨o', ho', ?_, fun hd => ?_⟩
          · rw [hg']
            show oi.age ≤ oi.age + deltaTime
            linarith
          · rw [halive] at hd
            cases hd
        · obtain ⟨o', ho', ha', hg'⟩ := hst j o
            (by simp only [List.getElem?_set_ne hij]; exact ho)
          exact ⟨o', ho', le_of_eq hg'.symm, fun hd => ha'.trans hd⟩

/-- C7: for every organism of the world and every time step `dt ≥ 0`, `update`
never decreases its age; none of `update`, `eatFood`, `interactWithTarget`
(for the actor, the target and every bystander), `reproduce` and `move`
changes an `isAlive` flag from false to true; and `update` applied to a dead
organism changes nothing at all (so its age, energy and position stay). -/
theorem Organism.age_monotone_death_irreversible {β : Type} (M : JsMath) (ops : BehaviorOps β)
    (deltaTime now : ℚ) (hdt : 0 ≤ deltaTime) (w : World β) (i k j : ℕ) (rand : RandomSource)
    (o : Organism β) (ho : w.entities[j]? = some o) :
    (∃ o', (Organism.update M ops deltaTime now w i rand).1.entities[j]? = some o' ∧
      o.age ≤ o'.age ∧ (o.isAlive = false → o'.isAlive = false)) ∧
    (∃ o', (Organism.eatFood w i k).entities[j]? = some o' ∧
      (o.isAlive = false → o'.isAlive = false)) ∧
    (∃ o', (Organism.interactWithTarget ops now w i k rand).1.entities[j]? = some o' ∧
      (o.isAlive = false → o'.isAlive = false)) ∧
    (∃ o', (Organism.reproduce M ops w i rand).1.entities[j]? = some o' ∧
      (o.isAlive = false → o'.isAlive = false)) ∧
    (∃ o', (Organism.move M deltaTime w i rand).1.entities[j]? = some o' ∧
      (o.isAlive = false → o'.isAlive = false)) ∧
    (o.isAlive = false → Organism.update M ops deltaTime now w j rand = (w, rand)) :=
  ⟨Organism.update_age_alive M ops deltaTime now hdt w i j rand o ho,
    (Organism.eatFood_stable w i k).alive_of j o ho,
    (Organism.interactWithTarget_stable ops now w i k rand).alive_of j o ho,
    (Organism.reproduce_stable M ops w i rand).alive_of j o ho,
    (Organism.move_stable M deltaTime w i rand).alive_of j o ho,
    fun hd => Organism.update_of_dead M ops deltaTime now w j rand o ho hd⟩

/-- C7 at the spec's scenario: after a tick of 15 s the single organism, aged
99, is at least as old and, being alive before, is subject to no resurrection
claim; the hypotheses hold there. -/
theorem Organism.age_monotone_death_irreversible_witness :
    (0 : ℚ) ≤ 15 ∧
      ∃ o', (Organism.update JsMath.crude BehaviorOps.idle 15 0 World.scenario 0
          RandomSource.half).1.entities[0]? = some o' ∧ (99 : ℚ) ≤ o'.age :=
  ⟨by norm_num,
    (Organism.age_monotone_death_irreversible JsMath.crude BehaviorOps.idle 15 0 (by norm_num)
      World.scenario 0 0 0 RandomSource.half { Organism.sample 10 with age := 99 } rfl).1.imp
      (fun _ h => ⟨h.1, h.2.1⟩)⟩

/-! ## Placement with a fixed clearance (C8) -/

theorem World.isClear_spec {β : Type} (w : World β) (safeDistance : ℚ) (p : Vec3)
    (h : w.isClear safeDistance p = true) :
    (∀ e ∈ w.entities, e.isAlive = true →
      safeDistance * safeDistance ≤ distanceSquared p e.position) ∧
    (∀ f ∈ w.foods, f.isConsumed = false →
      safeDistance * safeDistance ≤ distanceSquared p f.position) ∧
    (∀ ob ∈ w.obstacles,
      (safeDistance + jsOr ob.boundingRadius (5 / 10)) *
        (safeDistance + jsOr ob.boundingRadius (5 / 10)) ≤ distanceSquared p ob.position) := by
  unfold World.isClear at h
  simp only [Bool.and_eq_true, List.all_eq_true] at h
  obtain ⟨⟨he, hob⟩, hf⟩ := h
  refine ⟨fun e hmem halive => ?_, fun f hmem hcons => ?_, fun ob hmem => ?_⟩
  · have := he e hmem
    simpa [halive] using this
  · have := hf f hmem
    simpa [hcons] using this
  · have := hob ob hmem
    simpa using this

theorem SimulationManager.findSafePositionLoop_clear {β : Type} (sim : SimulationManager β)
    (safeDistance : ℚ) (n : ℕ) (rand : RandomSource) (p : Vec3)
    (h : (sim.findSafePositionLoop safeDistance n rand).1 = some p) :
    sim.world.isClear safeDistance p = true := by
  induction n generalizing rand with
  | zero => simp [SimulationManager.findSafePositionLoop] at h
  | succ n ih =>
    unfold SimulationManager.findSafePositionLoop at h
    dsimp only at h
    split at h
    · rename_i hclear
      have hp : (sim.world.getRandomPosition rand).1 = p := Option.some.inj h
      rw [← hp]
      exact hclear
    · exact ih _ h

/-- C8: every position returned by `SimulationManager.findSafePosition` has
squared planar distance at least `2.0²` from every living organism and every
unconsumed food item, and at least `(2.0 + r)²` from every obstacle of bounding
radius `r`, with `r` taken as 0.5 when the radius is missing or zero. -/
theorem SimulationManager.findSafePosition_clearance {β : Type} (sim : SimulationManager β)
    (rand : RandomSource) (p : Vec3) (h : (sim.findSafePosition rand).1 = some p) :
    (∀ e ∈ sim.world.entities, e.isAlive = true → (2 : ℚ) ^ 2 ≤ distanceSquared p e.position) ∧
    (∀ f ∈ sim.world.foods, f.isConsumed = false → (2 : ℚ) ^ 2 ≤ distanceSquared p f.position) ∧
    (∀ ob ∈ sim.world.obstacles,
      (2 + jsOr ob.boundingRadius (5 / 10)) ^ 2 ≤ distanceSquared p ob.position) := by
  have hclear := sim.findSafePositionLoop_clear 2 20 rand p h
  obtain ⟨he, hf, hob⟩ := sim.world.isClear_spec 2 p hclear
  refine ⟨fun e hmem ha => ?_, fun f hmem hc => ?_, fun ob hmem => ?_⟩
  · rw [pow_two]
    exact he e hmem ha
  · rw [pow_two]
    exact hf f hmem hc
  · rw [pow_two]
    exact hob ob hmem

theorem SimulationManager.sample_findSafePosition :
    (SimulationManager.sample.findSafePosition RandomSource.half).1 = some ⟨0, 0, 0⟩ := by
  with_unfolding_all decide

/-- C8 on `World.sample`: the search returns the origin, which is at squared
distance 9 from both organisms, 25 from the food and 16 ≥ 2.5² from the
obstacle. -/
theorem SimulationManager.findSafePosition_clearance_witness :
    (SimulationManager.sample.findSafePosition RandomSource.half).1 = some ⟨0, 0, 0⟩ ∧
      ∀ ob ∈ SimulationManager.sample.world.obstacles,
        (2 + jsOr ob.boundingRadius (5 / 10)) ^ 2 ≤ distanceSquared ⟨0, 0, 0⟩ ob.position :=
  ⟨SimulationManager.sample_findSafePosition,
    (SimulationManager.findSafePosition_clearance SimulationManager.sample RandomSource.half ⟨0, 0, 0⟩
      SimulationManager.sample_findSafePosition).2.2⟩

/-! ## Initial placement in terms of radii (C9) -/

theorem SimulationManager.createOrganism_position {β : Type} (M : JsMath) (ops : BehaviorOps β)
    (sim : SimulationManager β) (type : Option BehaviorType) (p : Vec3) (rand : RandomSource) :
    (sim.createOrganism M ops type (some p) rand).1.position = p :=
  rfl

theorem sq_le_of_le_clearance (s c d : ℚ) (h0 : 0 ≤ s) (hs : s ≤ c) (hd : c * c ≤ d) :
    s ^ 2 ≤ d := by
  have : s * s ≤ c * c := mul_le_mul hs hs h0 (le_trans h0 hs)
  rw [pow_two]
  exact le_trans this hd

/-- How far the fixed clearance of `findSafePosition` goes in terms of radii: an
organism created by `createOrganism` at a position returned by
`findSafePosition` stands at that position, and its squared distance is at
least `(0.8 * size_new + radius_q)²` from every living organism and unconsumed
food item `q` whose radius sum with it lies in `[0, 2.0]`, and from every
obstacle with a radius `r` when `0 ≤ 0.8 * size_new + r` and
`0.8 * size_new ≤ 2.0`.  Beyond a radius sum of 2.0 the search gives nothing. -/
theorem SimulationManager.createOrganism_radii_within_clearance {β : Type} (M : JsMath)
    (ops : BehaviorOps β) (sim : SimulationManager β) (type : Option BehaviorType)
    (rand rand' : RandomSource) (p : Vec3) (h : (sim.findSafePosition rand).1 = some p) :
    (sim.createOrganism M ops type (some p) rand').1.position = p ∧
    (∀ q ∈ sim.world.entities, q.isAlive = true →
      0 ≤ (sim.createOrganism M ops type (some p) rand').1.size * (8 / 10) + q.size * (8 / 10) →
      (sim.createOrganism M ops type (some p) rand').1.size * (8 / 10) + q.size * (8 / 10) ≤ 2 →
      ((sim.createOrganism M ops type (some p) rand').1.size * (8 / 10) + q.size * (8 / 10)) ^ 2 ≤
        distanceSquared (sim.createOrganism M ops type (some p) rand').1.position q.position) ∧
    (∀ f ∈ sim.world.foods, f.isConsumed = false →
      0 ≤ (sim.createOrganism M ops type (some p) rand').1.size * (8 / 10) + f.size * (4 / 10) →
      (sim.createOrganism M ops type (some p) rand').1.size * (8 / 10) + f.size * (4 / 10) ≤ 2 →
      ((sim.createOrganism M ops type (some p) rand').1.size * (8 / 10) + f.size * (4 / 10)) ^ 2 ≤
        distanceSquared (sim.createOrganism M ops type (some p) rand').1.position f.position) ∧
    (∀ ob ∈ sim.world.obstacles, ∀ r, ob.boundingRadius = some r →
      0 ≤ (sim.createOrganism M ops type (some p) rand').1.size * (8 / 10) + r →
      (sim.createOrganism M ops type (some p) rand').1.size * (8 / 10) ≤ 2 →
      ((sim.createOrganism M ops type (some p) rand').1.size * (8 / 10) + r) ^ 2 ≤
        distanceSquared (sim.createOrganism M ops type (some p) rand').1.position ob.position) := by
  have hclear := sim.findSafePositionLoop_clear 2 20 rand p h
  obtain ⟨he, hf, hob⟩ := sim.world.isClear_spec 2 p hclear
  rw [SimulationManager.createOrganism_position]
  refine ⟨rfl, fun q hq ha h0 h2 => ?_, fun f hfm hc h0 h2 => ?_, fun ob hm r hr h0 h2 => ?_⟩
  · exact sq_le_of_le_clearance _ 2 _ h0 h2 (he q hq ha)
  · exact sq_le_of_le_clearance _ 2 _ h0 h2 (hf f hfm hc)
  · have hcl := hob ob hm
    rw [hr] at hcl
    refine sq_le_of_le_clearance _ (2 + jsOr (some r) (5 / 10)) _ h0 ?_ hcl
    unfold jsOr
    dsimp only
    split_ifs with hr0
    · rw [hr0]
      linarith
    · linarith

/-- The clearance lemma on `World.sample` with the default base size 1: the new
organism has radius 0.8 and the unit-size organism at `(0, 0, -3)` has radius
0.8; their sum 1.6 is within the clearance. -/
theorem SimulationManager.createOrganism_radii_within_clearance_witness :
    (SimulationManager.sample.findSafePosition RandomSource.half).1 = some ⟨0, 0, 0⟩ ∧
      ((8 : ℚ) / 10 + 8 / 10) ^ 2 ≤ distanceSquared ⟨0, 0, 0⟩ ⟨0, 0, -3⟩ := by
  have h := (SimulationManager.createOrganism_radii_within_clearance JsMath.crude
    BehaviorOps.idle SimulationManager.sample none RandomSource.half RandomSource.half ⟨0, 0, 0⟩
    SimulationManager.sample_findSafePosition).2.1
    { Organism.sample 100 with meshId := 2, position := ⟨0, 0, -3⟩ }
    (by simp [SimulationManager.sample, World.sample]) rfl
    (by with_unfolding_all decide) (by with_unfolding_all decide)
  refine ⟨SimulationManager.sample_findSafePosition, ?_⟩
  have hsize : (SimulationManager.sample.createOrganism JsMath.crude BehaviorOps.idle none
      (some ⟨0, 0, 0⟩) RandomSource.half).1.size = 1 := by with_unfolding_all decide
  rw [SimulationManager.createOrganism_position, hsize] at h
  simpa [Organism.sample] using h

/-- C9 evaluated at the failing input: with base size 2 the search over
`World.sample` returns the origin (squared distance 9 ≥ 2.0² from the organism
of size 2 at `(3, 0, 0)`, the only test made), the organism created there has
size 2, and `9 < (0.8 * 2 + 0.8 * 2)² = 10.24`: the two overlap. -/
theorem SimulationManager.createOrganism_overlaps_at_base_size_two :
    ((SimulationManager.sample.setBaseSize 2).findSafePosition RandomSource.half).1
        = some ⟨0, 0, 0⟩ ∧
      ∃ q ∈ (SimulationManager.sample.setBaseSize 2).world.entities, q.isAlive = true ∧
        distanceSquared
            ((SimulationManager.sample.setBaseSize 2).createOrganism JsMath.crude
              BehaviorOps.idle none (some ⟨0, 0, 0⟩) RandomSource.half).1.position q.position <
          (((SimulationManager.sample.setBaseSize 2).createOrganism JsMath.crude
              BehaviorOps.idle none (some ⟨0, 0, 0⟩) RandomSource.half).1.getBoundingRadius
            + q.getBoundingRadius) ^ 2 := by
  refine ⟨by with_unfolding_all decide,
    { Organism.sample 100 with size := 2, position := ⟨3, 0, 0⟩ }, ?_, rfl, ?_⟩
  · simp [SimulationManager.sample, SimulationManager.setBaseSize, World.sample]
  · with_unfolding_all decide

/-! ## The spawn search of `reproduce` (C10) -/

theorem Organism.isPositionSafe_iff {β : Type} (o : Organism β) (p : Vec3) (w : World β)
    (i : ℕ) :
    o.isPositionSafe p w i = true ↔
      (∀ (j : ℕ) (q : Organism β), w.entities[j]? = some q → j ≠ i → q.isAlive = true →
        (o.getBoundingRadius + q.getBoundingRadius) ^ 2 ≤ distanceSquared p q.position) ∧
      (∀ ob ∈ w.obstacles, ∀ r, ob.boundingRadius = some r →
        (o.getBoundingRadius + r) ^ 2 ≤ distanceSquared p ob.position) ∧
      (∀ f ∈ w.foods, f.isConsumed = false →
        (o.getBoundingRadius + f.getBoundingRadius) ^ 2 ≤ distanceSquared p f.position) := by
  unfold Organism.isPositionSafe indexed
  simp only [Bool.and_eq_true, List.all_eq_true, and_assoc]
  refine and_congr ?_ (and_congr ?_ ?_)
  · constructor
    · intro h j q hj hji ha
      have := h (j, q) (List.mem_enum_iff_getElem?.mpr hj)
      simpa [hji, ha, pow_two] using this
    · intro h je hmem
      have hj := List.mem_enum_iff_getElem?.mp hmem
      by_cases hc : je.1 = i ∨ je.2.isAlive = false
      · simp [hc]
      · have hne : je.1 ≠ i := fun e => hc (Or.inl e)
        have ha : je.2.isAlive = true := by
          cases hb : je.2.isAlive
          · exact absurd (Or.inr hb) hc
          · rfl
        have := h je.1 je.2 hj hne ha
        simpa [hc, pow_two] using this
  · constructor
    · intro h ob hm r hr
      have := h ob hm
      simpa [hr, pow_two] using this
    · intro h ob hm
      cases hr : ob.boundingRadius with
      | none => rfl
      | some r =>
        have := h ob hm r hr
        simpa [pow_two] using this
  · constructor
    · intro h f hm hc
      have := h f hm
      simpa [hc, pow_two] using this
    · intro h f hm
      cases hc : f.isConsumed with
      | true => simp
      | false =>
        have := h f hm hc
        simpa [pow_two] using this

theorem Organism.spiralCandidates_length {β : Type} (M : JsMath) (o : Organism β) (w : World β)
    (sd : ℚ) (n : ℕ) (a d : ℚ) (rand : RandomSource) :
    (Organism.spiralCandidates M o w sd n a d rand).1.length = n := by
  induction n generalizing a d rand with
  | zero => rfl
  | succ n ih =>
    unfold Organism.spiralCandidates
    dsimp only
    split_ifs <;> simp [ih]

theorem Organism.randomCandidates_length {β : Type} (w : World β) (n : ℕ) (rand : RandomSource) :
    (Organism.randomCandidates w n rand).length = n := by
  induction n generalizing rand with
  | zero => rfl
  | succ n ih =>
    unfold Organism.randomCandidates
    simp [ih]

theorem Organism.spiralSearch_eq_find {β : Type} (M : JsMath) (o : Organism β) (w : World β)
    (i : ℕ) (sd : ℚ) (n : ℕ) (a d : ℚ) (rand : RandomSource) :
    (Organism.spiralSearch M o w i sd n a d rand).1 =
        (Organism.spiralCandidates M o w sd n a d rand).1.find? (fun p => o.isPositionSafe p w i) ∧
      ((Organism.spiralSearch M o w i sd n a d rand).1 = none →
        (Organism.spiralSearch M o w i sd n a d rand).2 =
          (Organism.spiralCandidates M o w sd n a d rand).2) := by
  induction n generalizing a d rand with
  | zero => exact ⟨rfl, fun _ => rfl⟩
  | succ n ih =>
    unfold Organism.spiralSearch Organism.spiralCandidates
    dsimp only
    by_cases hsafe : o.isPositionSafe
        { x := o.position.x + M.cos a * d, y := 0, z := o.position.z + M.sin a * d } w i = true
    · simp [hsafe]
    · simp only [hsafe, Bool.false_eq_true, if_false, List.find?_cons_of_neg, not_false_eq_true]
      split_ifs
      · exact ih _ _ _
      · exact ih _ _ _

theorem Organism.randomSearch_eq_find {β : Type} (o : Organism β) (w : World β) (i : ℕ) (n : ℕ)
    (rand : RandomSource) :
    (Organism.randomSearch o w i n rand).1 =
      (Organism.randomCandidates w n rand).find? (fun p => o.isPositionSafe p w i) := by
  induction n generalizing rand with
  | zero => rfl
  | succ n ih =>
    unfold Organism.randomSearch Organism.randomCandidates
    dsimp only
    by_cases hsafe : o.isPositionSafe
        { x := (rand.next.1 * 2 - 1) * (w.terrainSize / (25 / 10)), y := 0,
          z := (rand.next.2.next.1 * 2 - 1) * (w.terrainSize / (25 / 10)) } w i = true
    · simp [hsafe]
    · simp only [hsafe, Bool.false_eq_true, if_false, List.find?_cons_of_neg, not_false_eq_true]
      exact ih _

theorem Organism.findSafeSpawnPosition_eq_find {β : Type} (M : JsMath) (o : Organism β)
    (w : World β) (i : ℕ) (rand : RandomSource) :
    (o.findSafeSpawnPosition M w i rand).1 =
      (o.spawnCandidates M w rand).find? (fun p => o.isPositionSafe p w i) := by
  unfold Organism.findSafeSpawnPosition Organism.spawnCandidates
  dsimp only
  have hs := Organism.spiralSearch_eq_find M o w i (max (15 / 10) (o.size * 2)) 20
    (rand.next.1 * M.pi * 2) (max (15 / 10) (o.size * 2)) rand.next.2
  rw [List.find?_append, ← hs.1]
  cases hres : Organism.spiralSearch M o w i (max (15 / 10) (o.size * 2)) 20
      (rand.next.1 * M.pi * 2) (max (15 / 10) (o.size * 2)) rand.next.2 with
  | mk res rand' =>
    cases res with
    | some pos => rfl
    | none =>
      have h2 := hs.2 (by rw [hres])
      rw [hres] at h2
      dsimp only at h2
      subst h2
      simp only [Option.or, Option.none_or]
      exact Organism.randomSearch_eq_find o w i 5 _

/-- C10: `findSafeSpawnPosition` returns the first of at most 25 candidate
positions (20 on the spiral, then 5 random) that satisfies `isPositionSafe`, so
it evaluates at most 25 candidates; every position it returns is such a
candidate and satisfies `isPositionSafe`, that is, its squared distance is at
least `(parentRadius + radius_q)²` for every living organism `q` other than the
parent, every obstacle (with a radius) and every unconsumed food item; and it
returns none exactly when no candidate is safe. -/
theorem Organism.findSafeSpawnPosition_first_safe_candidate {β : Type} (M : JsMath)
    (o : Organism β) (w : World β) (i : ℕ) (rand : RandomSource) :
    (o.spawnCandidates M w rand).length ≤ 25 ∧
    (o.findSafeSpawnPosition M w i rand).1 =
      (o.spawnCandidates M w rand).find? (fun p => o.isPositionSafe p w i) ∧
    (∀ p, (o.findSafeSpawnPosition M w i rand).1 = some p →
      p ∈ o.spawnCandidates M w rand ∧ o.isPositionSafe p w i = true ∧
      (∀ (j : ℕ) (q : Organism β), w.entities[j]? = some q → j ≠ i → q.isAlive = true →
        (o.getBoundingRadius + q.getBoundingRadius) ^ 2 ≤ distanceSquared p q.position) ∧
      (∀ ob ∈ w.obstacles, ∀ r, ob.boundingRadius = some r →
        (o.getBoundingRadius + r) ^ 2 ≤ distanceSquared p ob.position) ∧
      (∀ f ∈ w.foods, f.isConsumed = false →
        (o.getBoundingRadius + f.getBoundingRadius) ^ 2 ≤ distanceSquared p f.position)) ∧
    ((o.findSafeSpawnPosition M w i rand).1 = none ↔
      ∀ c ∈ o.spawnCandidates M w rand, o.isPositionSafe c w i = false) := by
  have heq := Organism.findSafeSpawnPosition_eq_find M o w i rand
  refine ⟨?_, heq, fun p hp => ?_, ?_⟩
  · unfold Organism.spawnCandidates
    simp [Organism.spiralCandidates_length, Organism.randomCandidates_length]
  · rw [heq] at hp
    have hsafe : o.isPositionSafe p w i = true :=
      List.find?_some (p := fun c => o.isPositionSafe c w i) hp
    exact ⟨List.mem_of_find?_eq_some hp, hsafe, (Organism.isPositionSafe_iff o p w i).mp hsafe⟩
  · rw [heq, List.find?_eq_none]
    simp

/-- C10 on `World.sample`: for the parent at index 1 the first spiral candidate
`(2, 0, -3)` is safe and is returned. -/
theorem Organism.findSafeSpawnPosition_first_safe_candidate_witness :
    (Organism.sampleParent.findSafeSpawnPosition JsMath.crude World.sample 1
        RandomSource.half).1 = some ⟨2, 0, -3⟩ ∧
      Organism.sampleParent.isPositionSafe ⟨2, 0, -3⟩ World.sample 1 = true :=
  ⟨by with_unfolding_all decide,
    ((Organism.findSafeSpawnPosition_first_safe_candidate JsMath.crude Organism.sampleParent
      World.sample 1 RandomSource.half).2.2.1 ⟨2, 0, -3⟩ (by with_unfolding_all decide)).2.1⟩

/-! ## Memory eviction on write (C16) -/

theorem Memory.find_filter_of_unique (l : Memory) (id : ℕ) (e : MemoryEntry)
    (keep : ℕ × MemoryEntry → Bool) (hkeep : keep (id, e) = true)
    (hall : ∀ kv ∈ l, kv.1 = id → kv = (id, e)) (hmem : (id, e) ∈ l) :
    Memory.get (l.filter keep) id = some e := by
  unfold Memory.get
  induction l with
  | nil => cases hmem
  | cons kv l ih =>
    by_cases hk : kv.1 = id
    · have hkv : kv = (id, e) := hall kv (List.mem_cons_self _ _) hk
      subst hkv
      simp [List.filter_cons, hkeep]
    · have hmem' : (id, e) ∈ l := by
        rcases List.mem_cons.mp hmem with h | h
        · exact absurd (by rw [← h]) hk
        · exact h
      have ih' := ih (fun x hx => hall x (List.mem_cons_of_mem _ hx)) hmem'
      rw [List.filter_cons]
      split
      · rw [List.find?_cons_of_neg _ (by simpa using hk)]
        exact ih'
      · exact ih'

theorem Memory.set_unique (m : Memory) (id : ℕ) (e : MemoryEntry) :
    (∀ kv ∈ m.set id e, kv.1 = id → kv = (id, e)) ∧ (id, e) ∈ m.set id e := by
  unfold Memory.set
  split
  · rename_i hhas
    constructor
    · intro kv hkv hk
      rw [List.mem_map] at hkv
      obtain ⟨x, _, hx⟩ := hkv
      by_cases hxid : x.1 = id
      · simp only [hxid, beq_self_eq_true, if_true] at hx
        exact hx.symm
      · have : (x.1 == id) = false := by simpa using hxid
        simp only [this, Bool.false_eq_true, if_false] at hx
        rw [← hx] at hk
        exact absurd hk hxid
    · simp only [Memory.has, List.any_eq_true] at hhas
      obtain ⟨x, hx, hxid⟩ := hhas
      rw [List.mem_map]
      exact ⟨x, hx, by simp [hxid]⟩
  · rename_i hhas
    constructor
    · intro kv hkv hk
      rcases List.mem_append.mp hkv with h | h
      · exfalso
        apply hhas
        simp only [Memory.has, List.any_eq_true]
        exact ⟨kv, h, by simpa using hk⟩
      · simpa using h
    · simp

theorem Memory.find_map_ne (m : Memory) (id id' : ℕ) (e : MemoryEntry) (hne : id' ≠ id) :
    List.find? (fun kv => kv.1 == id')
        (List.map (fun kv => if kv.1 == id then (id, e) else kv) m) =
      List.find? (fun kv => kv.1 == id') m := by
  induction m with
  | nil => rfl
  | cons kv m ih =>
    have h1 : (id == id') = false := by simpa using fun h : id = id' => hne h.symm
    by_cases hk : kv.1 = id
    · have h2 : (kv.1 == id') = false := by simpa using fun h => hne (h.symm.trans hk)
      have h3 : (kv.1 == id) = true := by simpa using hk
      simp only [List.map_cons, h3, if_true, List.find?_cons, h1, h2]
      exact ih
    · have h0 : (kv.1 == id) = false := by simpa using hk
      simp only [List.map_cons, h0, Bool.false_eq_true, if_false, List.find?_cons]
      cases kv.1 == id'
      · exact ih
      · rfl

theorem Memory.get_set_ne (m : Memory) (id id' : ℕ) (e : MemoryEntry) (hne : id' ≠ id) :
    (m.set id e).get id' = m.get id' := by
  unfold Memory.set Memory.get
  split
  · rw [Memory.find_map_ne m id id' e hne]
  · rw [List.find?_append]
    have h1 : (id == id') = false := by simpa using fun h : id = id' => hne h.symm
    cases hfind : List.find? (fun kv => kv.1 == id') m with
    | some x => simp
    | none => simp [List.find?_cons, h1]

theorem Memory.find_filter_of_dropped (l : Memory) (id : ℕ) (e : MemoryEntry)
    (keep : ℕ × MemoryEntry → Bool) (hdrop : keep (id, e) = false)
    (hall : ∀ kv ∈ l, kv.1 = id → kv = (id, e)) :
    Memory.get (l.filter keep) id = none := by
  unfold Memory.get
  rw [Option.map_eq_none', List.find?_eq_none]
  intro kv hkv hk
  rw [List.mem_filter] at hkv
  have hid : kv.1 = id := by simpa using hk
  rw [hall kv hkv.1 hid, hdrop] at hkv
  exact absurd hkv.2 (by simp)

/-- What `rememberInteraction` leaves for the id it wrote, with bounded memory:
the entry `(p, now)` when the cleaning reads the clock no more than
`memoryDuration * 1000` after the stamp, and nothing otherwise. -/
theorem BaseBehavior.rememberInteraction_own_entry (b : BaseBehavior) (id : ℕ) (p : Bool)
    (now later : ℚ) (hu : b.unlimitedMemory = false) :
    (later - now ≤ b.memoryDuration * 1000 →
      (b.rememberInteraction id p now later).getLastInteraction id =
        some { wasPositive := p, timestamp := now }) ∧
    (later - now > b.memoryDuration * 1000 →
      (b.rememberInteraction id p now later).getLastInteraction id = none) := by
  have hs := Memory.set_unique b.memory id { wasPositive := p, timestamp := now }
  constructor
  · intro h
    have hkeep : (fun (kv : ℕ × MemoryEntry) =>
        !(decide (later - kv.2.timestamp > b.memoryDuration * 1000)))
        (id, { wasPositive := p, timestamp := now }) = true := by
      have : ¬ (later - now > b.memoryDuration * 1000) := not_lt.mpr h
      simpa using this
    have := Memory.find_filter_of_unique _ id _
      (fun kv => !(decide (later - kv.2.timestamp > b.memoryDuration * 1000))) hkeep hs.1 hs.2
    simpa [BaseBehavior.rememberInteraction, BaseBehavior.cleanMemory,
      BaseBehavior.getLastInteraction, hu] using this
  · intro h
    have hdrop : (fun (kv : ℕ × MemoryEntry) =>
        !(decide (later - kv.2.timestamp > b.memoryDuration * 1000)))
        (id, { wasPositive := p, timestamp := now }) = false := by
      simpa using h
    have := Memory.find_filter_of_dropped _ id _
      (fun kv => !(decide (later - kv.2.timestamp > b.memoryDuration * 1000))) hdrop hs.1
    simpa [BaseBehavior.rememberInteraction, BaseBehavior.cleanMemory,
      BaseBehavior.getLastInteraction, hu] using this

/-- C16 fails when the clock advances between the two readings of one call:
with `memoryDuration = 0` and bounded memory, `rememberInteraction(7, true)`
that stamps the entry at clock time 0 and whose `cleanMemory` reads the clock at
1 leaves no entry for target 7, since `1 - 0 > 0 * 1000`. -/
theorem BaseBehavior.rememberInteraction_evicts_own_entry :
    (({ type := .cooperative, memoryDuration := 0 } : BaseBehavior).rememberInteraction 7 true
      0 1).getLastInteraction 7 = none := by
  with_unfolding_all decide

/-- C16, amended: `rememberInteraction(id, p)` stamps the entry with the clock
reading `now` and cleans with the reading `later`.  With
`unlimitedMemory = false` the memory afterwards holds the entry `(p, now)` for
`id` when `later - now ≤ d * 1000` (so whenever `d ≥ 0` and the clock did not
advance in between) and no entry for `id` otherwise, and every remaining entry
satisfies `later - timestamp ≤ d * 1000`; with `unlimitedMemory = true` the
memory after the call is the one before with the entry for `id` set, so no
entry is removed: `id` holds `(p, now)` and every other id holds what it held
before. -/
theorem BaseBehavior.rememberInteraction_evicts_on_write (b : BaseBehavior) (id : ℕ) (p : Bool)
    (now later : ℚ) :
    (b.unlimitedMemory = false →
      (later - now ≤ b.memoryDuration * 1000 →
        (b.rememberInteraction id p now later).getLastInteraction id =
          some { wasPositive := p, timestamp := now }) ∧
      (later - now > b.memoryDuration * 1000 →
        (b.rememberInteraction id p now later).getLastInteraction id = none) ∧
      ∀ kv ∈ (b.rememberInteraction id p now later).memory,
        later - kv.2.timestamp ≤ b.memoryDuration * 1000) ∧
    (b.unlimitedMemory = true →
      (b.rememberInteraction id p now later).memory =
          b.memory.set id { wasPositive := p, timestamp := now } ∧
        (b.rememberInteraction id p now later).getLastInteraction id =
          some { wasPositive := p, timestamp := now } ∧
        ∀ id', id' ≠ id →
          (b.rememberInteraction id p now later).getLastInteraction id' =
            b.getLastInteraction id') := by
  constructor
  · intro hu
    refine ⟨(b.rememberInteraction_own_entry id p now later hu).1,
      (b.rememberInteraction_own_entry id p now later hu).2, fun kv hkv => ?_⟩
    have := b.rememberInteraction_fresh id p now later hu kv hkv
    linarith
  · intro hu
    have hmem : (b.rememberInteraction id p now later).memory =
        b.memory.set id { wasPositive := p, timestamp := now } := by
      simp [BaseBehavior.rememberInteraction, hu]
    refine ⟨hmem, ?_, fun id' hne => ?_⟩
    · have hs := Memory.set_unique b.memory id { wasPositive := p, timestamp := now }
      have := Memory.find_filter_of_unique _ id _ (fun _ => true) rfl hs.1 hs.2
      simpa [BaseBehavior.getLastInteraction, hmem] using this
    · simp only [BaseBehavior.getLastInteraction, hmem]
      exact Memory.get_set_ne _ _ _ _ hne

/-- C16, amended, at a concrete call: the default duration of 50 s, an entry
for target 7 from time 0 and a write for target 8 stamped at 60000 and cleaned
at 60001: the new entry is held and the old one is gone. -/
theorem BaseBehavior.rememberInteraction_evicts_on_write_witness :
    (BaseBehavior.sampleRemembered.rememberInteraction 8 false 60000 60001).getLastInteraction 8 =
        some { wasPositive := false, timestamp := 60000 } ∧
      (BaseBehavior.sampleRemembered.rememberInteraction 8 false 60000
        60001).getLastInteraction 7 = none :=
  ⟨((BaseBehavior.rememberInteraction_evicts_on_write BaseBehavior.sampleRemembered 8 false 60000
      60001).1 rfl).1 (by with_unfolding_all decide),
    by with_unfolding_all decide⟩

/-! ## A food item is consumed at most once (C17) -/

theorem World.FoodsKept.same {β : Type} (w : World β) : w.FoodsKept w :=
  fun _ f h => ⟨f, h, rfl, id⟩

theorem World.FoodsKept.comp {β : Type} {w1 w2 w3 : World β} (h12 : w1.FoodsKept w2)
    (h23 : w2.FoodsKept w3) : w1.FoodsKept w3 := by
  intro k f h
  obtain ⟨f2, h2, he2, hc2⟩ := h12 k f h
  obtain ⟨f3, h3, he3, hc3⟩ := h23 k f2 h2
  exact ⟨f3, h3, he3.trans he2, fun hc => hc3 (hc2 hc)⟩

theorem World.FoodsKept.of_foods_eq {β : Type} {w w' : World β} (h : w'.foods = w.foods) :
    w.FoodsKept w' := by
  intro k f hk
  exact ⟨f, by rw [h]; exact hk, rfl, id⟩

theorem World.modifyEntity_foods {β : Type} (w : World β) (i : ℕ)
    (f : Organism β → Organism β) : (w.modifyEntity i f).foods = w.foods := by
  unfold World.modifyEntity
  split <;> rfl

theorem World.FoodsKept.modifyEntity_after {β : Type} {w w' : World β} (h : w.FoodsKept w')
    (i : ℕ) (f : Organism β → Organism β) : w.FoodsKept (w'.modifyEntity i f) :=
  World.FoodsKept.comp h (World.FoodsKept.of_foods_eq (World.modifyEntity_foods w' i f))

theorem Food.consume_energyValue (f : Food) :
    f.consume.2.energyValue = f.energyValue ∧ f.consume.2.isConsumed = true := by
  unfold Food.consume
  split
  · rename_i h
    exact ⟨rfl, h⟩
  · exact ⟨rfl, rfl⟩

theorem Organism.eatFood_foodsKept {β : Type} (w : World β) (i k : ℕ) :
    w.FoodsKept (Organism.eatFood w i k) := by
  unfold Organism.eatFood
  cases h : w.foods[k]? with
  | none => exact World.FoodsKept.same w
  | some food =>
    dsimp only
    refine World.FoodsKept.modifyEntity_after ?_ _ _
    refine World.FoodsKept.modifyEntity_after ?_ _ _
    refine World.FoodsKept.modifyEntity_after ?_ _ _
    intro j f hj
    by_cases hkj : k = j
    · subst hkj
      rw [h] at hj
      have hEq : food = f := Option.some.inj hj
      subst hEq
      exact ⟨food.consume.2, List.getElem?_set_self_of_some _ k food _ h,
        food.consume_energyValue.1, fun _ => food.consume_energyValue.2⟩
    · exact ⟨f, by simp only [List.getElem?_set_ne hkj]; exact hj, rfl, id⟩

theorem Organism.interactWithTarget_foods {β : Type} (ops : BehaviorOps β) (now : ℚ)
    (w : World β) (i j : ℕ) (rand : RandomSource) :
    (Organism.interactWithTarget ops now w i j rand).1.foods = w.foods := by
  unfold Organism.interactWithTarget
  split
  · split
    · rfl
    · dsimp only
      simp only [World.modifyEntity_foods]
  · rfl

theorem Organism.reproduce_foods {β : Type} (M : JsMath) (ops : BehaviorOps β) (w : World β)
    (i : ℕ) (rand : RandomSource) : (Organism.reproduce M ops w i rand).1.foods = w.foods := by
  unfold Organism.reproduce
  split
  · rfl
  · split
    · rfl
    · dsimp only
      split
      · rfl
      · dsimp only
        rw [World.modifyEntity_foods]
        rfl

theorem Organism.decideInteraction_foodsKept {β : Type} (ops : BehaviorOps β) (now : ℚ)
    (w : World β) (i : ℕ) (rand : RandomSource) :
    w.FoodsKept (Organism.decideInteraction ops now w i rand).1 := by
  unfold Organism.decideInteraction
  split
  · exact World.FoodsKept.same w
  · dsimp only
    split
    · split
      · split
        · exact World.FoodsKept.same w
        · split
          · exact World.FoodsKept.same w
          · split
            · exact World.FoodsKept.same w
            · split
              · refine World.FoodsKept.modifyEntity_after ?_ _ _
                refine World.FoodsKept.comp ?_ (Organism.eatFood_foodsKept _ i _)
                exact World.FoodsKept.modifyEntity_after (World.FoodsKept.same w) _ _
              · exact World.FoodsKept.modifyEntity_after (World.FoodsKept.same w) _ _
      · split
        · split
          · exact World.FoodsKept.modifyEntity_after (World.FoodsKept.same w) _ _
          · split
            · exact World.FoodsKept.modifyEntity_after (World.FoodsKept.same w) _ _
            · split
              · dsimp only
                refine World.FoodsKept.modifyEntity_after ?_ _ _
                refine World.FoodsKept.comp ?_ (World.FoodsKept.of_foods_eq
                  (Organism.interactWithTarget_foods ops now _ i _ _))
                exact World.FoodsKept.modifyEntity_after (World.FoodsKept.same w) _ _
              · exact World.FoodsKept.modifyEntity_after (World.FoodsKept.same w) _ _
        · exact World.FoodsKept.same w
    · exact World.FoodsKept.same w

theorem Organism.tryReproduce_foods {β : Type} (M : JsMath) (ops : BehaviorOps β)
    (deltaTime : ℚ) (w : World β) (i : ℕ) (rand : RandomSource) :
    (Organism.tryReproduce M ops deltaTime w i rand).1.foods = w.foods := by
  unfold Organism.tryReproduce
  split
  · rfl
  · dsimp only
    split
    · split
      · exact Organism.reproduce_foods M ops w i _
      · rfl
    · rfl

theorem Organism.move_foods {β : Type} (M : JsMath) (deltaTime : ℚ) (w : World β) (i : ℕ)
    (rand : RandomSource) : (Organism.move M deltaTime w i rand).1.foods = w.foods := by
  unfold Organism.move
  split <;> rfl

theorem Organism.update_foodsKept {β : Type} (M : JsMath) (ops : BehaviorOps β)
    (deltaTime now : ℚ) (w : World β) (i : ℕ) (rand : RandomSource) :
    w.FoodsKept (Organism.update M ops deltaTime now w i rand).1 := by
  unfold Organism.update
  split
  · exact World.FoodsKept.same w
  · split
    · exact World.FoodsKept.same w
    · dsimp only
      split
      · exact World.FoodsKept.of_foods_eq rfl
      · refine World.FoodsKept.comp ?_ (World.FoodsKept.of_foods_eq
          (Organism.move_foods M deltaTime _ i _))
        unfold Organism.decideAction
        dsimp only
        refine World.FoodsKept.comp ?_ (World.FoodsKept.of_foods_eq
          (Organism.tryReproduce_foods M ops deltaTime _ i _))
        refine World.FoodsKept.comp ?_ (Organism.decideInteraction_foodsKept ops now _ i _)
        exact World.FoodsKept.of_foods_eq rfl

theorem Food.consumeTimes_of_consumed (n : ℕ) (f : Food) (h : f.isConsumed = true) :
    f.consumeTimes n = (0, f) := by
  induction n with
  | zero => rfl
  | succ n ih =>
    have hc : f.consume = (0, f) := by simp [Food.consume, h]
    simp [Food.consumeTimes, hc, ih]

theorem Food.consumeTimes_of_fresh (n : ℕ) (f : Food) (h : f.isConsumed = false) :
    (f.consumeTimes (n + 1)).1 = f.energyValue ∧
      (f.consumeTimes (n + 1)).2 = { f with isConsumed := true } := by
  have hc : f.consume = (f.energyValue, { f with isConsumed := true }) := by
    simp [Food.consume, h]
  have hr := Food.consumeTimes_of_consumed n { f with isConsumed := true } rfl
  simp [Food.consumeTimes, hc, hr]

/-- C17: the first `consume()` of a food item returns `energyValue` and sets
`isConsumed`; a `consume()` on a consumed item returns 0 and changes nothing;
`consume`, `eatFood` and `Organism.update` never turn `isConsumed` back to
false (and never change an energy value); hence `n` successive `consume()`
calls on one item yield `energyValue` in total when the item was fresh and
`n ≥ 1`, and 0 otherwise, which is at most `energyValue` when that is
non-negative. -/
theorem Food.consumed_at_most_once {β : Type} (M : JsMath) (ops : BehaviorOps β)
    (deltaTime now : ℚ) (w : World β) (i k : ℕ) (rand : RandomSource) (f : Food) (n : ℕ) :
    (f.isConsumed = false → f.consume = (f.energyValue, { f with isConsumed := true })) ∧
    (f.isConsumed = true → f.consume = (0, f)) ∧
    f.consume.2.isConsumed = true ∧
    w.FoodsKept (Organism.eatFood w i k) ∧
    w.FoodsKept (Organism.update M ops deltaTime now w i rand).1 ∧
    (f.consumeTimes n).1 = (if f.isConsumed = true ∨ n = 0 then 0 else f.energyValue) ∧
    (0 ≤ f.energyValue → (f.consumeTimes n).1 ≤ f.energyValue) := by
  have htotal : (f.consumeTimes n).1 =
      (if f.isConsumed = true ∨ n = 0 then 0 else f.energyValue) := by
    cases hc : f.isConsumed with
    | true => simp [Food.consumeTimes_of_consumed n f hc]
    | false =>
      cases n with
      | zero => simp [Food.consumeTimes]
      | succ n => simp [(Food.consumeTimes_of_fresh n f hc).1]
  refine ⟨fun h => by simp [Food.consume, h], fun h => by simp [Food.consume, h],
    f.consume_energyValue.2, Organism.eatFood_foodsKept w i k,
    Organism.update_foodsKept M ops deltaTime now w i rand, htotal, fun hnn => ?_⟩
  rw [htotal]
  split_ifs
  · exact hnn
  · exact le_refl _

/-- C17 on the food of `World.sample` (energy value 30): three successive
`consume()` calls yield 30 in total. -/
theorem Food.consumed_at_most_once_witness :
    (0 : ℚ) ≤ Food.sample.energyValue ∧ (Food.sample.consumeTimes 3).1 ≤ 30 :=
  ⟨by norm_num [Food.sample],
    (Food.consumed_at_most_once JsMath.crude BehaviorOps.idle 1 0 World.sample 1 0
      RandomSource.half Food.sample 3).2.2.2.2.2.2 (by norm_num [Food.sample])⟩

/-! ## Bounded rejection sampling of the placement searches (C11, C12) -/

theorem World.positionCandidates_length {β : Type} (w : World β) (n : ℕ) (rand : RandomSource) :
    (w.positionCandidates n rand).1.length = n := by
  induction n generalizing rand with
  | zero => rfl
  | succ n ih => simp [World.positionCandidates, ih]

theorem SimulationManager.findSafePositionLoop_eq_find {β : Type} (sim : SimulationManager β)
    (safeDistance : ℚ) (n : ℕ) (rand : RandomSource) :
    (sim.findSafePositionLoop safeDistance n rand).1 =
        (sim.world.positionCandidates n rand).1.find? (fun p => sim.world.isClear safeDistance p) ∧
      ((sim.findSafePositionLoop safeDistance n rand).1 = none →
        (sim.findSafePositionLoop safeDistance n rand).2 =
          (sim.world.positionCandidates n rand).2) := by
  induction n generalizing rand with
  | zero => exact ⟨rfl, fun _ => rfl⟩
  | succ n ih =>
    unfold SimulationManager.findSafePositionLoop World.positionCandidates
    dsimp only
    by_cases hsafe : sim.world.isClear safeDistance (sim.world.getRandomPosition rand).1 = true
    · simp [hsafe]
    · simp only [hsafe, Bool.false_eq_true, if_false, List.find?_cons_of_neg, not_false_eq_true]
      exact ih _

/-- C12: `findSafePosition` draws at most 20 candidate positions, returns the
first candidate that passes the three exclusion tests (clearance 2.0), and
returns none if and only if all 20 candidates fail. -/
theorem SimulationManager.findSafePosition_first_clear_candidate {β : Type}
    (sim : SimulationManager β) (rand : RandomSource) :
    (sim.world.positionCandidates 20 rand).1.length = 20 ∧
    (sim.findSafePosition rand).1 =
      (sim.world.positionCandidates 20 rand).1.find? (fun p => sim.world.isClear 2 p) ∧
    ((sim.findSafePosition rand).1 = none ↔
      ∀ c ∈ (sim.world.positionCandidates 20 rand).1, sim.world.isClear 2 c = false) := by
  have heq : (sim.findSafePosition rand).1 =
      (sim.world.positionCandidates 20 rand).1.find? (fun p => sim.world.isClear 2 p) :=
    (sim.findSafePositionLoop_eq_find 2 20 rand).1
  refine ⟨World.positionCandidates_length _ _ _, heq, ?_⟩
  rw [heq, List.find?_eq_none]
  simp

theorem SimulationManager.findSafeFoodPosition_eq {β : Type} (sim : SimulationManager β)
    (rand : RandomSource) :
    (sim.findSafeFoodPosition rand).1 =
      some (((sim.world.positionCandidates 15 rand).1.find?
          (fun p => sim.world.isClear (12 / 10) p)).getD
        (sim.world.getRandomPosition (sim.world.positionCandidates 15 rand).2).1) := by
  have hs := sim.findSafePositionLoop_eq_find (12 / 10) 15 rand
  unfold SimulationManager.findSafeFoodPosition
  dsimp only
  rw [← hs.1]
  cases hres : sim.findSafePositionLoop (12 / 10) 15 rand with
  | mk res rand' =>
    cases res with
    | some pos => rfl
    | none =>
      have h2 := hs.2 (by rw [hres])
      rw [hres] at h2
      dsimp only at h2
      subst h2
      rfl

theorem EntityFactory.createFood_position (type : String) (p : Vec3) (energyValue : ℚ)
    (rand : RandomSource) :
    (EntityFactory.createFood type (some p) energyValue rand).1.position = p ∧
      (EntityFactory.createFood type (some p) energyValue rand).1.isConsumed = false := by
  unfold EntityFactory.createFood
  split <;> exact ⟨rfl, rfl⟩

/-- C11, as the code has it: `spawnFood` never returns null; it always appends
exactly one food item to the world's food items and returns it, placed at the
position `findSafeFoodPosition` returned; and whenever every one of the 15
candidate positions sampled by the search is unsafe, that position is one
further random position, taken without any test. -/
theorem SimulationManager.spawnFood_places_food {β : Type} (sim : SimulationManager β)
    (rand : RandomSource) :
    ∃ food, (sim.spawnFood rand).1 = some food ∧
      (sim.spawnFood rand).2.1.world.foods = sim.world.foods ++ [food] ∧
      (sim.findSafeFoodPosition rand).1 = some food.position ∧
      ((∀ c ∈ (sim.world.positionCandidates 15 rand).1, sim.world.isClear (12 / 10) c = false) →
        food.position =
          (sim.world.getRandomPosition (sim.world.positionCandidates 15 rand).2).1) := by
  have hpos := sim.findSafeFoodPosition_eq rand
  cases hres : sim.findSafeFoodPosition rand with
  | mk res rand' =>
    rw [hres] at hpos
    dsimp only at hpos
    obtain ⟨p, hp⟩ : ∃ p, res = some p := ⟨_, hpos⟩
    subst hp
    have hpeq := Option.some.inj hpos
    have hfp := (EntityFactory.createFood_position "random" p sim.foodEnergyValue rand').1
    have h1 : (sim.spawnFood rand).1 =
        some (EntityFactory.createFood "random" (some p) sim.foodEnergyValue rand').1 := by
      unfold SimulationManager.spawnFood
      rw [hres]
    have h2 : (sim.spawnFood rand).2.1.world.foods = sim.world.foods ++
        [(EntityFactory.createFood "random" (some p) sim.foodEnergyValue rand').1] := by
      unfold SimulationManager.spawnFood
      rw [hres]
      rfl
    refine ⟨_, h1, h2, by rw [hfp], fun hfail => ?_⟩
    rw [hfp, hpeq]
    have hnone : (sim.world.positionCandidates 15 rand).1.find?
        (fun p => sim.world.isClear (12 / 10) p) = none := by
      rw [List.find?_eq_none]
      intro c hc
      simp [hfail c hc]
    rw [hnone]
    rfl

/-- C11 amended, on the crowded world: all 15 candidates are the occupied
origin, and the food is placed at the further draw. -/
theorem SimulationManager.spawnFood_places_food_witness :
    (∀ c ∈ (SimulationManager.crowded.world.positionCandidates 15 RandomSource.half).1,
        SimulationManager.crowded.world.isClear (12 / 10) c = false) ∧
      ∃ food, (SimulationManager.crowded.spawnFood RandomSource.half).1 = some food ∧
        food.position = (SimulationManager.crowded.world.getRandomPosition
          (SimulationManager.crowded.world.positionCandidates 15 RandomSource.half).2).1 := by
  have hfail : ∀ c ∈ (SimulationManager.crowded.world.positionCandidates 15 RandomSource.half).1,
      SimulationManager.crowded.world.isClear (12 / 10) c = false := by
    with_unfolding_all decide
  obtain ⟨food, h1, _, _, h4⟩ :=
    SimulationManager.spawnFood_places_food SimulationManager.crowded RandomSource.half
  exact ⟨hfail, food, h1, h4 hfail⟩

/-- C11 as stated fails: on the crowded world every one of the 15 sampled
candidates is the origin, where a living organism stands, yet `spawnFood`
returns a food item and the world holds one food item more, placed at the
origin at squared distance 0 from that organism. -/
theorem SimulationManager.spawnFood_on_exhaustion_still_spawns :
    (∀ c ∈ (SimulationManager.crowded.world.positionCandidates 15 RandomSource.half).1,
        SimulationManager.crowded.world.isClear (12 / 10) c = false) ∧
      (SimulationManager.crowded.spawnFood RandomSource.half).1.isSome = true ∧
      (SimulationManager.crowded.spawnFood RandomSource.half).2.1.world.foods.length =
        SimulationManager.crowded.world.foods.length + 1 ∧
      ((SimulationManager.crowded.spawnFood RandomSource.half).2.1.world.foods.map
        (fun f => f.position)) = [⟨0, 0, 0⟩] ∧
      (SimulationManager.crowded.world.entities.map (fun e => (e.isAlive, e.position)))
        = [(true, ⟨0, 0, 0⟩)] := by
  with_unfolding_all decide

/-! ## Reproduction is all-or-nothing (C13) -/

theorem Organism.reproduce_of_low_energy {β : Type} (M : JsMath) (ops : BehaviorOps β)
    (w : World β) (i : ℕ) (rand : RandomSource) (o : Organism β)
    (ho : w.entities[i]? = some o) (hlow : o.energy < 50) :
    Organism.reproduce M ops w i rand = (w, rand, none) := by
  unfold Organism.reproduce
  rw [ho]
  dsimp only
  rw [if_pos hlow]

theorem Organism.reproduce_eq {β : Type} (M : JsMath) (ops : BehaviorOps β)
    (w : World β) (i : ℕ) (rand : RandomSource) (o : Organism β)
    (ho : w.entities[i]? = some o) (henough : ¬ o.energy < 50) :
    Organism.reproduce M ops w i rand =
      match o.findSafeSpawnPosition M w i (Organism.reproduceSpawnRand w rand) with
      | (none, rand') => (w, rand', none)
      | (some safePosition, rand') =>
        (((EntityFactory.createOrganism M ops w (Organism.reproduceType ops o w rand)
              (some safePosition) (some (o.reproduceChildStats w rand)) rand').2.1.addEntity
            (EntityFactory.createOrganism M ops w (Organism.reproduceType ops o w rand)
              (some safePosition) (some (o.reproduceChildStats w rand)) rand').1).modifyEntity i
            (fun o => { o with energy := o.energy - 20 }),
          (EntityFactory.createOrganism M ops w (Organism.reproduceType ops o w rand)
            (some safePosition) (some (o.reproduceChildStats w rand)) rand').2.2,
          some (EntityFactory.createOrganism M ops w (Organism.reproduceType ops o w rand)
            (some safePosition) (some (o.reproduceChildStats w rand)) rand').1) := by
  unfold Organism.reproduce
  rw [ho]
  dsimp only
  rw [if_neg henough]
  unfold Organism.reproduceSpawnRand Organism.reproduceType Organism.reproduceChildStats
    Organism.reproduceRoll
  by_cases hroll : rand.next.2.next.2.next.2.next.2.next.1 < jsOr w.mutationRate (1 / 10)
  · simp only [hroll, if_true]
  · simp only [hroll, if_false]

theorem EntityFactory.createOrganism_child {β : Type} (M : JsMath) (ops : BehaviorOps β)
    (w : World β) (type : Option BehaviorType) (p : Vec3) (stats : Stats)
    (rand : RandomSource) (henergy : stats.energy = 70) :
    (EntityFactory.createOrganism M ops w type (some p) (some stats) rand).1.age = 0 ∧
    (EntityFactory.createOrganism M ops w type (some p) (some stats) rand).1.energy = 70 ∧
    (EntityFactory.createOrganism M ops w type (some p) (some stats) rand).1.position = p ∧
    (EntityFactory.createOrganism M ops w type (some p) (some stats) rand).1.isAlive = true := by
  refine ⟨rfl, ?_, rfl, rfl⟩
  show jsOr (some stats.energy) 100 = 70
  rw [henergy]
  norm_num [jsOr]

theorem World.addEntity_modifyEntity {β : Type} (w w' : World β) (i : ℕ) (o c : Organism β)
    (f : Organism β → Organism β) (ho : w.entities[i]? = some o)
    (hw : w'.entities = w.entities) :
    ((w'.addEntity c).modifyEntity i f).entities = w.entities.set i (f o) ++ [c] := by
  have hlt : i < w.entities.length := by
    rcases Nat.lt_or_ge i w.entities.length with h | h
    · exact h
    · rw [List.getElem?_eq_none h] at ho
      cases ho
  have hget : (w'.addEntity c).entities[i]? = some o := by
    simp only [World.addEntity, hw]
    rw [List.getElem?_append_left hlt]
    exact ho
  unfold World.modifyEntity
  rw [hget]
  simp only [World.addEntity, hw]
  exact List.set_append_left i (f o) hlt

/-- C13: `reproduce` is all-or-nothing.  If the parent's energy is below 50, or
`findSafeSpawnPosition` returns none, the world (so the parent's energy and the
organism collection) is unchanged and no offspring is returned; otherwise the
offspring is returned, has age 0, energy 70 and the found position, and the
world's organisms afterwards are those before, with the parent's energy lowered
by exactly 20, followed by the offspring. -/
theorem Organism.reproduce_all_or_nothing {β : Type} (M : JsMath) (ops : BehaviorOps β)
    (w : World β) (i : ℕ) (rand : RandomSource) (o : Organism β)
    (ho : w.entities[i]? = some o) :
    ((o.energy < 50 ∨
        (o.findSafeSpawnPosition M w i (Organism.reproduceSpawnRand w rand)).1 = none) →
      (Organism.reproduce M ops w i rand).1 = w ∧
        (Organism.reproduce M ops w i rand).2.2 = none) ∧
    (¬ o.energy < 50 →
      ∀ p, (o.findSafeSpawnPosition M w i (Organism.reproduceSpawnRand w rand)).1 = some p →
        ∃ child, (Organism.reproduce M ops w i rand).2.2 = some child ∧
          (Organism.reproduce M ops w i rand).1.entities =
            w.entities.set i ({ o with energy := o.energy - 20 } : Organism β) ++ [child] ∧
          child.age = 0 ∧ child.energy = 70 ∧ child.position = p ∧ child.isAlive = true) := by
  constructor
  · intro h
    by_cases hlow : o.energy < 50
    · rw [Organism.reproduce_of_low_energy M ops w i rand o ho hlow]
      exact ⟨rfl, rfl⟩
    · rcases h with h | h
      · exact absurd h hlow
      · rw [Organism.reproduce_eq M ops w i rand o ho hlow]
        cases hres : o.findSafeSpawnPosition M w i (Organism.reproduceSpawnRand w rand) with
        | mk res rand' =>
          rw [hres] at h
          dsimp only at h
          subst h
          exact ⟨rfl, rfl⟩
  · intro hlow p hp
    rw [Organism.reproduce_eq M ops w i rand o ho hlow]
    cases hres : o.findSafeSpawnPosition M w i (Organism.reproduceSpawnRand w rand) with
    | mk res rand' =>
      rw [hres] at hp
      dsimp only at hp
      subst hp
      dsimp only
      have hc := EntityFactory.createOrganism_child M ops w (Organism.reproduceType ops o w rand) p
        (o.reproduceChildStats w rand) rand' rfl
      refine ⟨_, rfl, ?_, hc⟩
      exact World.addEntity_modifyEntity w _ i o _ _ ho rfl

/-- C13 on `World.sample`: the parent at index 1 (energy 100) finds the spawn
point `(2, 0, -3)`, so an offspring of age 0 and energy 70 is returned there. -/
theorem Organism.reproduce_all_or_nothing_witness :
    ∃ child, (Organism.reproduce JsMath.crude BehaviorOps.idle World.sample 1
        RandomSource.half).2.2 = some child ∧ child.age = 0 ∧ child.energy = 70 ∧
        child.position = ⟨2, 0, -3⟩ := by
  obtain ⟨child, h1, _, h3, h4, h5, _⟩ :=
    (Organism.reproduce_all_or_nothing JsMath.crude BehaviorOps.idle World.sample 1
      RandomSource.half Organism.sampleParent rfl).2 (by with_unfolding_all decide) ⟨2, 0, -3⟩
      (by with_unfolding_all decide)
  exact ⟨child, h1, h3, h4, h5⟩

/-! ## Mutation and the global mutation rate (C15) -/

/-- What `reproduce` does with the global mutation rate: for a rate `r ≠ 0` the
traits are perturbed with factor `0.2 * r` and the type is the parent's unless
the roll is below `r`; for the rate 0 the `|| 0.1` default takes over, the
factor is 0.02 and the type is redrawn whenever the roll is below 0.1. -/
theorem Organism.reproduce_mutation_rate {β : Type} (ops : BehaviorOps β) (o : Organism β)
    (w : World β) (rand : RandomSource) (r : ℚ) (hr : w.mutationRate = some r) :
    (r ≠ 0 →
      o.reproduceChildStats w rand = o.childStats (2 / 10 * r) rand.next.1 rand.next.2.next.1
          rand.next.2.next.2.next.1 rand.next.2.next.2.next.2.next.1 ∧
        (¬ Organism.reproduceRoll rand < r →
          Organism.reproduceType ops o w rand = some (ops.type o.behavior))) ∧
    (r = 0 →
      o.reproduceChildStats w rand = o.childStats (2 / 100) rand.next.1 rand.next.2.next.1
          rand.next.2.next.2.next.1 rand.next.2.next.2.next.2.next.1 ∧
        (Organism.reproduceRoll rand < 1 / 10 →
          Organism.reproduceType ops o w rand =
            behaviorTypes[floorIndex rand.next.2.next.2.next.2.next.2.next.2.next.1
              behaviorTypes.length]?)) := by
  constructor
  · intro hne
    have hj : jsOr w.mutationRate (1 / 10) = r := by simp [jsOr, hr, hne]
    refine ⟨by simp only [Organism.reproduceChildStats, hj], fun hroll => ?_⟩
    simp only [Organism.reproduceType, hj, hroll, if_false]
  · intro h0
    have hj : jsOr w.mutationRate (1 / 10) = 1 / 10 := by simp [jsOr, hr, h0]
    refine ⟨?_, fun hroll => ?_⟩
    · simp only [Organism.reproduceChildStats, hj]
      norm_num
    · simp only [Organism.reproduceType, hj, hroll, if_true]

/-- C15 at the failing input: with the global mutation rate 0, a cooperative
parent of speed 1 and size 1, and every draw 0, `reproduce` returns an
offspring of type aggressive with speed 0.98 and size 0.98. -/
theorem Organism.reproduce_at_mutation_rate_zero :
    World.noMutation.mutationRate = some 0 ∧
      World.noMutation.entities.map (fun o => (o.behavior, o.speed, o.size)) =
        [(BehaviorType.cooperative, 1, 1)] ∧
      (Organism.reproduce JsMath.crude BehaviorOps.tagged World.noMutation 0
          RandomSource.zero).2.2.map (fun c => (c.behavior, c.speed, c.size)) =
        some (BehaviorType.aggressive, 98 / 100, 98 / 100) := by
  with_unfolding_all decide

/-! ## The energy cap (C14) -/

theorem World.modifyEntity_getElem? {β : Type} (w : World β) (i : ℕ)
    (f : Organism β → Organism β) (k : ℕ) :
    (w.modifyEntity i f).entities[k]? =
      if k = i then (w.entities[k]?).map f else w.entities[k]? := by
  unfold World.modifyEntity
  cases h : w.entities[i]? with
  | none =>
    by_cases hk : k = i
    · subst hk
      simp [h]
    · simp [hk]
  | some o =>
    by_cases hk : k = i
    · subst hk
      simp [h, List.getElem?_set_self_of_some _ k o _ h]
    · simp [hk, List.getElem?_set_ne (Ne.symm hk)]

theorem World.EnergyCapped.modifyEntity {β : Type} {w : World β} (h : w.EnergyCapped) (i : ℕ)
    (f : Organism β → Organism β) (hf : ∀ o, o.energy ≤ 150 → (f o).energy ≤ 150) :
    (w.modifyEntity i f).EnergyCapped := by
  intro k o hk
  rw [World.modifyEntity_getElem?] at hk
  split_ifs at hk with hki
  · cases hw : w.entities[k]? with
    | none => simp [hw] at hk
    | some o' =>
      simp only [hw, Option.map_some', Option.some.injEq] at hk
      rw [← hk]
      exact hf o' (h k o' hw)
  · exact h k o hk

theorem World.EnergyCapped.addEntity {β : Type} {w : World β} (h : w.EnergyCapped)
    (c : Organism β) (hc : c.energy ≤ 150) : (w.addEntity c).EnergyCapped := by
  intro k o hk
  simp only [World.addEntity] at hk
  rcases Nat.lt_or_ge k w.entities.length with hlt | hge
  · rw [List.getElem?_append_left hlt] at hk
    exact h k o hk
  · rw [List.getElem?_append_right hge] at hk
    cases hsub : k - w.entities.length with
    | zero =>
      simp only [hsub, List.getElem?_cons_zero, Option.some.injEq] at hk
      rw [← hk]
      exact hc
    | succ n => simp [hsub] at hk

theorem World.EnergyCapped.of_set {β : Type} {w : World β} (h : w.EnergyCapped) (i : ℕ)
    (o : Organism β) (ho : o.energy ≤ 150) (w' : World β)
    (hw : w'.entities = w.entities.set i o) : w'.EnergyCapped := by
  intro k x hk
  rw [hw] at hk
  by_cases hik : i = k
  · subst hik
    rw [List.getElem?_set] at hk
    simp only [if_true] at hk
    split_ifs at hk
    · rw [← Option.some.inj hk]
      exact ho
  · rw [List.getElem?_set_ne hik] at hk
    exact h k x hk

theorem Organism.eatFood_energyCapped {β : Type} (w : World β) (i k : ℕ)
    (h : w.EnergyCapped) : (Organism.eatFood w i k).EnergyCapped := by
  unfold Organism.eatFood
  cases hf : w.foods[k]? with
  | none => exact h
  | some food =>
    dsimp only
    intro j o hj
    simp only [World.modifyEntity_getElem?] at hj
    by_cases hji : j = i
    · simp only [hji, if_true, Option.map_map] at hj
      cases hw : w.entities[i]? with
      | none => simp [hw] at hj
      | some o' =>
        simp only [hw, Option.map_some', Option.some.injEq] at hj
        rw [← hj]
        exact min_le_right _ _
    · simp only [hji, if_false] at hj
      exact h j o hj

theorem World.modifyEntity_getElem?_ne {β : Type} (w : World β) (i : ℕ)
    (f : Organism β → Organism β) (k : ℕ) (hk : k ≠ i) :
    (w.modifyEntity i f).entities[k]? = w.entities[k]? := by
  rw [World.modifyEntity_getElem?, if_neg hk]

theorem World.modifyEntity_min_capped {β : Type} (w : World β) (i : ℕ) (o : Organism β)
    (h : (w.modifyEntity i (fun o => { o with energy := min o.energy 150 })).entities[i]?
      = some o) : o.energy ≤ 150 := by
  rw [World.modifyEntity_getElem?, if_pos rfl] at h
  cases hw : w.entities[i]? with
  | none => simp [hw] at h
  | some o' =>
    simp only [hw, Option.map_some', Option.some.injEq] at h
    rw [← h]
    exact min_le_right _ _

theorem Organism.interactWithTarget_energyCapped {β : Type} (ops : BehaviorOps β) (now : ℚ)
    (w : World β) (i j : ℕ) (rand : RandomSource) (h : w.EnergyCapped) :
    (Organism.interactWithTarget ops now w i j rand).1.EnergyCapped := by
  unfold Organism.interactWithTarget
  split
  · split
    · exact h
    · dsimp only
      intro k o hk
      by_cases hkj : k = j
      · subst hkj
        exact World.modifyEntity_min_capped _ k o hk
      · rw [World.modifyEntity_getElem?_ne _ _ _ _ hkj] at hk
        by_cases hki : k = i
        · subst hki
          exact World.modifyEntity_min_capped _ k o hk
        · rw [World.modifyEntity_getElem?_ne _ _ _ _ hki, World.modifyEntity_getElem?_ne _ _ _ _ hkj,
            World.modifyEntity_getElem?_ne _ _ _ _ hki, World.modifyEntity_getElem?_ne _ _ _ _ hki]
            at hk
          exact h k o hk
  · exact h

theorem Organism.reproduce_energyCapped {β : Type} (M : JsMath) (ops : BehaviorOps β)
    (w : World β) (i : ℕ) (rand : RandomSource) (h : w.EnergyCapped) :
    (Organism.reproduce M ops w i rand).1.EnergyCapped := by
  cases ho : w.entities[i]? with
  | none =>
    unfold Organism.reproduce
    rw [ho]
    exact h
  | some o =>
    by_cases hlow : o.energy < 50
    · rw [Organism.reproduce_of_low_energy M ops w i rand o ho hlow]
      exact h
    · rw [Organism.reproduce_eq M ops w i rand o ho hlow]
      cases hres : o.findSafeSpawnPosition M w i (Organism.reproduceSpawnRand w rand) with
      | mk res rand' =>
        cases res with
        | none => exact h
        | some p =>
          dsimp only
          have hc := EntityFactory.createOrganism_child M ops w (Organism.reproduceType ops o w rand)
            p (o.reproduceChildStats w rand) rand' rfl
          refine World.EnergyCapped.modifyEntity ?_ i _ (fun o ho => ?_)
          · refine World.EnergyCapped.addEntity ?_ _ (by rw [hc.2.1]; norm_num)
            exact h
          · show o.energy - 20 ≤ 150
            linarith

theorem Organism.decideInteraction_energyCapped {β : Type} (ops : BehaviorOps β) (now : ℚ)
    (w : World β) (i : ℕ) (rand : RandomSource) (h : w.EnergyCapped) :
    (Organism.decideInteraction ops now w i rand).1.EnergyCapped := by
  unfold Organism.decideInteraction
  split
  · exact h
  · dsimp only
    split
    · split
      · split
        · exact h
        · split
          · exact h
          · split
            · exact h
            · split
              · refine World.EnergyCapped.modifyEntity ?_ _ _ (fun _ ho => ho)
                refine Organism.eatFood_energyCapped _ i _ ?_
                exact World.EnergyCapped.modifyEntity h _ _ (fun _ ho => ho)
              · exact World.EnergyCapped.modifyEntity h _ _ (fun _ ho => ho)
      · split
        · split
          · exact World.EnergyCapped.modifyEntity h _ _ (fun _ ho => ho)
          · split
            · exact World.EnergyCapped.modifyEntity h _ _ (fun _ ho => ho)
            · split
              · dsimp only
                refine World.EnergyCapped.modifyEntity ?_ _ _ (fun _ ho => ho)
                refine Organism.interactWithTarget_energyCapped ops now _ i _ _ ?_
                exact World.EnergyCapped.modifyEntity h _ _ (fun _ ho => ho)
              · exact World.EnergyCapped.modifyEntity h _ _ (fun _ ho => ho)
        · exact h
    · exact h

theorem Organism.tryReproduce_energyCapped {β : Type} (M : JsMath) (ops : BehaviorOps β)
    (deltaTime : ℚ) (w : World β) (i : ℕ) (rand : RandomSource) (h : w.EnergyCapped) :
    (Organism.tryReproduce M ops deltaTime w i rand).1.EnergyCapped := by
  unfold Organism.tryReproduce
  split
  · exact h
  · dsimp only
    split
    · split
      · exact Organism.reproduce_energyCapped M ops w i _ h
      · exact h
    · exact h

theorem Organism.handleCollision_energy {β : Type} (M : JsMath) (o : Organism β)
    (c : Collision) (w : World β) (rand : RandomSource) :
    (o.handleCollision M c w rand).1.energy = o.energy := by
  unfold Organism.handleCollision
  dsimp only
  split <;> rfl

theorem Organism.steer_energy {β : Type} (M : JsMath) (deltaTime : ℚ) (w : World β)
    (o : Organism β) (rand : RandomSource) : (o.steer M deltaTime w rand).1.energy = o.energy := by
  unfold Organism.steer
  split
  · dsimp only
    split <;> split <;> rfl
  · split
    · rfl
    · dsimp only
      split <;> rfl

theorem Organism.displace_energy {β : Type} (M : JsMath) (deltaTime : ℚ) (w : World β)
    (i : ℕ) (o : Organism β) (rand : RandomSource) :
    (o.displace M deltaTime w i rand).1.energy = o.energy := by
  have h := fun c => Organism.handleCollision_energy M o c w rand
  unfold Organism.displace
  dsimp only
  split
  · rfl
  · split
    · split <;> exact h _
    · exact h _

theorem Organism.move_energyCapped {β : Type} (M : JsMath) (deltaTime : ℚ) (w : World β)
    (i : ℕ) (rand : RandomSource) (h : w.EnergyCapped) :
    (Organism.move M deltaTime w i rand).1.EnergyCapped := by
  unfold Organism.move
  cases ho : w.entities[i]? with
  | none => exact h
  | some o =>
    dsimp only
    have h1 := Organism.steer_energy M deltaTime w o rand
    have h2 := Organism.displace_energy M deltaTime w i (o.steer M deltaTime w rand).1
      (o.steer M deltaTime w rand).2
    refine World.EnergyCapped.of_set h i _ ?_ _ rfl
    show ((o.steer M deltaTime w rand).1.displace M deltaTime w i
      (o.steer M deltaTime w rand).2).1.energy ≤ 150
    rw [h2, h1]
    exact h i o ho

theorem Organism.decayedEnergy_le {β : Type} (o : Organism β) (deltaTime : ℚ)
    (h : 0 ≤ deltaTime * o.energyConsumptionRate) : o.decayedEnergy deltaTime ≤ o.energy := by
  unfold Organism.decayedEnergy
  dsimp only
  split_ifs
  · nlinarith
  · nlinarith

theorem Organism.update_energyCapped {β : Type} (M : JsMath) (ops : BehaviorOps β)
    (deltaTime now : ℚ) (w : World β) (i : ℕ) (rand : RandomSource) (h : w.EnergyCapped)
    (hdecay : ∀ o, w.entities[i]? = some o → 0 ≤ deltaTime * o.energyConsumptionRate) :
    (Organism.update M ops deltaTime now w i rand).1.EnergyCapped := by
  cases ho : w.entities[i]? with
  | none =>
    rw [Organism.update_of_absent M ops deltaTime now w i rand ho]
    exact h
  | some o =>
    have hle : o.decayedEnergy deltaTime ≤ 150 :=
      le_trans (o.decayedEnergy_le deltaTime (hdecay o ho)) (h i o ho)
    cases halive : o.isAlive with
    | false =>
      rw [Organism.update_of_dead M ops deltaTime now w i rand o ho halive]
      exact h
    | true =>
      by_cases hc : o.decayedEnergy deltaTime ≤ 0 ∨ o.age + deltaTime ≥ o.maxLifespan
      · rw [Organism.update_of_dying M ops deltaTime now w i rand o ho halive hc]
        exact World.EnergyCapped.of_set h i _ hle _ rfl
      · rw [Organism.update_of_surviving M ops deltaTime now w i rand o ho halive hc]
        refine Organism.move_energyCapped M deltaTime _ i _ ?_
        unfold Organism.decideAction
        dsimp only
        refine Organism.tryReproduce_energyCapped M ops deltaTime _ i _ ?_
        refine Organism.decideInteraction_energyCapped ops now _ i _ ?_
        exact World.EnergyCapped.of_set h i (o.decayed deltaTime) hle _ rfl

theorem World.sample_energyCapped : World.sample.EnergyCapped := by
  intro k o hk
  match k with
  | 0 =>
    have : o = { Organism.sample 100 with size := 2, position := ⟨3, 0, 0⟩ } :=
      (Option.some.inj hk).symm
    rw [this]
    norm_num [Organism.sample]
  | 1 =>
    have : o = { Organism.sample 100 with meshId := 2, position := ⟨0, 0, -3⟩ } :=
      (Option.some.inj hk).symm
    rw [this]
    norm_num [Organism.sample]
  | n + 2 => cases hk

/-- C14, as the code has it: energy stays at most 150.  If every organism of
the world has energy at most 150, this still holds after `update` (for a decay
`dt * rate ≥ 0`), `eatFood`, `interactWithTarget` and `reproduce`; an organism
built by the orchestrator has energy at most 150 when the base energy is at
most 125, and one built from the factory's default stats has energy in
`[50, 100]` (draws in `[0, 1)`).  No lower bound is part of the statement. -/
theorem World.energy_cap_preserved {β : Type} (M : JsMath) (ops : BehaviorOps β)
    (deltaTime now : ℚ) (w : World β) (i k : ℕ) (rand : RandomSource)
    (sim : SimulationManager β) (type : Option BehaviorType) (position : Option Vec3)
    (h : w.EnergyCapped)
    (hdecay : ∀ o, w.entities[i]? = some o → 0 ≤ deltaTime * o.energyConsumptionRate) :
    (Organism.update M ops deltaTime now w i rand).1.EnergyCapped ∧
    (Organism.eatFood w i k).EnergyCapped ∧
    (Organism.interactWithTarget ops now w i k rand).1.EnergyCapped ∧
    (Organism.reproduce M ops w i rand).1.EnergyCapped ∧
    (sim.baseEnergy ≤ 125 → 0 ≤ rand.next.1 → rand.next.1 < 1 →
      (sim.createOrganism M ops type position rand).1.energy ≤ 150) ∧
    (0 ≤ (BehaviorFactory.createBehavior ops type rand).2.next.1 →
      (BehaviorFactory.createBehavior ops type rand).2.next.1 < 1 →
      50 ≤ (EntityFactory.createOrganism M ops w type position none rand).1.energy ∧
        (EntityFactory.createOrganism M ops w type position none rand).1.energy ≤ 100) := by
  refine ⟨Organism.update_energyCapped M ops deltaTime now w i rand h hdecay,
    Organism.eatFood_energyCapped w i k h,
    Organism.interactWithTarget_energyCapped ops now w i k rand h,
    Organism.reproduce_energyCapped M ops w i rand h, fun hb h0 h1 => ?_, fun h0 h1 => ?_⟩
  · show jsOr (some (sim.baseEnergy * (8 / 10 + rand.next.1 * (4 / 10)))) 100 ≤ 150
    unfold jsOr
    dsimp only
    split_ifs
    · norm_num
    · nlinarith
  · show 50 ≤ jsOr (some (50 + (BehaviorFactory.createBehavior ops type rand).2.next.1 * 50)) 100 ∧
      jsOr (some (50 + (BehaviorFactory.createBehavior ops type rand).2.next.1 * 50)) 100 ≤ 100
    unfold jsOr
    dsimp only
    split_ifs
    · norm_num
    · constructor <;> nlinarith

/-- C14 amended, on `World.sample` (both energies 100): after a tick of 0.1 s
for the organism at index 1 every energy is still at most 150. -/
theorem World.energy_cap_preserved_witness :
    World.sample.EnergyCapped ∧
      (Organism.update JsMath.crude BehaviorOps.idle (1 / 10) 0 World.sample 1
        RandomSource.half).1.EnergyCapped :=
  ⟨World.sample_energyCapped,
    (World.energy_cap_preserved JsMath.crude BehaviorOps.idle (1 / 10) 0 World.sample 1 0
      RandomSource.half SimulationManager.sample none none World.sample_energyCapped
      (by
        intro o ho
        have : o = { Organism.sample 100 with meshId := 2, position := ⟨0, 0, -3⟩ } :=
          (Option.some.inj ho).symm
        rw [this]
        norm_num [Organism.sample])).1⟩

/-- C14 as stated fails: an organism with energy 0.01 and consumption rate 0.8
that is updated with a time step of 0.1 s ends the tick dead with energy
`0.01 - 0.1 * 0.8 * 0.4 = -0.022`, below 0. -/
theorem Organism.update_leaves_negative_energy :
    World.starving.entities.map (fun o => (o.isAlive, o.energy)) = [(true, 1 / 100)] ∧
      (Organism.update JsMath.crude BehaviorOps.idle (1 / 10) 0 World.starving 0
        RandomSource.half).1.entities.map (fun o => (o.isAlive, o.energy)) =
        [(false, -(22 / 1000))] := by
  set_option maxRecDepth 8000 in with_unfolding_all decide

/-! ## The reproduction ratio (C18) -/

theorem ratioChanges_eq (l : List Sample) :
    ratioChanges l = some (((l.zip l.tail).filter (fun pc => decide (pc.1.count > 0))).map
      (fun pc => (pc.2.count : ℚ) / pc.1.count)) := by
  induction l with
  | nil => rfl
  | cons a l ih =>
    cases l with
    | nil => rfl
    | cons b rest =>
      unfold ratioChanges
      by_cases hpos : a.count > 0
      · have hne : (a.count : ℚ) ≠ 0 := by
          exact_mod_cast Nat.pos_iff_ne_zero.mp hpos
        rw [if_pos hpos, ih]
        simp [checkedDiv, hne, List.filter_cons, hpos]
      · rw [if_neg hpos, ih]
        simp [List.filter_cons, hpos]

theorem foldl_add_eq_sum (l : List ℚ) (a : ℚ) :
    l.foldl (fun x y => x + y) a = a + l.sum := by
  induction l generalizing a with
  | nil => simp
  | cons b l ih => simp [ih, add_assoc]

/-- C18: `getReproductionRate` never divides by zero (it always yields a
value) and returns 1.0 when the population history has fewer than two samples,
otherwise the arithmetic mean of `count_i / count_(i-1)` over the consecutive
pairs among the last five samples whose previous count is positive, and 1.0
when there is no such pair. -/
theorem StatisticsTracker.getReproductionRate_eq_mean (s : StatisticsTracker) :
    s.getReproductionRate = some (meanRatio s.populationHistory) := by
  unfold StatisticsTracker.getReproductionRate meanRatio positivePairs
  by_cases hlen : s.populationHistory.length < 2
  · simp [hlen]
  · simp only [hlen, if_false]
    rw [ratioChanges_eq]
    simp only [List.length_map]
    split_ifs with h0
    · rfl
    · have hne : ((((s.populationHistory.drop (s.populationHistory.length - 5)).zip
          (s.populationHistory.drop (s.populationHistory.length - 5)).tail).filter
          (fun pc => decide (pc.1.count > 0))).length : ℚ) ≠ 0 := by
        exact_mod_cast h0
      simp only [checkedDiv, hne, if_false, foldl_add_eq_sum, zero_add]

/-! ## The statistics snapshot (C19) -/

theorem StatisticsTracker.foldl_countEntity {β : Type} (ops : BehaviorOps β)
    (entities : List (Organism β)) (s : StatisticsTracker) :
    (entities.foldl (StatisticsTracker.countEntity ops) s).totalPopulation =
        s.totalPopulation + livingCount entities ∧
      (∀ t, (entities.foldl (StatisticsTracker.countEntity ops) s).behaviorCounts t =
        s.behaviorCounts t + livingOfType ops entities t) ∧
      (entities.foldl (StatisticsTracker.countEntity ops) s).populationHistory =
        s.populationHistory ∧
      (entities.foldl (StatisticsTracker.countEntity ops) s).behaviorHistory =
        s.behaviorHistory ∧
      (entities.foldl (StatisticsTracker.countEntity ops) s).lastPopulation =
        s.lastPopulation := by
  induction entities generalizing s with
  | nil => simp [livingCount, livingOfType]
  | cons e es ih =>
    rw [List.foldl_cons]
    obtain ⟨h1, h2, h3, h4, h5⟩ := ih (StatisticsTracker.countEntity ops s e)
    rw [h1, h3, h4, h5]
    cases halive : e.isAlive with
    | false =>
      have hs : StatisticsTracker.countEntity ops s e = s := by
        simp [StatisticsTracker.countEntity, halive]
      refine ⟨?_, fun t => ?_, ?_, ?_, ?_⟩
      · simp [hs, livingCount, List.filter_cons, halive]
      · rw [h2 t, hs]
        simp [livingOfType, List.filter_cons, halive]
      · rw [hs]
      · rw [hs]
      · rw [hs]
    | true =>
      refine ⟨?_, fun t => ?_, by simp [StatisticsTracker.countEntity, halive],
        by simp [StatisticsTracker.countEntity, halive],
        by simp [StatisticsTracker.countEntity, halive]⟩
      · simp only [StatisticsTracker.countEntity, halive, if_true, livingCount,
          List.filter_cons, List.length_cons]
        omega
      · rw [h2 t]
        simp only [StatisticsTracker.countEntity, halive, if_true, livingOfType,
          List.filter_cons, Bool.true_and]
        by_cases ht : ops.type e.behavior = t
        · simp only [ht, if_true, decide_True, List.length_cons]
          omega
        · have ht' : ¬ t = ops.type e.behavior := fun h => ht h.symm
          simp only [ht, ht', if_false, decide_False, Bool.false_eq_true]

theorem livingOfType_sum {β : Type} (ops : BehaviorOps β) (entities : List (Organism β)) :
    (behaviorTypes.map (livingOfType ops entities)).sum = livingCount entities := by
  induction entities with
  | nil => simp [behaviorTypes, livingOfType, livingCount]
  | cons e es ih =>
    simp only [behaviorTypes, List.map_cons, List.map_nil, List.sum_cons, List.sum_nil,
      livingOfType, livingCount, List.filter_cons] at ih ⊢
    cases halive : e.isAlive with
    | false => simpa [halive] using ih
    | true =>
      cases htype : ops.type e.behavior <;> simp [halive, htype] <;> omega

theorem limitHistory_appendedBounded (old : List Sample) (x : Sample) :
    AppendedBounded old (limitHistory 100 (old ++ [x])) x := by
  unfold AppendedBounded limitHistory
  refine ⟨fun h => ?_, fun h => ?_, fun h => ?_⟩
  · have : ¬ (old ++ [x]).length > 100 := by
      simp only [List.length_append, List.length_singleton]
      omega
    rw [if_neg this]
  · have : (old ++ [x]).length > 100 := by
      simp only [List.length_append, List.length_singleton]
      omega
    rw [if_pos this]
    cases old with
    | nil => simp at h
    | cons a l => rfl
  · split_ifs with hgt
    · simp only [List.length_tail, List.length_append, List.length_singleton]
      omega
    · omega

theorem StatisticsTracker.update_fields {β : Type} (ops : BehaviorOps β) (s : StatisticsTracker)
    (now : ℚ) (entities : List (Organism β))
    (h : ¬ now - s.lastUpdateTime < s.updateInterval) :
    (s.update ops now entities).totalPopulation = livingCount entities ∧
    (∀ t, (s.update ops now entities).behaviorCounts t = livingOfType ops entities t) ∧
    (s.update ops now entities).populationHistory =
      limitHistory 100 (s.populationHistory ++ [Sample.mk now (livingCount entities)]) ∧
    (∀ t, (s.update ops now entities).behaviorHistory t =
      limitHistory 100 (s.behaviorHistory t ++ [Sample.mk now (livingOfType ops entities t)])) := by
  obtain ⟨h1, h2, h3, h4, _⟩ := StatisticsTracker.foldl_countEntity ops entities
    (s.resetCounts now)
  have h1' : (entities.foldl (StatisticsTracker.countEntity ops) (s.resetCounts now)).totalPopulation
      = livingCount entities := by
    rw [h1]
    exact zero_add _
  have h2' : ∀ t, (entities.foldl (StatisticsTracker.countEntity ops)
      (s.resetCounts now)).behaviorCounts t = livingOfType ops entities t := by
    intro t
    rw [h2 t]
    exact zero_add _
  have h3' : (entities.foldl (StatisticsTracker.countEntity ops)
      (s.resetCounts now)).populationHistory = s.populationHistory := h3
  have h4' : (entities.foldl (StatisticsTracker.countEntity ops)
      (s.resetCounts now)).behaviorHistory = s.behaviorHistory := h4
  unfold StatisticsTracker.update
  rw [if_neg h]
  generalize entities.foldl (StatisticsTracker.countEntity ops) (s.resetCounts now) = S
    at h1' h2' h3' h4'
  unfold StatisticsTracker.storeLastPopulation StatisticsTracker.trackChanges
    StatisticsTracker.limitHistories StatisticsTracker.recordHistory
  dsimp only
  refine ⟨?_, fun t => ?_, ?_, fun t => ?_⟩
  · split_ifs <;> exact h1'
  · split_ifs <;> exact h2' t
  · split_ifs <;> simp only [h1', h3']
  · split_ifs <;> simp only [h2', h4']

/-- C19: a throttled `update` (less than `updateInterval` since the previous
snapshot) changes nothing; otherwise `update` sets `totalPopulation` to the
number of living organisms and `behaviorCounts[t]` to the number of living
organisms of type `t` for each of the seven types, so the counts sum to
`totalPopulation`; it appends one sample `(now, count)` to the population
series and to each per-type series, dropping the oldest sample of a series
that already held 100, so a series of at most 100 samples stays at most 100;
and every series of a tracker built by the constructor holds at most 100
samples after any sequence of updates. -/
theorem StatisticsTracker.update_snapshot {β : Type} (ops : BehaviorOps β)
    (s : StatisticsTracker) (now : ℚ) (entities : List (Organism β))
    (calls : List (ℚ × List (Organism β))) (t : BehaviorType) :
    (now - s.lastUpdateTime < s.updateInterval → s.update ops now entities = s) ∧
    (¬ now - s.lastUpdateTime < s.updateInterval →
      (s.update ops now entities).totalPopulation = livingCount entities ∧
      (s.update ops now entities).behaviorCounts t = livingOfType ops entities t ∧
      (behaviorTypes.map (s.update ops now entities).behaviorCounts).sum =
        (s.update ops now entities).totalPopulation ∧
      AppendedBounded s.populationHistory (s.update ops now entities).populationHistory
        (Sample.mk now (livingCount entities)) ∧
      AppendedBounded (s.behaviorHistory t) ((s.update ops now entities).behaviorHistory t)
        (Sample.mk now (livingOfType ops entities t))) ∧
    (((StatisticsTracker.new now).updates ops calls).populationHistory.length ≤ 100 ∧
      (((StatisticsTracker.new now).updates ops calls).behaviorHistory t).length ≤ 100) := by
  refine ⟨fun h => ?_, fun h => ?_, ?_⟩
  · unfold StatisticsTracker.update
    rw [if_pos h]
  · obtain ⟨h1, h2, h3, h4⟩ := StatisticsTracker.update_fields ops s now entities h
    refine ⟨h1, h2 t, ?_, ?_, ?_⟩
    · rw [h1, ← livingOfType_sum ops entities]
      congr 1
      exact List.map_congr_left (fun t _ => h2 t)
    · rw [h3]
      exact limitHistory_appendedBounded _ _
    · rw [h4 t]
      exact limitHistory_appendedBounded _ _
  · have hinv : ∀ (cs : List (ℚ × List (Organism β))) (s0 : StatisticsTracker),
        s0.populationHistory.length ≤ 100 → (∀ t, (s0.behaviorHistory t).length ≤ 100) →
        (s0.updates ops cs).populationHistory.length ≤ 100 ∧
          ∀ t, ((s0.updates ops cs).behaviorHistory t).length ≤ 100 := by
      intro cs
      induction cs with
      | nil => exact fun s0 hp hb => ⟨hp, hb⟩
      | cons c cs ih =>
        intro s0 hp hb
        refine ih (s0.update ops c.1 c.2) ?_ ?_
        · by_cases hthr : c.1 - s0.lastUpdateTime < s0.updateInterval
          · unfold StatisticsTracker.update
            rw [if_pos hthr]
            exact hp
          · rw [(StatisticsTracker.update_fields ops s0 c.1 c.2 hthr).2.2.1]
            exact (limitHistory_appendedBounded _ _).2.2 hp
        · intro t'
          by_cases hthr : c.1 - s0.lastUpdateTime < s0.updateInterval
          · unfold StatisticsTracker.update
            rw [if_pos hthr]
            exact hb t'
          · rw [(StatisticsTracker.update_fields ops s0 c.1 c.2 hthr).2.2.2 t']
            exact (limitHistory_appendedBounded _ _).2.2 (hb t')
    have := hinv calls (StatisticsTracker.new now) (by simp [StatisticsTracker.new])
      (fun _ => by simp [StatisticsTracker.new])
    exact ⟨this.1, this.2 t⟩

/-- C19 on the organisms of `World.sample`: a tracker built at time 0 and
updated at time 1000 counts two living organisms. -/
theorem StatisticsTracker.update_snapshot_witness :
    ¬ ((1000 : ℚ) - (StatisticsTracker.new 0).lastUpdateTime <
        (StatisticsTracker.new 0).updateInterval) ∧
      ((StatisticsTracker.new 0).update BehaviorOps.idle 1000 World.sample.entities).totalPopulation
        = 2 := by
  have hthr : ¬ ((1000 : ℚ) - (StatisticsTracker.new 0).lastUpdateTime <
      (StatisticsTracker.new 0).updateInterval) := by
    norm_num [StatisticsTracker.new]
  have h := ((StatisticsTracker.update_snapshot BehaviorOps.idle (StatisticsTracker.new 0) 1000
    World.sample.entities [] BehaviorType.cooperative).2.1 hthr).1
  refine ⟨hthr, ?_⟩
  rw [h]
  rfl

/-! ## Snapshot round trip (C20) -/

theorem jsOr_some_zero (v : ℚ) : jsOr (some v) 0 = v := by
  unfold jsOr
  by_cases h : v = 0
  · simp [h]
  · simp [h]

theorem jsOr_some_of_ne (v d : ℚ) (h : v ≠ 0) : jsOr (some v) d = v := by
  simp [jsOr, h]

/-- One step of the organism loop of `deserialize` appends one living organism
whose record is the one read, and changes nothing else but the mesh counter. -/
theorem SimulationManager.restoreOrganism_spec {β : Type} (M : JsMath) (ops : BehaviorOps β)
    (hops : ∀ t r, ops.type (ops.construct t r).1 = t) (s : SimulationManager β)
    (r : RandomSource) (e : OrganismRecord) :
    ∃ o r', SimulationManager.restoreOrganism M ops (s, r) e =
        ({ s with world := { s.world with nextMeshId := s.world.nextMeshId + 1,
                                          entities := s.world.entities ++ [o] } }, r') ∧
      o.isAlive = true ∧ Organism.serialize ops o = e := by
  refine ⟨_, _, rfl, rfl, ?_⟩
  obtain ⟨t, p, st, a⟩ := e
  simp only [Organism.serialize, SimulationManager.createOrganism, EntityFactory.createOrganism,
    BehaviorFactory.createBehavior, Organism.new, Option.getD_some, hops, jsOr_some_zero]

/-- The organism loop of `deserialize` appends living organisms whose records
are the ones read, in order. -/
theorem SimulationManager.restoreOrganisms_spec {β : Type} (M : JsMath) (ops : BehaviorOps β)
    (hops : ∀ t r, ops.type (ops.construct t r).1 = t) (es : List OrganismRecord) :
    ∀ (s : SimulationManager β) (r : RandomSource),
      ∃ n os r', es.foldl (SimulationManager.restoreOrganism M ops) (s, r) =
          ({ s with world := { s.world with nextMeshId := n,
                                            entities := s.world.entities ++ os } }, r') ∧
        (∀ o ∈ os, o.isAlive = true) ∧ os.map (Organism.serialize ops) = es := by
  induction es with
  | nil =>
    intro s r
    exact ⟨s.world.nextMeshId, [], r, by simp, by simp, rfl⟩
  | cons e es ih =>
    intro s r
    obtain ⟨o, r1, h1, halive, hser⟩ := SimulationManager.restoreOrganism_spec M ops hops s r e
    obtain ⟨n, os, r2, h2, hall, hmap⟩ := ih _ r1
    refine ⟨n, o :: os, r2, ?_, ?_, ?_⟩
    · rw [List.foldl_cons, h1, h2]
      simp
    · intro x hx
      rcases List.mem_cons.mp hx with rfl | hx
      · exact halive
      · exact hall x hx
    · simp [hser, hmap]

/-- One step of the food loop of `deserialize` appends one unconsumed food item
whose record is the one read, when that record is well formed. -/
theorem SimulationManager.restoreFood_spec {β : Type} (s : SimulationManager β)
    (r : RandomSource) (f : FoodRecord) (hf : f.WellFormed) :
    ∃ food r', SimulationManager.restoreFood (s, r) f =
        ({ s with world := { s.world with foods := s.world.foods ++ [food] } }, r') ∧
      food.isConsumed = false ∧ food.serialize = f := by
  obtain ⟨t, p, v⟩ := f
  obtain ⟨h1, h2, h3⟩ := hf
  simp only at h1 h2 h3
  refine ⟨(EntityFactory.createFood t (some p) v r).1, (EntityFactory.createFood t (some p) v r).2,
    rfl, ?_, ?_⟩
  · simp [EntityFactory.createFood, h2, Food.new]
  · simp [EntityFactory.createFood, h2, Food.new, Food.serialize, h1, jsOr_some_of_ne v 30 h3]

/-- The food loop of `deserialize` appends unconsumed food items whose records
are the ones read, in order, when those records are well formed. -/
theorem SimulationManager.restoreFoods_spec {β : Type} (fs : List FoodRecord)
    (hfs : ∀ f ∈ fs, f.WellFormed) :
    ∀ (s : SimulationManager β) (r : RandomSource),
      ∃ foods r', fs.foldl SimulationManager.restoreFood (s, r) =
          ({ s with world := { s.world with foods := s.world.foods ++ foods } }, r') ∧
        (∀ food ∈ foods, food.isConsumed = false) ∧ foods.map Food.serialize = fs := by
  induction fs with
  | nil =>
    intro s r
    exact ⟨[], r, by simp, by simp, rfl⟩
  | cons f fs ih =>
    intro s r
    obtain ⟨food, r1, h1, hfresh, hser⟩ :=
      SimulationManager.restoreFood_spec s r f (hfs f (List.mem_cons_self _ _))
    obtain ⟨foods, r2, h2, hall, hmap⟩ :=
      ih (fun g hg => hfs g (List.mem_cons_of_mem _ hg)) _ r1
    refine ⟨food :: foods, r2, ?_, ?_, ?_⟩
    · rw [List.foldl_cons, h1, h2]
      simp
    · intro x hx
      rcases List.mem_cons.mp hx with rfl | hx
      · exact hfresh
      · exact hall x hx
    · simp [hser, hmap]

/-- The obstacle loop of `deserialize` changes the obstacle list only. -/
theorem SimulationManager.restoreObstacles_spec {β : Type} (obs : List ObstacleRecord) :
    ∀ (s : SimulationManager β) (r : RandomSource),
      ∃ obstacles r', obs.foldl SimulationManager.restoreObstacle (s, r) =
          ({ s with world := { s.world with obstacles := obstacles } }, r') := by
  induction obs with
  | nil =>
    intro s r
    exact ⟨s.world.obstacles, r, rfl⟩
  | cons b obs ih =>
    intro s r
    rw [List.foldl_cons]
    have hstep : ∃ obstacles r', SimulationManager.restoreObstacle (s, r) b =
        ({ s with world := { s.world with obstacles := obstacles } }, r') := by
      unfold SimulationManager.restoreObstacle SimulationManager.addObstacleAt
      by_cases ht : b.type = "tree"
      · exact ⟨_, _, by simp only [ht, if_true]; rfl⟩
      · by_cases hr : b.type = "rock"
        · exact ⟨_, _, by simp only [ht, hr, if_true, if_false]; rfl⟩
        · exact ⟨s.world.obstacles, r, by simp only [ht, hr, if_false]⟩
    obtain ⟨o1, r1, h1⟩ := hstep
    obtain ⟨o2, r2, h2⟩ := ih _ r1
    exact ⟨o2, r2, by rw [h1, h2]⟩

/-- The settings block of `deserialize` leaves a manager with an empty world of
the snapshot's size and the snapshot's parameters, the two food parameters
passed through their defaults. -/
theorem SimulationManager.applySettings_eq {β : Type} (sim : SimulationManager β)
    (d : Snapshot) :
    ∃ w : World β, w.entities = [] ∧ w.foods = [] ∧ w.terrainSize = d.worldSize ∧
      sim.applySettings d =
        { world := w, statistics := sim.statistics, speed := d.speed, isPaused := sim.isPaused,
          initialPopulationSize := d.initialPopulationSize,
          resourceAbundance := d.resourceAbundance,
          environmentalHarshness := d.environmentalHarshness,
          foodSpawnRate := jsOr (some d.foodSpawnRate) 1,
          foodEnergyValue := jsOr (some d.foodEnergyValue) 20,
          baseEnergy := d.baseEnergy, baseSpeed := d.baseSpeed, baseSize := d.baseSize,
          baseLifespan := d.baseLifespan, baseReproductionRate := d.baseReproductionRate,
          mutationRate := d.mutationRate, behaviorParameters := d.behaviorParameters,
          displayLabels := d.displayLabels, showInteractions := d.showInteractions,
          showHealthBars := d.showHealthBars,
          timeSinceLastFoodSpawn := sim.timeSinceLastFoodSpawn } := by
  unfold SimulationManager.applySettings
  by_cases hw : d.worldSize ≠ sim.world.reset.terrainSize
  · exact ⟨{ sim.world.reset with
              terrainSize := d.worldSize
              mutationRate := sim.world.reset.mutationRate.map (fun _ => d.mutationRate) },
      rfl, rfl, rfl, by simp only [if_pos hw]⟩
  · exact ⟨{ sim.world.reset with
              mutationRate := sim.world.reset.mutationRate.map (fun _ => d.mutationRate) },
      rfl, rfl, (not_not.mp hw).symm, by simp only [if_neg hw]⟩

/-- Snapshot round trip where it holds: when the food spawn rate and the food
energy value of `S` are not zero and every unconsumed food of `S` has a proper
type name and a non-zero energy value, the snapshot taken after
`deserialize(serialize(S))`, into any manager, agrees with `serialize(S)` on the
scalar parameters, the display switches, the parameter table, the
living-organism records and the unconsumed-food records. -/
theorem SimulationManager.round_trip_of_nonzero {β : Type} (M : JsMath) (ops : BehaviorOps β)
    (hops : ∀ t r, ops.type (ops.construct t r).1 = t) (S sim : SimulationManager β)
    (rand : RandomSource) (hrate : S.foodSpawnRate ≠ 0) (hvalue : S.foodEnergyValue ≠ 0)
    (hfoods : ∀ f ∈ S.world.foods, f.isConsumed = false →
      f.type ≠ "" ∧ f.type ≠ "random" ∧ f.energyValue ≠ 0) :
    ((sim.deserialize M ops (S.serialize ops) rand).1.serialize ops).core
        = (S.serialize ops).core ∧
      ((sim.deserialize M ops (S.serialize ops) rand).1.serialize ops).behaviorParameters
        = (S.serialize ops).behaviorParameters := by
  have hwf : ∀ f ∈ (S.serialize ops).foods, f.WellFormed := by
    intro f hf
    simp only [SimulationManager.serialize, List.mem_map, List.mem_filter] at hf
    obtain ⟨food, ⟨hmem, hfresh⟩, rfl⟩ := hf
    exact hfoods food hmem (by simpa using hfresh)
  obtain ⟨w, hwe, hwf0, hwt, hA⟩ := SimulationManager.applySettings_eq sim (S.serialize ops)
  unfold SimulationManager.deserialize
  obtain ⟨n, os, r1, h1, halive, hos⟩ :=
    SimulationManager.restoreOrganisms_spec M ops hops (S.serialize ops).entities
      (sim.applySettings (S.serialize ops)) rand
  obtain ⟨foods, r2, h2, hfresh, hfs⟩ :=
    SimulationManager.restoreFoods_spec (S.serialize ops).foods hwf
      { sim.applySettings (S.serialize ops) with
        world := { (sim.applySettings (S.serialize ops)).world with
          nextMeshId := n
          entities := (sim.applySettings (S.serialize ops)).world.entities ++ os } } r1
  obtain ⟨obstacles, r3, h3⟩ :=
    SimulationManager.restoreObstacles_spec (S.serialize ops).obstacles
      { sim.applySettings (S.serialize ops) with
        world := { (sim.applySettings (S.serialize ops)).world with
          nextMeshId := n
          entities := (sim.applySettings (S.serialize ops)).world.entities ++ os
          foods := (sim.applySettings (S.serialize ops)).world.foods ++ foods } } r2
  simp only [] at h2 h3
  simp only [h1, h2, h3]
  have hE : (os.filter (fun e => e.isAlive)).map (Organism.serialize ops)
      = (S.serialize ops).entities := by
    rw [List.filter_eq_self.mpr halive, hos]
  have hF : (foods.filter (fun f => !f.isConsumed)).map Food.serialize
      = (S.serialize ops).foods := by
    rw [List.filter_eq_self.mpr (by intro x hx; simp [hfresh x hx]), hfs]
  have hr : jsOr (some (S.serialize ops).foodSpawnRate) 1 = (S.serialize ops).foodSpawnRate :=
    jsOr_some_of_ne _ _ hrate
  have hv : jsOr (some (S.serialize ops).foodEnergyValue) 20 = (S.serialize ops).foodEnergyValue :=
    jsOr_some_of_ne _ _ hvalue
  rw [hA]
  constructor
  · show Snapshot.core _ = _
    simp only [Snapshot.core, SimulationManager.serialize, hwe, hwf0, hwt, List.nil_append]
    simp only [SimulationManager.serialize] at hE hF hr hv
    rw [hE, hF, hr, hv]
  · rfl

/-- C20 at the failing input: for a manager whose food spawn rate was set to 0,
holding one organism and one apple, the snapshot says 0, but the snapshot taken
after `deserialize` of it says 1, because `data.foodSpawnRate || 1.0` replaced
the zero; the organism and food records are the same in both. -/
theorem SimulationManager.round_trip_at_food_spawn_rate_zero :
    (SimulationManager.noFoodSpawn.serialize BehaviorOps.tagged).foodSpawnRate = 0 ∧
      ((SimulationManager.noFoodSpawn.deserialize JsMath.crude BehaviorOps.tagged
          (SimulationManager.noFoodSpawn.serialize BehaviorOps.tagged) RandomSource.half).1.serialize
        BehaviorOps.tagged).foodSpawnRate = 1 ∧
      ((SimulationManager.noFoodSpawn.deserialize JsMath.crude BehaviorOps.tagged
          (SimulationManager.noFoodSpawn.serialize BehaviorOps.tagged) RandomSource.half).1.serialize
        BehaviorOps.tagged).entities =
        (SimulationManager.noFoodSpawn.serialize BehaviorOps.tagged).entities ∧
      ((SimulationManager.noFoodSpawn.deserialize JsMath.crude BehaviorOps.tagged
          (SimulationManager.noFoodSpawn.serialize BehaviorOps.tagged) RandomSource.half).1.serialize
        BehaviorOps.tagged).foods =
        (SimulationManager.noFoodSpawn.serialize BehaviorOps.tagged).foods := by
  set_option maxRecDepth 8000 in with_unfolding_all decide

/-- The round trip at a concrete state with non-zero food parameters. -/
theorem SimulationManager.round_trip_of_nonzero_witness :
    ((SimulationManager.orchard.deserialize JsMath.crude BehaviorOps.tagged
        (SimulationManager.orchard.serialize BehaviorOps.tagged) RandomSource.half).1.serialize
      BehaviorOps.tagged).core = (SimulationManager.orchard.serialize BehaviorOps.tagged).core ∧
    ((SimulationManager.orchard.deserialize JsMath.crude BehaviorOps.tagged
        (SimulationManager.orchard.serialize BehaviorOps.tagged) RandomSource.half).1.serialize
      BehaviorOps.tagged).behaviorParameters
      = (SimulationManager.orchard.serialize BehaviorOps.tagged).behaviorParameters :=
  SimulationManager.round_trip_of_nonzero JsMath.crude BehaviorOps.tagged (fun _ _ => rfl)
    SimulationManager.orchard SimulationManager.orchard RandomSource.half
    (by with_unfolding_all decide) (by with_unfolding_all decide)
    (by
      intro f hf _
      have hf1 : f = Food.sample := by simpa [SimulationManager.orchard, World.orchard] using hf
      subst hf1
      exact ⟨by decide, by decide, by with_unfolding_all decide⟩)

/-! ## Extractive interactions (C23) -/

/-- C23: for every target `AggressiveBehavior.interact` returns `(k, -k)` with
`k = min(10, 0.2 * target.energy)` and `SelfishBehavior.interact` returns
`(k, -k)` with `k = min(5, 0.1 * target.energy)`; for a target whose energy is
not negative Selfish never gives: its `targetEnergyDelta` is `≤ 0` and its
`selfEnergyDelta` is `≥ 0`. -/
theorem extractive_interact_results {β : Type} (b : BaseBehavior) (now later : ℚ)
    (self target : Organism β) :
    (AggressiveBehavior.interact b now later self target).1 =
        { selfEnergyDelta := min 10 (2 / 10 * target.energy),
          targetEnergyDelta := -(min 10 (2 / 10 * target.energy)) } ∧
      (SelfishBehavior.interact b now later self target).1 =
        { selfEnergyDelta := min 5 (1 / 10 * target.energy),
          targetEnergyDelta := -(min 5 (1 / 10 * target.energy)) } ∧
      (0 ≤ target.energy →
        (SelfishBehavior.interact b now later self target).1.targetEnergyDelta ≤ 0 ∧
          0 ≤ (SelfishBehavior.interact b now later self target).1.selfEnergyDelta) := by
  refine ⟨?_, ?_, fun he => ?_⟩
  · simp only [AggressiveBehavior.interact, mul_comm]
  · simp only [SelfishBehavior.interact, mul_comm]
  · have hk : 0 ≤ min 5 (target.energy * (1 / 10)) :=
      le_min (by norm_num) (mul_nonneg he (by norm_num))
    simp only [SelfishBehavior.interact]
    exact ⟨neg_nonpos.mpr hk, hk⟩

/-- C23 on a target of energy 100: Selfish takes 5. -/
theorem extractive_interact_results_witness :
    (0 : ℚ) ≤ (Organism.sample 100).energy ∧
      (SelfishBehavior.interact (BaseBehavior.new .selfish) 0 0 (Organism.sample 50)
        (Organism.sample 100)).1.targetEnergyDelta ≤ 0 :=
  ⟨by with_unfolding_all decide,
    ((extractive_interact_results (BaseBehavior.new .selfish) 0 0 (Organism.sample 50)
      (Organism.sample 100)).2.2 (by with_unfolding_all decide)).1⟩

/-! ## Altruistic donation threshold (C24) -/

/-- C24: `AltruisticBehavior.interact` with `self.energy > 30` returns
`(-d, +d)` for `d = min(10, 0.15 * self.energy)`, a donation that is positive;
with `self.energy ≤ 30` (30 included) it returns `(0, 0)` and hands back the
behaviour, memory included, unchanged. -/
theorem AltruisticBehavior.interact_threshold {β : Type} (b : BaseBehavior) (now later : ℚ)
    (self target : Organism β) :
    (self.energy > 30 →
      (AltruisticBehavior.interact b now later self target).1 =
          { selfEnergyDelta := -(min 10 (15 / 100 * self.energy)),
            targetEnergyDelta := min 10 (15 / 100 * self.energy) } ∧
        0 < min 10 (15 / 100 * self.energy)) ∧
    (self.energy ≤ 30 →
      (AltruisticBehavior.interact b now later self target).1 =
          { selfEnergyDelta := 0, targetEnergyDelta := 0 } ∧
        (AltruisticBehavior.interact b now later self target).2 = b) := by
  constructor
  · intro h
    refine ⟨?_, lt_min (by norm_num) (by linarith)⟩
    simp only [AltruisticBehavior.interact, if_pos h, mul_comm]
  · intro h
    have h' : ¬ self.energy > 30 := not_lt.mpr h
    simp only [AltruisticBehavior.interact, if_neg h', and_self]

/-- C24 at the boundary: with energy exactly 30 nothing is given and the memory
stays empty. -/
theorem AltruisticBehavior.interact_threshold_witness :
    (Organism.sample 30).energy ≤ 30 ∧
      (AltruisticBehavior.interact (BaseBehavior.new .altruistic) 0 0 (Organism.sample 30)
          (Organism.sample 100)).1 = { selfEnergyDelta := 0, targetEnergyDelta := 0 } ∧
      (AltruisticBehavior.interact (BaseBehavior.new .altruistic) 0 0 (Organism.sample 30)
          (Organism.sample 100)).2.memory = [] :=
  ⟨by with_unfolding_all decide,
    ((AltruisticBehavior.interact_threshold (BaseBehavior.new .altruistic) 0 0
      (Organism.sample 30) (Organism.sample 100)).2 (by with_unfolding_all decide)).1,
    by with_unfolding_all decide⟩

/-! ## Tit-for-tat (C25) -/

/-- C25: `TitForTatBehavior.interact` cooperates when the memory has no entry
for the target or the entry is positive: it returns `(-5, +5)` and calls
`rememberInteraction(target id, true)`; it retaliates when the remembered
entry is negative: it returns `(k, -k)` with `k = min(8, 0.15 * target.energy)`
and calls `rememberInteraction(target id, false)`. -/
theorem TitForTatBehavior.interact_cases {β : Type} (b : BaseBehavior) (now later : ℚ)
    (self target : Organism β) :
    ((b.getLastInteraction target.meshId = none ∨
        ∃ e, b.getLastInteraction target.meshId = some e ∧ e.wasPositive = true) →
      TitForTatBehavior.interact b now later self target =
        ({ selfEnergyDelta := -5, targetEnergyDelta := 5 },
          b.rememberInteraction target.meshId true now later)) ∧
    ((∃ e, b.getLastInteraction target.meshId = some e ∧ e.wasPositive = false) →
      TitForTatBehavior.interact b now later self target =
        ({ selfEnergyDelta := min 8 (15 / 100 * target.energy),
           targetEnergyDelta := -(min 8 (15 / 100 * target.energy)) },
          b.rememberInteraction target.meshId false now later)) := by
  constructor
  · rintro (h | ⟨e, h, hp⟩)
    · simp only [TitForTatBehavior.interact, h]
    · simp only [TitForTatBehavior.interact, h, hp, if_true]
  · rintro ⟨e, h, hp⟩
    simp only [TitForTatBehavior.interact, h, hp, Bool.false_eq_true, if_false, mul_comm]

/-- C25 on first contact: an empty memory gives the cooperative exchange. -/
theorem TitForTatBehavior.interact_cases_witness :
    ((BaseBehavior.new .titfortat).getLastInteraction (Organism.sample 100).meshId = none) ∧
      (TitForTatBehavior.interact (BaseBehavior.new .titfortat) 0 0 (Organism.sample 50)
        (Organism.sample 100)).1 = { selfEnergyDelta := -5, targetEnergyDelta := 5 } :=
  ⟨rfl, by
    rw [(TitForTatBehavior.interact_cases (BaseBehavior.new .titfortat) 0 0 (Organism.sample 50)
      (Organism.sample 100)).1 (Or.inl rfl)]⟩

/-! ## Recording of reactive interactions (C26) -/

theorem BaseBehavior.getLastInteraction_rememberInteraction (b : BaseBehavior) (id : ℕ)
    (p : Bool) (now later : ℚ)
    (h : b.unlimitedMemory = true ∨ later - now ≤ b.memoryDuration * 1000) :
    (b.rememberInteraction id p now later).getLastInteraction id =
      some { wasPositive := p, timestamp := now } := by
  cases hu : b.unlimitedMemory with
  | true =>
    have hs := Memory.set_unique b.memory id { wasPositive := p, timestamp := now }
    have := Memory.find_filter_of_unique _ id _ (fun _ => true) rfl hs.1 hs.2
    simpa [BaseBehavior.rememberInteraction, BaseBehavior.getLastInteraction, hu] using this
  | false =>
    have hd : later - now ≤ b.memoryDuration * 1000 := by
      rcases h with h | h
      · rw [hu] at h
        cases h
      · exact h
    exact (b.rememberInteraction_own_entry id p now later hu).1 hd

/-- C26 fails in two ways.  An altruist with energy 30 gives nothing and writes
nothing, so `getLastInteraction` still has no entry for the target.  And a
cooperative behaviour with `memoryDuration = 0` whose `rememberInteraction`
stamps the entry at clock time 0 and cleans at clock time 1 has evicted the
entry it wrote when `interact` returns. -/
theorem reactive_interact_unrecorded :
    ((Organism.sample 30).energy = 30 ∧
      (AltruisticBehavior.interact (BaseBehavior.new .altruistic) 0 0 (Organism.sample 30)
        (Organism.sample 100)).1 = { selfEnergyDelta := 0, targetEnergyDelta := 0 } ∧
      (AltruisticBehavior.interact (BaseBehavior.new .altruistic) 0 0 (Organism.sample 30)
        (Organism.sample 100)).2.getLastInteraction (Organism.sample 100).meshId = none) ∧
    (CooperativeBehavior.interact
      ({ type := .cooperative, memoryDuration := 0 } : BaseBehavior) 0 1 (Organism.sample 50)
        (Organism.sample 100)).2.getLastInteraction (Organism.sample 100).meshId = none := by
  with_unfolding_all decide

/-- C26, amended: `now` and `later` being the clock readings of the stamp and
of the cleaning, with a memory that is unlimited or a cleaning no more than
`memoryDuration * 1000` after the stamp, and a target whose energy is not
negative, right after `interact(self, target)` the call
`getLastInteraction(target id)` returns an entry stamped `now` whose polarity is
positive exactly when the interaction gave energy to the target
(`targetEnergyDelta > 0`): for Aggressive, Cooperative, Selfish and TitForTat
always, and for Altruistic when `self.energy > 30`. -/
theorem reactive_interact_recorded {β : Type} (b : BaseBehavior) (now later : ℚ)
    (self target : Organism β)
    (hmem : b.unlimitedMemory = true ∨ later - now ≤ b.memoryDuration * 1000)
    (htarget : 0 ≤ target.energy) :
    (AggressiveBehavior.interact b now later self target).2.getLastInteraction target.meshId =
      some { wasPositive :=
               decide (0 < (AggressiveBehavior.interact b now later self target).1.targetEnergyDelta),
             timestamp := now } ∧
    (self.energy > 30 →
      (AltruisticBehavior.interact b now later self target).2.getLastInteraction target.meshId =
        some { wasPositive :=
                 decide (0 < (AltruisticBehavior.interact b now later self target).1.targetEnergyDelta),
               timestamp := now }) ∧
    (CooperativeBehavior.interact b now later self target).2.getLastInteraction target.meshId =
      some { wasPositive :=
               decide (0 < (CooperativeBehavior.interact b now later self target).1.targetEnergyDelta),
             timestamp := now } ∧
    (SelfishBehavior.interact b now later self target).2.getLastInteraction target.meshId =
      some { wasPositive :=
               decide (0 < (SelfishBehavior.interact b now later self target).1.targetEnergyDelta),
             timestamp := now } ∧
    (TitForTatBehavior.interact b now later self target).2.getLastInteraction target.meshId =
      some { wasPositive :=
               decide (0 < (TitForTatBehavior.interact b now later self target).1.targetEnergyDelta),
             timestamp := now } := by
  have hneg : ∀ c : ℚ, 0 < c → ∀ f : ℚ, 0 < f →
      decide (0 < -(min c (target.energy * f))) = false := by
    intro c hc f hf
    have : 0 ≤ min c (target.energy * f) := le_min hc.le (mul_nonneg htarget hf.le)
    simpa using this
  refine ⟨?_, fun he => ?_, ?_, ?_, ?_⟩
  · simp only [AggressiveBehavior.interact, hneg 10 (by norm_num) (2 / 10) (by norm_num)]
    exact b.getLastInteraction_rememberInteraction _ _ _ _ hmem
  · have hpos : decide (0 < min 10 (self.energy * (15 / 100))) = true := by
      have : 0 < min 10 (self.energy * (15 / 100)) := lt_min (by norm_num) (by linarith)
      simpa using this
    simp only [AltruisticBehavior.interact, if_pos he, hpos]
    exact b.getLastInteraction_rememberInteraction _ _ _ _ hmem
  · simp only [CooperativeBehavior.interact]
    rw [b.getLastInteraction_rememberInteraction _ _ _ _ hmem]
    norm_num
  · simp only [SelfishBehavior.interact, hneg 5 (by norm_num) (1 / 10) (by norm_num)]
    exact b.getLastInteraction_rememberInteraction _ _ _ _ hmem
  · unfold TitForTatBehavior.interact
    split
    · simp only
      rw [b.getLastInteraction_rememberInteraction _ _ _ _ hmem]
      norm_num
    · split_ifs
      · simp only
        rw [b.getLastInteraction_rememberInteraction _ _ _ _ hmem]
        norm_num
      · simp only [hneg 8 (by norm_num) (15 / 100) (by norm_num)]
        exact b.getLastInteraction_rememberInteraction _ _ _ _ hmem

/-- C26, amended, for a donating altruist: energy 50 against a target of
energy 100, stamp at clock time 0 and cleaning at clock time 1 with the default
memory duration of 50 s: the entry stamped 0 is returned. -/
theorem reactive_interact_recorded_witness :
    ((AltruisticBehavior.interact (BaseBehavior.new .altruistic) 0 1 (Organism.sample 50)
        (Organism.sample 100)).2.getLastInteraction (Organism.sample 100).meshId).map
      (fun e => e.timestamp) = some 0 := by
  rw [(reactive_interact_recorded (BaseBehavior.new .altruistic) 0 1 (Organism.sample 50)
    (Organism.sample 100) (Or.inr (by with_unfolding_all decide))
    (by with_unfolding_all decide)).2.1 (by with_unfolding_all decide)]
  rfl

/-! ## Arena clamp (C30) -/

theorem clampToBound_abs_le (worldBound v : ℚ) (h : 0 ≤ worldBound) :
    |clampToBound worldBound v| ≤ worldBound := by
  unfold clampToBound
  rw [abs_le]
  exact ⟨le_max_left _ _, max_le (by linarith) (min_le_left _ _)⟩

theorem Organism.clampToWorld_abs_le {β : Type} (w : World β) (o : Organism β)
    (h : 0 ≤ w.terrainSize) :
    |(o.clampToWorld w).position.x| ≤ w.terrainSize / (21 / 10) ∧
      |(o.clampToWorld w).position.z| ≤ w.terrainSize / (21 / 10) := by
  have hb : 0 ≤ w.terrainSize / (21 / 10) := div_nonneg h (by norm_num)
  exact ⟨clampToBound_abs_le _ _ hb, clampToBound_abs_le _ _ hb⟩

theorem Organism.move_position {β : Type} (M : JsMath) (deltaTime : ℚ) (w : World β) (i : ℕ)
    (rand : RandomSource) (o : Organism β) (ho : w.entities[i]? = some o)
    (h : 0 ≤ w.terrainSize) :
    ∃ o', (Organism.move M deltaTime w i rand).1.entities[i]? = some o' ∧
      |o'.position.x| ≤ w.terrainSize / (21 / 10) ∧
      |o'.position.z| ≤ w.terrainSize / (21 / 10) := by
  unfold Organism.move
  rw [ho]
  dsimp only
  refine ⟨_, List.getElem?_set_self_of_some _ _ _ _ ho, ?_⟩
  exact Organism.clampToWorld_abs_le w _ h

theorem World.modifyEntity_terrainSize {β : Type} (w : World β) (i : ℕ)
    (f : Organism β → Organism β) : (w.modifyEntity i f).terrainSize = w.terrainSize := by
  unfold World.modifyEntity
  split <;> rfl

theorem Organism.eatFood_terrainSize {β : Type} (w : World β) (i k : ℕ) :
    (Organism.eatFood w i k).terrainSize = w.terrainSize := by
  unfold Organism.eatFood
  split
  · rfl
  · dsimp only
    simp only [World.modifyEntity_terrainSize]

theorem Organism.interactWithTarget_terrainSize {β : Type} (ops : BehaviorOps β) (now : ℚ)
    (w : World β) (i j : ℕ) (rand : RandomSource) :
    (Organism.interactWithTarget ops now w i j rand).1.terrainSize = w.terrainSize := by
  unfold Organism.interactWithTarget
  split
  · split
    · rfl
    · dsimp only
      simp only [World.modifyEntity_terrainSize]
  · rfl

theorem Organism.reproduce_terrainSize {β : Type} (M : JsMath) (ops : BehaviorOps β)
    (w : World β) (i : ℕ) (rand : RandomSource) :
    (Organism.reproduce M ops w i rand).1.terrainSize = w.terrainSize := by
  unfold Organism.reproduce
  split
  · rfl
  · split
    · rfl
    · dsimp only
      split
      · rfl
      · dsimp only
        rw [World.modifyEntity_terrainSize]
        rfl

theorem Organism.decideInteraction_terrainSize {β : Type} (ops : BehaviorOps β) (now : ℚ)
    (w : World β) (i : ℕ) (rand : RandomSource) :
    (Organism.decideInteraction ops now w i rand).1.terrainSize = w.terrainSize := by
  unfold Organism.decideInteraction
  split
  · rfl
  · dsimp only
    split
    · split
      · split
        · rfl
        · split
          · rfl
          · split
            · rfl
            · split
              · simp only [World.modifyEntity_terrainSize, Organism.eatFood_terrainSize]
              · simp only [World.modifyEntity_terrainSize]
      · split
        · split
          · simp only [World.modifyEntity_terrainSize]
          · split
            · simp only [World.modifyEntity_terrainSize]
            · split
              · dsimp only
                simp only [World.modifyEntity_terrainSize,
                  Organism.interactWithTarget_terrainSize]
              · simp only [World.modifyEntity_terrainSize]
        · rfl
    · rfl

theorem Organism.tryReproduce_terrainSize {β : Type} (M : JsMath) (ops : BehaviorOps β)
    (deltaTime : ℚ) (w : World β) (i : ℕ) (rand : RandomSource) :
    (Organism.tryReproduce M ops deltaTime w i rand).1.terrainSize = w.terrainSize := by
  unfold Organism.tryReproduce
  split
  · rfl
  · dsimp only
    split
    · split
      · exact Organism.reproduce_terrainSize M ops w i _
      · rfl
    · rfl

theorem Organism.decideAction_terrainSize {β : Type} (M : JsMath) (ops : BehaviorOps β)
    (deltaTime now : ℚ) (w : World β) (i : ℕ) (rand : RandomSource) :
    (Organism.decideAction M ops deltaTime now w i rand).1.terrainSize = w.terrainSize := by
  unfold Organism.decideAction
  dsimp only
  rw [Organism.tryReproduce_terrainSize, Organism.decideInteraction_terrainSize]

/-- C30: in a world whose terrain size is not negative, after `move` the
organism's position satisfies `|x| ≤ terrainSize / 2.1` and
`|z| ≤ terrainSize / 2.1`, whatever its starting position, direction, speed and
the time step; the same holds after `update` for an organism that is alive and
survives the decay step of the tick. -/
theorem Organism.position_within_arena {β : Type} (M : JsMath) (ops : BehaviorOps β)
    (deltaTime now : ℚ) (w : World β) (i : ℕ) (rand : RandomSource) (o : Organism β)
    (ho : w.entities[i]? = some o) (hsize : 0 ≤ w.terrainSize) :
    (∃ o', (Organism.move M deltaTime w i rand).1.entities[i]? = some o' ∧
      |o'.position.x| ≤ w.terrainSize / (21 / 10) ∧
      |o'.position.z| ≤ w.terrainSize / (21 / 10)) ∧
    (o.isAlive = true →
      ¬ (o.decayedEnergy deltaTime ≤ 0 ∨ o.age + deltaTime ≥ o.maxLifespan) →
      ∃ o', (Organism.update M ops deltaTime now w i rand).1.entities[i]? = some o' ∧
        o'.isAlive = true ∧
        |o'.position.x| ≤ w.terrainSize / (21 / 10) ∧
        |o'.position.z| ≤ w.terrainSize / (21 / 10)) := by
  refine ⟨Organism.move_position M deltaTime w i rand o ho hsize, fun halive hc => ?_⟩
  rw [Organism.update_of_surviving M ops deltaTime now w i rand o ho halive hc]
  have hset : ({ w with entities := w.entities.set i (o.decayed deltaTime) } :
      World β).entities[i]? = some (o.decayed deltaTime) :=
    List.getElem?_set_self_of_some _ _ _ _ ho
  obtain ⟨o1, ho1, ha1, _⟩ :=
    Organism.decideAction_stable M ops deltaTime now
      { w with entities := w.entities.set i (o.decayed deltaTime) } i rand i _ hset
  have hts : (Organism.decideAction M ops deltaTime now
      { w with entities := w.entities.set i (o.decayed deltaTime) } i rand).1.terrainSize
      = w.terrainSize := by
    rw [Organism.decideAction_terrainSize]
  obtain ⟨o2, ho2, hx, hz⟩ := Organism.move_position M deltaTime _ i
    (Organism.decideAction M ops deltaTime now
      { w with entities := w.entities.set i (o.decayed deltaTime) } i rand).2 o1 ho1
    (by rw [hts]; exact hsize)
  rw [hts] at hx hz
  obtain ⟨o3, ho3, ha3, _⟩ := Organism.move_stable M deltaTime _ i
    (Organism.decideAction M ops deltaTime now
      { w with entities := w.entities.set i (o.decayed deltaTime) } i rand).2 i o1 ho1
  rw [ho2] at ho3
  have h23 : o2 = o3 := Option.some.inj ho3
  subst h23
  refine ⟨o2, ho2, ?_, hx, hz⟩
  rw [ha3, ha1]
  exact halive

/-- C30 for an organism far outside the arena of size 40: after one `move` it
stands at the corner `(40 / 2.1, 0, -40 / 2.1)`. -/
theorem Organism.position_within_arena_witness :
    (Organism.move JsMath.crude 1 World.runaway 0 RandomSource.half).1.entities.map
        (fun o => o.position) = [⟨40 / (21 / 10), 0, -(40 / (21 / 10))⟩] ∧
      ∃ o', (Organism.move JsMath.crude 1 World.runaway 0 RandomSource.half).1.entities[0]?
          = some o' ∧
        |o'.position.x| ≤ World.runaway.terrainSize / (21 / 10) ∧
        |o'.position.z| ≤ World.runaway.terrainSize / (21 / 10) :=
  ⟨by with_unfolding_all decide,
    (Organism.position_within_arena JsMath.crude BehaviorOps.idle 1 0 World.runaway 0
      RandomSource.half _ rfl (by with_unfolding_all decide)).1⟩

/-! ## Payouts of the two learners (C21) -/

theorem QLearningBehavior.execute_payout {β : Type} (q : QLearningBehavior) (action : QAction)
    (now later : ℚ) (self target : Organism β) :
    (q.execute action now later self target).1 = learnerPayout 0 action self target := by
  cases action <;> simp [QLearningBehavior.execute, learnerPayout, mul_comm]

theorem DeepQLearningBehavior.execute_payout_neural {β : Type} (q : DeepQLearningBehavior)
    (action : QAction) (now later : ℚ) (self target : Organism β) :
    (q.execute action now later self target).1 = learnerPayout 1 action self target := by
  cases action <;> simp [DeepQLearningBehavior.execute, learnerPayout, mul_comm]

/-- C21: for every self and target, `QLearningBehavior.interact` returns the
payout of the action it selected with no gain on ignore, and
`DeepQLearningBehavior.interact` the payout of the action it selected with a
gain of 1 on ignore, where the payout is `(-g, 1.5 * g)` with
`g = min(8, 0.1 * self.energy)` for cooperate, `(k, -k)` with
`k = min(10, 0.15 * target.energy)` for compete and `(gain, 0)` for ignore; on
cooperate and compete the two payouts are the same. -/
theorem learners_interact_payouts {β : Type} (ops : BehaviorOps β) (qt : QLearningBehavior)
    (qd : DeepQLearningBehavior) (now later : ℚ) (self target : Organism β) (rand : RandomSource) :
    (qt.interact ops now later self target rand).1 =
        learnerPayout 0 (qt.selectAction (qt.getState ops self target) rand).1 self target ∧
      (qd.interact ops now later self target rand).1 =
        learnerPayout 1 (qd.selectAction (qd.getStateVector ops self target) rand).1
          self target ∧
      learnerPayout 0 QAction.cooperate self target =
        ({ selfEnergyDelta := -(min 8 (1 / 10 * self.energy)),
           targetEnergyDelta := 15 / 10 * min 8 (1 / 10 * self.energy) } : InteractionResult) ∧
      learnerPayout 0 QAction.compete self target =
        ({ selfEnergyDelta := min 10 (15 / 100 * target.energy),
           targetEnergyDelta := -(min 10 (15 / 100 * target.energy)) } : InteractionResult) ∧
      learnerPayout 0 QAction.ignore self target =
        ({ selfEnergyDelta := 0, targetEnergyDelta := 0 } : InteractionResult) ∧
      learnerPayout 1 QAction.ignore self target =
        ({ selfEnergyDelta := 1, targetEnergyDelta := 0 } : InteractionResult) ∧
      learnerPayout 1 QAction.cooperate self target =
        learnerPayout 0 QAction.cooperate self target ∧
      learnerPayout 1 QAction.compete self target =
        learnerPayout 0 QAction.compete self target :=
  ⟨QLearningBehavior.execute_payout _ _ now later self target,
    DeepQLearningBehavior.execute_payout_neural _ _ now later self target, rfl, rfl, rfl, rfl, rfl, rfl⟩

/-! ## Tabular learning one step in arrears (C22) -/

theorem QLearningBehavior.learn_valueOrZero (q : QLearningBehavior) (s : String) (a : QAction)
    (r : ℚ) (s' : String) :
    (q.learn s a r s').valueOrZero s a =
        q.valueOrZero s a + q.learningRate *
          (r + q.discountFactor * q.specMax s' - q.valueOrZero s a) ∧
      ∀ (s2 : String) (a2 : QAction), (s2, a2) ≠ (s, a) →
        (q.learn s a r s').valueOrZero s2 a2 = q.valueOrZero s2 a2 := by
  rw [QLearningBehavior.learn_eq, QLearningBehavior.qValue_eq_valueOrZero,
    QLearningBehavior.prepared_valueOrZero]
  have hsome := q.prepared_isSome_left s s'
  constructor
  · cases hrow : (q.prepared s s').qTable s with
    | none => simp [hrow] at hsome
    | some row => simp [QLearningBehavior.valueOrZero, QLearningBehavior.setQValue, hrow]
  · intro s2 a2 hne
    rw [← q.prepared_valueOrZero s s' s2 a2]
    by_cases hs : s2 = s
    · subst hs
      have ha : a2 ≠ a := fun h => hne (by rw [h])
      cases hrow : (q.prepared s2 s').qTable s2 with
      | none => simp [hrow] at hsome
      | some row => simp [QLearningBehavior.valueOrZero, QLearningBehavior.setQValue, hrow, ha]
    · simp [QLearningBehavior.valueOrZero, QLearningBehavior.setQValue, hs]

/-- What `selectAction` may change in the learner: at most a missing row of the
table is initialised with zeros. -/
theorem QLearningBehavior.selectAction_frame (q : QLearningBehavior) (state : String)
    (rand : RandomSource) :
    (∀ s a, (q.selectAction state rand).2.1.valueOrZero s a = q.valueOrZero s a) ∧
      (q.selectAction state rand).2.1.lastState = q.lastState ∧
      (q.selectAction state rand).2.1.lastAction = q.lastAction ∧
      (q.selectAction state rand).2.1.lastReward = q.lastReward ∧
      (q.selectAction state rand).2.1.learningRate = q.learningRate ∧
      (q.selectAction state rand).2.1.discountFactor = q.discountFactor := by
  unfold QLearningBehavior.selectAction
  dsimp only
  split_ifs with hu
  · exact ⟨fun _ _ => rfl, rfl, rfl, rfl, rfl, rfl⟩
  · unfold QLearningBehavior.getBestAction
    dsimp only
    cases hrow : q.qTable state with
    | some row => exact ⟨fun _ _ => by simp, by simp, by simp, by simp, by simp, by simp⟩
    | none =>
      refine ⟨fun s a => ?_, by simp [QLearningBehavior.initializeState],
        by simp [QLearningBehavior.initializeState], by simp [QLearningBehavior.initializeState],
        by simp [QLearningBehavior.initializeState], by simp [QLearningBehavior.initializeState]⟩
      by_cases hs : s = state
      · simp [QLearningBehavior.valueOrZero, QLearningBehavior.initializeState, hs, hrow]
      · simp [QLearningBehavior.valueOrZero, QLearningBehavior.initializeState, hs]

/-- The action block of `interact` writes the memory only. -/
theorem QLearningBehavior.execute_frame {β : Type} (q : QLearningBehavior) (action : QAction)
    (now later : ℚ) (self target : Organism β) :
    (q.execute action now later self target).2.qTable = q.qTable ∧
      (q.execute action now later self target).2.lastState = q.lastState ∧
      (q.execute action now later self target).2.lastAction = q.lastAction ∧
      (q.execute action now later self target).2.lastReward = q.lastReward ∧
      (q.execute action now later self target).2.learningRate = q.learningRate ∧
      (q.execute action now later self target).2.discountFactor = q.discountFactor := by
  cases action <;> simp [QLearningBehavior.execute]

theorem QLearningBehavior.valueOrZero_congr (q q' : QLearningBehavior)
    (h : q'.qTable = q.qTable) (s : String) (a : QAction) :
    q'.valueOrZero s a = q.valueOrZero s a := by
  unfold QLearningBehavior.valueOrZero
  rw [h]

theorem QLearningBehavior.specMax_congr (q q' : QLearningBehavior)
    (h : ∀ s a, q'.valueOrZero s a = q.valueOrZero s a) (s : String) :
    q'.specMax s = q.specMax s := by
  unfold QLearningBehavior.specMax
  rw [h, h, h]

/-- C22: `QLearningBehavior.interact` stores the state of the interaction, the
action it selected and the returned `selfEnergyDelta` as `lastState`,
`lastAction` and `lastReward`.  An interact of a learner without a stored pair
(the first interact of a fresh learner) changes no Q-value, so for a fresh
learner all stay 0.  An interact of a learner holding the pair `(s0, a0)` of
the previous interact applies exactly one update: `Q(s0, a0)` moves by
`learningRate * (lastReward + discountFactor * max Q(state) - Q(s0, a0))`, with
the state of the current interaction as next state, and every other Q-value is
unchanged. -/
theorem QLearningBehavior.interact_learns_in_arrears {β : Type} (ops : BehaviorOps β)
    (q : QLearningBehavior) (now later : ℚ) (self target : Organism β) (rand : RandomSource) :
    ((q.interact ops now later self target rand).2.1.lastState = some (q.getState ops self target) ∧
      (q.interact ops now later self target rand).2.1.lastAction =
        some (q.selectAction (q.getState ops self target) rand).1 ∧
      (q.interact ops now later self target rand).2.1.lastReward =
        (q.interact ops now later self target rand).1.selfEnergyDelta) ∧
    ((q.lastState = none ∨ q.lastAction = none) →
      ∀ s a, (q.interact ops now later self target rand).2.1.valueOrZero s a = q.valueOrZero s a) ∧
    (∀ s0 a0, q.lastState = some s0 → q.lastAction = some a0 →
      (q.interact ops now later self target rand).2.1.valueOrZero s0 a0 =
          q.valueOrZero s0 a0 + q.learningRate *
            (q.lastReward + q.discountFactor * q.specMax (q.getState ops self target)
              - q.valueOrZero s0 a0) ∧
        ∀ s2 a2, (s2, a2) ≠ (s0, a0) →
          (q.interact ops now later self target rand).2.1.valueOrZero s2 a2 = q.valueOrZero s2 a2) ∧
    (∀ s a, (QLearningBehavior.new.interact ops now later self target rand).2.1.valueOrZero s a = 0) := by
  have key : ∀ q : QLearningBehavior,
      ((q.lastState = none ∨ q.lastAction = none) →
        ∀ s a, (q.interact ops now later self target rand).2.1.valueOrZero s a = q.valueOrZero s a) := by
    intro q hnone s a
    obtain ⟨hv, hs, ha, _, _, _⟩ :=
      q.selectAction_frame (q.getState ops self target) rand
    obtain ⟨ht, hs', ha', _, _, _⟩ :=
      (q.selectAction (q.getState ops self target) rand).2.1.execute_frame
        (q.selectAction (q.getState ops self target) rand).1 now later self target
    have hlearn : ((q.selectAction (q.getState ops self target) rand).2.1.execute
        (q.selectAction (q.getState ops self target) rand).1 now later self target).2.learnFromLast
        (q.getState ops self target) =
        ((q.selectAction (q.getState ops self target) rand).2.1.execute
          (q.selectAction (q.getState ops self target) rand).1 now later self target).2 := by
      unfold QLearningBehavior.learnFromLast
      rw [hs', ha', hs, ha]
      rcases hnone with h | h
      · rw [h]
      · rw [h]
        cases q.lastState <;> rfl
    show QLearningBehavior.valueOrZero _ s a = _
    unfold QLearningBehavior.interact
    dsimp only
    rw [hlearn, ← hv s a]
    exact QLearningBehavior.valueOrZero_congr _ _ ht s a
  refine ⟨⟨rfl, rfl, rfl⟩, key q, fun s0 a0 h0 h1 => ?_, fun s a => ?_⟩
  · obtain ⟨hv, hs, ha, hr, hα, hγ⟩ :=
      q.selectAction_frame (q.getState ops self target) rand
    obtain ⟨ht, hs', ha', hr', hα', hγ'⟩ :=
      (q.selectAction (q.getState ops self target) rand).2.1.execute_frame
        (q.selectAction (q.getState ops self target) rand).1 now later self target
    have hv2 : ∀ s a, ((q.selectAction (q.getState ops self target) rand).2.1.execute
        (q.selectAction (q.getState ops self target) rand).1 now later self target).2.valueOrZero s a
        = q.valueOrZero s a := by
      intro s a
      rw [← hv s a]
      exact QLearningBehavior.valueOrZero_congr _ _ ht s a
    have hlearn : ((q.selectAction (q.getState ops self target) rand).2.1.execute
        (q.selectAction (q.getState ops self target) rand).1 now later self target).2.learnFromLast
        (q.getState ops self target) =
        ((q.selectAction (q.getState ops self target) rand).2.1.execute
          (q.selectAction (q.getState ops self target) rand).1 now later self target).2.learn s0 a0
            q.lastReward (q.getState ops self target) := by
      unfold QLearningBehavior.learnFromLast
      rw [hs', ha', hr', hs, ha, hr, h0, h1]
    have hL := QLearningBehavior.learn_valueOrZero
      ((q.selectAction (q.getState ops self target) rand).2.1.execute
        (q.selectAction (q.getState ops self target) rand).1 now later self target).2 s0 a0
      q.lastReward (q.getState ops self target)
    rw [QLearningBehavior.specMax_congr _ _ hv2, hv2, hα', hγ', hα, hγ] at hL
    constructor
    · show QLearningBehavior.valueOrZero _ s0 a0 = _
      unfold QLearningBehavior.interact
      dsimp only
      rw [hlearn]
      exact hL.1
    · intro s2 a2 hne
      show QLearningBehavior.valueOrZero _ s2 a2 = _
      unfold QLearningBehavior.interact
      dsimp only
      rw [hlearn]
      rw [← hv2 s2 a2]
      exact hL.2 s2 a2 hne
  · rw [key QLearningBehavior.new (Or.inl rfl) s a]
    rfl

/-- C22 on two interacts in a row: the first one cooperated (giving 8) in the
state `high_medium_cooperative_none`; the second one, whose state is
`high_medium_cooperative_positive`, moves that Q-value from 0 to
`0.1 * (-8 + 0.9 * 0 - 0) = -0.8`. -/
theorem QLearningBehavior.interact_learns_in_arrears_witness :
    QLearningBehavior.afterFirst.lastState = some "high_medium_cooperative_none" ∧
      QLearningBehavior.afterFirst.lastAction = some QAction.cooperate ∧
      QLearningBehavior.afterFirst.lastReward = -8 ∧
      QLearningBehavior.afterFirst.getState BehaviorOps.idle (Organism.sample 100)
        (Organism.sample 50) = "high_medium_cooperative_positive" ∧
      (QLearningBehavior.afterFirst.interact BehaviorOps.idle 1000 1000 (Organism.sample 100)
        (Organism.sample 50) RandomSource.half).2.1.valueOrZero "high_medium_cooperative_none"
          QAction.cooperate = -(8 / 10) := by
  have h1 : QLearningBehavior.afterFirst.lastState = some "high_medium_cooperative_none" := by
    with_unfolding_all decide
  have h2 : QLearningBehavior.afterFirst.lastAction = some QAction.cooperate := by
    with_unfolding_all decide
  have h3 : QLearningBehavior.afterFirst.lastReward = -8 := by
    with_unfolding_all decide
  have h4 : QLearningBehavior.afterFirst.getState BehaviorOps.idle (Organism.sample 100)
      (Organism.sample 50) = "high_medium_cooperative_positive" := by
    with_unfolding_all decide
  refine ⟨h1, h2, h3, h4, ?_⟩
  rw [((QLearningBehavior.interact_learns_in_arrears BehaviorOps.idle
    QLearningBehavior.afterFirst 1000 1000 (Organism.sample 100) (Organism.sample 50)
    RandomSource.half).2.2.1 "high_medium_cooperative_none" QAction.cooperate h1 h2).1]
  with_unfolding_all decide

/-! ## Frame of the neural learner's steps -/

theorem DeepQLearningBehavior.learn_frame (q : DeepQLearningBehavior) (e : Experience) :
    (q.learn e).exploration = q.exploration ∧ (q.learn e).replay = q.replay :=
  ⟨rfl, rfl⟩

theorem DeepQLearningBehavior.learnAt_frame (q : DeepQLearningBehavior) (index : ℕ) :
    (q.learnAt index).exploration = q.exploration ∧ (q.learnAt index).replay = q.replay := by
  unfold DeepQLearningBehavior.learnAt
  split
  · exact q.learn_frame _
  · exact ⟨rfl, rfl⟩

theorem DeepQLearningBehavior.foldl_learnAt_frame (indices : List ℕ) :
    ∀ q : DeepQLearningBehavior,
      (indices.foldl DeepQLearningBehavior.learnAt q).exploration = q.exploration ∧
        (indices.foldl DeepQLearningBehavior.learnAt q).replay = q.replay := by
  induction indices with
  | nil => exact fun q => ⟨rfl, rfl⟩
  | cons i l ih =>
    intro q
    rw [List.foldl_cons]
    exact ⟨(ih _).1.trans (q.learnAt_frame i).1, (ih _).2.trans (q.learnAt_frame i).2⟩

theorem DeepQLearningBehavior.learnFromReplayBuffer_frame (q : DeepQLearningBehavior)
    (rand : RandomSource) :
    (q.learnFromReplayBuffer rand).1.exploration = q.exploration ∧
      (q.learnFromReplayBuffer rand).1.replay = q.replay := by
  unfold DeepQLearningBehavior.learnFromReplayBuffer
  split_ifs
  · exact ⟨rfl, rfl⟩
  · exact DeepQLearningBehavior.foldl_learnAt_frame _ q

theorem DeepQLearningBehavior.addToReplayBuffer_exploration (q : DeepQLearningBehavior)
    (e : Experience) : (q.addToReplayBuffer e).exploration = q.exploration := by
  unfold DeepQLearningBehavior.addToReplayBuffer
  dsimp only
  split_ifs <;> rfl

theorem DeepQLearningBehavior.execute_exploration {β : Type} (q : DeepQLearningBehavior)
    (action : QAction) (now later : ℚ) (self target : Organism β) :
    (q.execute action now later self target).2.exploration = q.exploration := by
  cases action <;> simp [DeepQLearningBehavior.execute, DeepQLearningBehavior.exploration]

theorem DeepQLearningBehavior.learnFromLast_exploration (q : DeepQLearningBehavior)
    (stateVector : List ℚ) (rand : RandomSource) :
    (q.learnFromLast stateVector rand).1.exploration = q.exploration := by
  unfold DeepQLearningBehavior.learnFromLast
  split
  · rw [(DeepQLearningBehavior.learnFromReplayBuffer_frame _ rand).1]
    exact q.addToReplayBuffer_exploration _
  · rfl

theorem DeepQLearningBehavior.interact_exploration {β : Type} (ops : BehaviorOps β)
    (q : DeepQLearningBehavior) (now later : ℚ) (self target : Organism β) (rand : RandomSource) :
    (q.interact ops now later self target rand).2.1.exploration =
      (max q.minExplorationRate (q.explorationRate * q.explorationDecay), q.explorationDecay,
        q.minExplorationRate) := by
  have h := (q.execute (q.selectAction (q.getStateVector ops self target) rand).1 now later self
    target).2.learnFromLast_exploration (q.getStateVector ops self target)
    (q.selectAction (q.getStateVector ops self target) rand).2
  rw [q.execute_exploration] at h
  simp only [DeepQLearningBehavior.exploration, Prod.mk.injEq] at h
  obtain ⟨h1, h2, h3⟩ := h
  simp only [DeepQLearningBehavior.interact, DeepQLearningBehavior.decayExploration,
    DeepQLearningBehavior.exploration, h1, h2, h3]

/-! ## Exploration decay of the neural learner (C27) -/

theorem decayed_rate_bounds (ε : ℚ) (h1 : 5 / 100 ≤ ε) (h2 : ε ≤ 3 / 10) :
    5 / 100 ≤ max (5 / 100) (ε * (9999 / 10000)) ∧ max (5 / 100) (ε * (9999 / 10000)) ≤ ε ∧
      max (5 / 100) (ε * (9999 / 10000)) ≤ 3 / 10 := by
  have h3 : max (5 / 100) (ε * (9999 / 10000)) ≤ ε := max_le h1 (by linarith)
  exact ⟨le_max_left _ _, h3, h3.trans h2⟩

theorem DeepQLearningBehavior.interacts_exploration {β : Type} (ops : BehaviorOps β)
    (calls : List (ℚ × ℚ × Organism β × Organism β)) :
    ∀ state : DeepQLearningBehavior × RandomSource,
      state.1.explorationDecay = 9999 / 10000 → state.1.minExplorationRate = 5 / 100 →
      5 / 100 ≤ state.1.explorationRate → state.1.explorationRate ≤ 3 / 10 →
      (DeepQLearningBehavior.interacts ops state calls).1.explorationDecay = 9999 / 10000 ∧
        (DeepQLearningBehavior.interacts ops state calls).1.minExplorationRate = 5 / 100 ∧
        5 / 100 ≤ (DeepQLearningBehavior.interacts ops state calls).1.explorationRate ∧
        (DeepQLearningBehavior.interacts ops state calls).1.explorationRate ≤ 3 / 10 := by
  induction calls with
  | nil => exact fun state hd hm h1 h2 => ⟨hd, hm, h1, h2⟩
  | cons c cs ih =>
    intro state hd hm h1 h2
    have h := DeepQLearningBehavior.interact_exploration ops state.1 c.1 c.2.1 c.2.2.1 c.2.2.2
      state.2
    simp only [DeepQLearningBehavior.exploration, Prod.mk.injEq, hd, hm] at h
    obtain ⟨he, hd', hm'⟩ := h
    have hb := decayed_rate_bounds _ h1 h2
    unfold DeepQLearningBehavior.interacts
    rw [List.foldl_cons]
    exact ih _ hd' hm' (by rw [he]; exact hb.1) (by rw [he]; exact hb.2.2)

/-- C27: every `DeepQLearningBehavior.interact` replaces the exploration rate
by `max(minExplorationRate, explorationRate * explorationDecay)`; for a learner
built by the constructor (rate 0.3, decay 0.9999, floor 0.05), after any number
of interactions the rate lies in `[0.05, 0.3]`, and one more interaction
replaces it by `max(0.05, 0.9999 * rate)`, which is not larger. -/
theorem DeepQLearningBehavior.exploration_decay {β : Type} (M : JsMath) (ops : BehaviorOps β)
    (q : DeepQLearningBehavior) (start : RandomSource)
    (calls : List (ℚ × ℚ × Organism β × Organism β)) (now later : ℚ) (self target : Organism β)
    (rand : RandomSource) :
    (q.interact ops now later self target rand).2.1.explorationRate =
        max q.minExplorationRate (q.explorationRate * q.explorationDecay) ∧
      (DeepQLearningBehavior.new M start).1.explorationRate = 3 / 10 ∧
      5 / 100 ≤ (DeepQLearningBehavior.interacts ops (DeepQLearningBehavior.new M start)
        calls).1.explorationRate ∧
      (DeepQLearningBehavior.interacts ops (DeepQLearningBehavior.new M start)
        calls).1.explorationRate ≤ 3 / 10 ∧
      ((DeepQLearningBehavior.interacts ops (DeepQLearningBehavior.new M start)
          calls).1.interact ops now later self target rand).2.1.explorationRate =
        max (5 / 100) (9999 / 10000 * (DeepQLearningBehavior.interacts ops
          (DeepQLearningBehavior.new M start) calls).1.explorationRate) ∧
      ((DeepQLearningBehavior.interacts ops (DeepQLearningBehavior.new M start)
          calls).1.interact ops now later self target rand).2.1.explorationRate ≤
        (DeepQLearningBehavior.interacts ops (DeepQLearningBehavior.new M start)
          calls).1.explorationRate := by
  have hone : ∀ q : DeepQLearningBehavior,
      (q.interact ops now later self target rand).2.1.explorationRate =
        max q.minExplorationRate (q.explorationRate * q.explorationDecay) := by
    intro q
    have h := DeepQLearningBehavior.interact_exploration ops q now later self target rand
    simp only [DeepQLearningBehavior.exploration, Prod.mk.injEq] at h
    exact h.1
  obtain ⟨hd, hm, h1, h2⟩ := DeepQLearningBehavior.interacts_exploration ops calls
    (DeepQLearningBehavior.new M start) rfl rfl
    (by simp only [DeepQLearningBehavior.new]; norm_num)
    (by simp only [DeepQLearningBehavior.new]; norm_num)
  refine ⟨hone q, rfl, h1, h2, ?_, ?_⟩
  · rw [hone, hd, hm, mul_comm]
  · rw [hone, hd, hm]
    exact (decayed_rate_bounds _ h1 h2).2.1

/-! ## Bounded replay buffer (C28) -/

theorem DeepQLearningBehavior.addToReplayBuffer_replay (q : DeepQLearningBehavior)
    (e : Experience) :
    (q.addToReplayBuffer e).replay =
      (if (q.replayBuffer ++ [e]).length > q.maxReplayBufferSize then (q.replayBuffer ++ [e]).tail
        else q.replayBuffer ++ [e], q.maxReplayBufferSize, q.miniBatchSize) := by
  unfold DeepQLearningBehavior.addToReplayBuffer DeepQLearningBehavior.replay
  dsimp only
  split_ifs <;> rfl

theorem DeepQLearningBehavior.addAllToReplayBuffer_length (experiences : List Experience) :
    ∀ q : DeepQLearningBehavior, q.maxReplayBufferSize = 100 → q.replayBuffer.length ≤ 100 →
      (q.addAllToReplayBuffer experiences).replayBuffer.length ≤ 100 := by
  induction experiences with
  | nil => exact fun q _ h => h
  | cons e es ih =>
    intro q hmax hlen
    unfold DeepQLearningBehavior.addAllToReplayBuffer
    rw [List.foldl_cons]
    have h := q.addToReplayBuffer_replay e
    simp only [DeepQLearningBehavior.replay, Prod.mk.injEq, hmax] at h
    refine ih _ h.2.1 ?_
    rw [h.1]
    split_ifs with hgt
    · simp only [List.length_tail, List.length_append, List.length_singleton]
      omega
    · simp only [List.length_append, List.length_singleton] at hgt ⊢
      omega

theorem floorIndex_lt (u : ℚ) (n : ℕ) (h0 : 0 ≤ u) (h1 : u < 1) (hn : 0 < n) :
    floorIndex u n < n := by
  unfold floorIndex
  have hn' : (0 : ℚ) < n := by exact_mod_cast hn
  have hlt : u * n < n := by nlinarith
  have hfl : Int.floor (u * (n : ℚ)) < (n : ℤ) := by
    rw [Int.floor_lt]
    exact_mod_cast hlt
  have hnn : 0 ≤ Int.floor (u * (n : ℚ)) := Int.floor_nonneg.mpr (mul_nonneg h0 hn'.le)
  omega

theorem drawBatchIndices_spec (length : ℕ) (hlen : 0 < length) (n : ℕ) :
    ∀ rand : RandomSource, (∀ k, 0 ≤ rand.draws k ∧ rand.draws k < 1) →
      (drawBatchIndices length n rand).1.length = n ∧
        ∀ i ∈ (drawBatchIndices length n rand).1, i < length := by
  induction n with
  | zero =>
    intro rand _
    exact ⟨rfl, fun i hi => by cases hi⟩
  | succ n ih =>
    intro rand hr
    obtain ⟨h1, h2⟩ := ih rand.next.2 hr
    unfold drawBatchIndices
    dsimp only
    refine ⟨by simp only [List.length_cons, h1], fun i hi => ?_⟩
    rcases List.mem_cons.mp hi with h | h
    · rw [h]
      exact floorIndex_lt _ _ (hr _).1 (hr _).2 hlen
    · exact h2 i h

theorem filterMap_getElem?_length {α : Type} (buffer : List α) (indices : List ℕ)
    (hin : ∀ i ∈ indices, i < buffer.length) :
    (indices.filterMap (fun i => buffer[i]?)).length = indices.length := by
  induction indices with
  | nil => rfl
  | cons i l ih =>
    have hi : i < buffer.length := hin i (List.mem_cons_self _ _)
    rw [List.filterMap_cons, List.getElem?_eq_getElem hi]
    simp only [List.length_cons]
    rw [ih (fun j hj => hin j (List.mem_cons_of_mem _ hj))]

theorem DeepQLearningBehavior.foldl_learnAt_eq (buffer : List Experience) (indices : List ℕ)
    (hin : ∀ i ∈ indices, i < buffer.length) :
    ∀ q : DeepQLearningBehavior, q.replayBuffer = buffer →
      indices.foldl DeepQLearningBehavior.learnAt q =
        (indices.filterMap (fun i => buffer[i]?)).foldl DeepQLearningBehavior.learn q := by
  induction indices with
  | nil => exact fun q _ => rfl
  | cons i l ih =>
    intro q hq
    have hi : i < buffer.length := hin i (List.mem_cons_self _ _)
    have hget : buffer[i]? = some buffer[i] := List.getElem?_eq_getElem hi
    have hstep : q.learnAt i = q.learn buffer[i] := by
      unfold DeepQLearningBehavior.learnAt
      rw [hq, hget]
    have hbuf : (q.learn buffer[i]).replayBuffer = buffer := hq
    rw [List.foldl_cons, hstep, List.filterMap_cons, hget, List.foldl_cons]
    exact ih (fun j hj => hin j (List.mem_cons_of_mem _ hj)) _ hbuf

/-- C28: starting from the constructor's empty buffer, after any sequence of
`addToReplayBuffer` calls the buffer holds at most 100 experiences; adding to a
buffer of 100 drops the oldest experience and appends the new one last, adding
to a shorter buffer only appends; `learnFromReplayBuffer` returns the learner
unchanged while the buffer holds fewer than 10 experiences, and otherwise (the
draws being in `[0, 1)`) runs `learn` on a batch of exactly 10 experiences, each
taken from the buffer. -/
theorem DeepQLearningBehavior.replay_buffer_bounded (M : JsMath) (start : RandomSource)
    (experiences : List Experience) (q : DeepQLearningBehavior) (e : Experience)
    (rand : RandomSource) (hmax : q.maxReplayBufferSize = 100) (hbatch : q.miniBatchSize = 10) :
    ((DeepQLearningBehavior.new M start).1.addAllToReplayBuffer experiences).replayBuffer.length
        ≤ 100 ∧
      (q.replayBuffer.length = 100 →
        (q.addToReplayBuffer e).replayBuffer = q.replayBuffer.tail ++ [e]) ∧
      (q.replayBuffer.length < 100 →
        (q.addToReplayBuffer e).replayBuffer = q.replayBuffer ++ [e]) ∧
      (q.replayBuffer.length < 10 → (q.learnFromReplayBuffer rand).1 = q) ∧
      (10 ≤ q.replayBuffer.length → (∀ k, 0 ≤ rand.draws k ∧ rand.draws k < 1) →
        ∃ batch : List Experience, batch.length = 10 ∧ (∀ x ∈ batch, x ∈ q.replayBuffer) ∧
          (q.learnFromReplayBuffer rand).1 = batch.foldl DeepQLearningBehavior.learn q) := by
  have hadd := q.addToReplayBuffer_replay e
  simp only [DeepQLearningBehavior.replay, Prod.mk.injEq, hmax] at hadd
  refine ⟨DeepQLearningBehavior.addAllToReplayBuffer_length experiences _ rfl (by
      simp [DeepQLearningBehavior.new]), fun hfull => ?_, fun hlt => ?_, fun hlt => ?_,
    fun hge hr => ?_⟩
  · rw [hadd.1, if_pos (by simp only [List.length_append, List.length_singleton]; omega)]
    cases hb : q.replayBuffer with
    | nil => rw [hb] at hfull; cases hfull
    | cons a l => rfl
  · rw [hadd.1, if_neg (by simp only [List.length_append, List.length_singleton]; omega)]
  · unfold DeepQLearningBehavior.learnFromReplayBuffer
    rw [if_pos (by omega)]
  · have hpos : 0 < q.replayBuffer.length := by omega
    obtain ⟨hlen, hin⟩ := drawBatchIndices_spec q.replayBuffer.length hpos q.miniBatchSize rand hr
    refine ⟨(drawBatchIndices q.replayBuffer.length q.miniBatchSize rand).1.filterMap
      (fun i => q.replayBuffer[i]?), ?_, ?_, ?_⟩
    · rw [filterMap_getElem?_length _ _ hin, hlen, hbatch]
    · intro x hx
      rw [List.mem_filterMap] at hx
      obtain ⟨i, _, hi⟩ := hx
      exact List.getElem?_mem hi
    · unfold DeepQLearningBehavior.learnFromReplayBuffer
      rw [if_neg (by omega)]
      exact DeepQLearningBehavior.foldl_learnAt_eq q.replayBuffer _ hin q rfl

/-- C28 on the constructor's learner: the first experience added to the empty
buffer is the only one in it. -/
theorem DeepQLearningBehavior.replay_buffer_bounded_witness :
    DeepQLearningBehavior.sample.maxReplayBufferSize = 100 ∧
      DeepQLearningBehavior.sample.miniBatchSize = 10 ∧
      (DeepQLearningBehavior.sample.addToReplayBuffer Experience.sample).replayBuffer =
        [Experience.sample] ∧
      (DeepQLearningBehavior.sample.learnFromReplayBuffer RandomSource.half).1.replayBuffer =
        [] :=
  ⟨rfl, rfl,
    (DeepQLearningBehavior.replay_buffer_bounded JsMath.crude RandomSource.half []
      DeepQLearningBehavior.sample Experience.sample RandomSource.half rfl rfl).2.2.1
        (by decide),
    by
      rw [(DeepQLearningBehavior.replay_buffer_bounded JsMath.crude RandomSource.half []
        DeepQLearningBehavior.sample Experience.sample RandomSource.half rfl rfl).2.2.2.1
          (by decide)]
      rfl⟩

/-! ## The TD target touches only the taken action (C29) -/

theorem maxOfArray_spec (values : List ℚ) (h : values ≠ []) :
    maxOfArray values ∈ values ∧ ∀ v ∈ values, v ≤ maxOfArray values := by
  unfold maxOfArray
  cases values with
  | nil => exact absurd rfl h
  | cons a l =>
    simp only [List.headD_cons]
    have key : ∀ (l : List ℚ) (m : ℚ),
        (l.foldl max m = m ∨ l.foldl max m ∈ l) ∧ m ≤ l.foldl max m ∧
          ∀ v ∈ l, v ≤ l.foldl max m := by
      intro l
      induction l with
      | nil => exact fun m => ⟨Or.inl rfl, le_refl _, fun v hv => by cases hv⟩
      | cons b l ih =>
        intro m
        rw [List.foldl_cons]
        obtain ⟨h1, h2, h3⟩ := ih (max m b)
        refine ⟨?_, (le_max_left m b).trans h2, fun v hv => ?_⟩
        · rcases h1 with h1 | h1
          · rw [h1]
            rcases max_choice m b with hm | hm
            · exact Or.inl hm
            · exact Or.inr (by rw [hm]; exact List.mem_cons_self _ _)
          · exact Or.inr (List.mem_cons_of_mem _ h1)
        · rcases List.mem_cons.mp hv with hv | hv
          · rw [hv]
            exact (le_max_right m b).trans h2
          · exact h3 v hv
    obtain ⟨h1, h2, h3⟩ := key (a :: l) a
    refine ⟨?_, h3⟩
    rcases h1 with h1 | h1
    · rw [h1]
      exact List.mem_cons_self _ _
    · exact h1

theorem DeepQLearningBehavior.forward_length (q : DeepQLearningBehavior) (stateVector : List ℚ) :
    (q.forward stateVector).length = q.outputSize := by
  simp [DeepQLearningBehavior.forward]

theorem QAction.index_lt (a : QAction) : a.index < 3 := by
  cases a <;> decide

/-- C29: for a learner with three outputs, learning rate 0.05 and discount 0.9,
the target vector of `learn` equals the current prediction `forward(state)` at
every index other than the taken action's index `a`, and is
`r + 0.9 * max Q(nextState)` at `a`, the maximum being the greatest entry of
`forward(nextState)`; one `learn` step leaves `bias2[j]` and every
`weights2[i][j]` unchanged for each `j ≠ a` and changes `bias2[a]` by exactly
`-0.05 * (Q(state)[a] - (r + 0.9 * max Q(nextState)))`. -/
theorem DeepQLearningBehavior.learn_touches_taken_action (q : DeepQLearningBehavior)
    (e : Experience) (hout : q.outputSize = 3) (hα : q.learningRate = 5 / 100)
    (hγ : q.discountFactor = 9 / 10) :
    (∀ j, j ≠ e.action.index →
      (q.targetQ e).getD j 0 = (q.forward e.state).getD j 0) ∧
    (q.targetQ e).getD e.action.index 0 =
      e.reward + 9 / 10 * maxOfArray (q.forward e.nextState) ∧
    (maxOfArray (q.forward e.nextState) ∈ q.forward e.nextState ∧
      ∀ v ∈ q.forward e.nextState, v ≤ maxOfArray (q.forward e.nextState)) ∧
    (∀ j, j ≠ e.action.index →
      (q.learn e).bias2 j = q.bias2 j ∧ ∀ i, (q.learn e).weights2 i j = q.weights2 i j) ∧
    (q.learn e).bias2 e.action.index =
      q.bias2 e.action.index - 5 / 100 *
        ((q.forward e.state).getD e.action.index 0 -
          (e.reward + 9 / 10 * maxOfArray (q.forward e.nextState))) := by
  have hidx : e.action.index < (q.forward e.state).length := by
    rw [q.forward_length, hout]
    exact e.action.index_lt
  have hne : ∀ j, j ≠ e.action.index →
      (q.targetQ e).getD j 0 = (q.forward e.state).getD j 0 := by
    intro j hj
    unfold DeepQLearningBehavior.targetQ
    dsimp only
    rw [List.getD_eq_getElem?_getD, List.getD_eq_getElem?_getD,
      List.getElem?_set_ne (Ne.symm hj)]
  have heq : (q.targetQ e).getD e.action.index 0 =
      e.reward + 9 / 10 * maxOfArray (q.forward e.nextState) := by
    unfold DeepQLearningBehavior.targetQ
    dsimp only
    rw [List.getD_eq_getElem?_getD, List.getElem?_set_self hidx, hγ]
    rfl
  have hnonempty : q.forward e.nextState ≠ [] := by
    intro h
    have := q.forward_length e.nextState
    rw [h, hout] at this
    cases this
  refine ⟨hne, heq, maxOfArray_spec _ hnonempty, fun j hj => ⟨?_, fun i => ?_⟩, ?_⟩
  · show (if j < q.outputSize then
        q.bias2 j - q.learningRate * ((q.forward e.state).getD j 0 - (q.targetQ e).getD j 0)
      else q.bias2 j) = q.bias2 j
    rw [hne j hj]
    split_ifs
    · ring
    · rfl
  · show (if i < q.hiddenSize ∧ j < q.outputSize then
        q.weights2 i j - q.learningRate *
          ((q.forward e.state).getD j 0 - (q.targetQ e).getD j 0) * q.hidden e.state i
      else q.weights2 i j) = q.weights2 i j
    rw [hne j hj]
    split_ifs
    · ring
    · rfl
  · show (if e.action.index < q.outputSize then
        q.bias2 e.action.index - q.learningRate *
          ((q.forward e.state).getD e.action.index 0 - (q.targetQ e).getD e.action.index 0)
      else q.bias2 e.action.index) = _
    rw [if_pos (by rw [hout]; exact e.action.index_lt), heq, hα]

theorem DeepQLearningBehavior.sample_forward :
    DeepQLearningBehavior.sample.forward Experience.sample.state = [3 / 55, 3 / 55, 3 / 55] ∧
      DeepQLearningBehavior.sample.forward Experience.sample.nextState
        = [3 / 55, 3 / 55, 3 / 55] := by
  constructor <;>
  · simp [DeepQLearningBehavior.forward, DeepQLearningBehavior.hidden,
      DeepQLearningBehavior.hiddenInput, DeepQLearningBehavior.sample,
      DeepQLearningBehavior.new, Experience.sample, RandomSource.always, JsMath.crude,
      List.range_succ]
    norm_num

/-- C29 on the sample learner and experience (every Q-value is 3/55, the
reward is -5): the output biases of compete and ignore stay 0 and the bias of
cooperate moves from 0 to `-0.05 * (3/55 - (-5 + 0.9 * 3/55)) = -2753/11000`. -/
theorem DeepQLearningBehavior.learn_touches_taken_action_witness :
    DeepQLearningBehavior.sample.outputSize = 3 ∧
      DeepQLearningBehavior.sample.learningRate = 5 / 100 ∧
      DeepQLearningBehavior.sample.discountFactor = 9 / 10 ∧
      (DeepQLearningBehavior.sample.learn Experience.sample).bias2 1 = 0 ∧
      (DeepQLearningBehavior.sample.learn Experience.sample).bias2 2 = 0 ∧
      (DeepQLearningBehavior.sample.learn Experience.sample).bias2 0 = -(2753 / 11000) :=
  ⟨rfl, rfl, rfl,
    ((DeepQLearningBehavior.learn_touches_taken_action DeepQLearningBehavior.sample
      Experience.sample rfl rfl rfl).2.2.2.1 1 (by decide)).1,
    ((DeepQLearningBehavior.learn_touches_taken_action DeepQLearningBehavior.sample
      Experience.sample rfl rfl rfl).2.2.2.1 2 (by decide)).1,
    by
      refine ((DeepQLearningBehavior.learn_touches_taken_action DeepQLearningBehavior.sample
        Experience.sample rfl rfl rfl).2.2.2.2).trans ?_
      rw [DeepQLearningBehavior.sample_forward.1, DeepQLearningBehavior.sample_forward.2]
      norm_num [DeepQLearningBehavior.sample, DeepQLearningBehavior.new, Experience.sample,
        QAction.index, maxOfArray]⟩

/-! ## Default target selection (C32) -/

theorem FirstMinimum.le_of_mem {α : Type} {key : α → ℚ} {l : List α} {e : α}
    (h : FirstMinimum key l e) : e ∈ l ∧ ∀ x ∈ l, key e ≤ key x := by
  obtain ⟨before, after, hl, hb, ha⟩ := h
  subst hl
  refine ⟨by simp, fun x hx => ?_⟩
  rcases List.mem_append.mp hx with h1 | h1
  · exact (hb x h1).le
  · rcases List.mem_cons.mp h1 with h2 | h2
    · rw [h2]
    · exact ha x h2

/-- The state of the loop of `selectTarget` after a list: nothing selected on
the empty list, otherwise a first minimum together with its distance. -/
theorem closerOf_foldl {β : Type} (self : Organism β) (l : List (ℕ × Organism β)) :
    (l = [] ∧ l.foldl (closerOf self) (none, none) = (none, none)) ∨
      ∃ e, l.foldl (closerOf self) (none, none) =
          (some e, some (distanceSquared e.2.position self.position)) ∧
        FirstMinimum (fun x => distanceSquared x.2.position self.position) l e := by
  induction l using List.reverseRecOn with
  | nil => exact Or.inl ⟨rfl, rfl⟩
  | append_singleton l x ih =>
    right
    rw [List.foldl_append, List.foldl_cons, List.foldl_nil]
    rcases ih with ⟨hl, hf⟩ | ⟨e, hf, hmin⟩
    · rw [hf, hl]
      exact ⟨x, rfl, ⟨[], [], rfl, fun _ h => absurd h (List.not_mem_nil _),
        fun _ h => absurd h (List.not_mem_nil _)⟩⟩
    · rw [hf]
      unfold closerOf
      dsimp only
      by_cases hlt : distanceSquared x.2.position self.position <
          distanceSquared e.2.position self.position
      · rw [if_pos hlt]
        exact ⟨x, rfl, ⟨l, [], rfl, fun y hy => lt_of_lt_of_le hlt (hmin.le_of_mem.2 y hy),
          fun _ h => absurd h (List.not_mem_nil _)⟩⟩
      · rw [if_neg hlt]
        obtain ⟨before, after, hl, hb, ha⟩ := hmin
        refine ⟨e, rfl, ⟨before, after ++ [x], by rw [hl]; simp, hb, fun y hy => ?_⟩⟩
        rcases List.mem_append.mp hy with h1 | h1
        · exact ha y h1
        · rw [List.mem_singleton.mp h1]
          exact not_lt.mp hlt

theorem BaseBehavior.selectTarget_spec {β : Type} (self : Organism β)
    (l : List (ℕ × Organism β)) :
    (l = [] → BaseBehavior.selectTarget self l = none) ∧
      (l ≠ [] → ∃ e, BaseBehavior.selectTarget self l = some e ∧
        FirstMinimum (fun x => distanceSquared x.2.position self.position) l e) := by
  unfold BaseBehavior.selectTarget
  rcases closerOf_foldl self l with ⟨hl, hf⟩ | ⟨e, hf, hmin⟩
  · exact ⟨fun _ => by rw [hf], fun h => absurd hl h⟩
  · refine ⟨fun h => ?_, fun _ => ⟨e, by rw [hf], hmin⟩⟩
    have := hmin.le_of_mem.1
    rw [h] at this
    cases this

/-- C32: `BaseBehavior.selectTarget` returns none for the empty list and, for
every non-empty list of neighbours, an element of the list whose squared planar
distance to self is minimal and which is the first such element in list order
(every neighbour before it is strictly farther); `BaseBehavior.interact`
returns `(2, 2)`. -/
theorem BaseBehavior.selectTarget_nearest_first {β : Type} (self target : Organism β)
    (nearbyEntities : List (ℕ × Organism β)) :
    (BaseBehavior.selectTarget self ([] : List (ℕ × Organism β)) = none) ∧
    (nearbyEntities ≠ [] →
      ∃ e before after, BaseBehavior.selectTarget self nearbyEntities = some e ∧
        nearbyEntities = before ++ e :: after ∧
        (∀ x ∈ nearbyEntities,
          distanceSquared e.2.position self.position ≤
            distanceSquared x.2.position self.position) ∧
        (∀ x ∈ before,
          distanceSquared e.2.position self.position <
            distanceSquared x.2.position self.position)) ∧
    BaseBehavior.interact self target = { selfEnergyDelta := 2, targetEnergyDelta := 2 } := by
  refine ⟨rfl, fun hne => ?_, rfl⟩
  obtain ⟨e, he, hmin⟩ := (BaseBehavior.selectTarget_spec self nearbyEntities).2 hne
  obtain ⟨before, after, hl, hb, ha⟩ := id hmin
  exact ⟨e, before, after, he, hl, hmin.le_of_mem.2, hb⟩

/-- C32 on two neighbours at the same distance 3: the first one is returned. -/
theorem BaseBehavior.selectTarget_nearest_first_witness :
    sampleNeighbours ≠ [] ∧
      (BaseBehavior.selectTarget (Organism.sample 50) sampleNeighbours).map (fun e => e.1)
        = some 1 ∧
      ∃ e before after,
        BaseBehavior.selectTarget (Organism.sample 50) sampleNeighbours = some e ∧
        sampleNeighbours = before ++ e :: after ∧
        (∀ x ∈ sampleNeighbours,
          distanceSquared e.2.position (Organism.sample 50).position ≤
            distanceSquared x.2.position (Organism.sample 50).position) ∧
        (∀ x ∈ before,
          distanceSquared e.2.position (Organism.sample 50).position <
            distanceSquared x.2.position (Organism.sample 50).position) :=
  ⟨by simp [sampleNeighbours], by with_unfolding_all decide,
    (BaseBehavior.selectTarget_nearest_first (Organism.sample 50) (Organism.sample 50)
      sampleNeighbours).2.1 (by simp [sampleNeighbours])⟩

/-! ## Aggressive target selection (C33) -/

/-- C33: if some neighbour is weaker than self (energy below self's energy or
size below self's size), `AggressiveBehavior.selectTarget` returns a weaker
neighbour, and no weaker neighbour is strictly nearer to self; if no neighbour
is weaker, it returns a neighbour that no neighbour is strictly nearer than
(none for the empty list). -/
theorem AggressiveBehavior.selectTarget_weaker_nearest {β : Type} (self : Organism β)
    (nearbyEntities : List (ℕ × Organism β)) :
    ((∃ x ∈ nearbyEntities, x.2.energy < self.energy ∨ x.2.size < self.size) →
      ∃ e, AggressiveBehavior.selectTarget self nearbyEntities = some e ∧
        e ∈ nearbyEntities ∧ (e.2.energy < self.energy ∨ e.2.size < self.size) ∧
        ∀ x ∈ nearbyEntities, (x.2.energy < self.energy ∨ x.2.size < self.size) →
          distanceSquared e.2.position self.position ≤
            distanceSquared x.2.position self.position) ∧
    ((∀ x ∈ nearbyEntities, ¬ (x.2.energy < self.energy ∨ x.2.size < self.size)) →
      nearbyEntities ≠ [] →
      ∃ e, AggressiveBehavior.selectTarget self nearbyEntities = some e ∧
        e ∈ nearbyEntities ∧
        ∀ x ∈ nearbyEntities,
          distanceSquared e.2.position self.position ≤
            distanceSquared x.2.position self.position) ∧
    (nearbyEntities = [] → AggressiveBehavior.selectTarget self nearbyEntities = none) := by
  have hmem : ∀ x : ℕ × Organism β,
      x ∈ nearbyEntities.filter (fun entity =>
        decide (entity.2.energy < self.energy) || decide (entity.2.size < self.size)) ↔
      x ∈ nearbyEntities ∧ (x.2.energy < self.energy ∨ x.2.size < self.size) := by
    intro x
    simp [List.mem_filter]
  refine ⟨fun ⟨x, hx, hw⟩ => ?_, fun hnone hne => ?_, fun hnil => ?_⟩
  · have hne : nearbyEntities.filter (fun entity =>
        decide (entity.2.energy < self.energy) || decide (entity.2.size < self.size)) ≠ [] :=
      List.ne_nil_of_mem ((hmem x).mpr ⟨hx, hw⟩)
    obtain ⟨e, he, hmin⟩ := (BaseBehavior.selectTarget_spec self _).2 hne
    refine ⟨e, ?_, ((hmem e).mp hmin.le_of_mem.1).1, ((hmem e).mp hmin.le_of_mem.1).2,
      fun y hy hyw => hmin.le_of_mem.2 y ((hmem y).mpr ⟨hy, hyw⟩)⟩
    unfold AggressiveBehavior.selectTarget
    dsimp only
    rw [if_pos (List.length_pos.mpr hne)]
    exact he
  · have hempty : nearbyEntities.filter (fun entity =>
        decide (entity.2.energy < self.energy) || decide (entity.2.size < self.size)) = [] := by
      rw [List.filter_eq_nil_iff]
      intro y hy
      have := hnone y hy
      simpa using this
    obtain ⟨e, he, hmin⟩ := (BaseBehavior.selectTarget_spec self nearbyEntities).2 hne
    refine ⟨e, ?_, hmin.le_of_mem.1, hmin.le_of_mem.2⟩
    unfold AggressiveBehavior.selectTarget
    dsimp only
    rw [hempty]
    exact he
  · subst hnil
    rfl

/-- C33 on a self of energy 50 with two neighbours at the same distance: the
second one (energy 20) is weaker and is returned, the first one (energy 100,
same size) is not weaker. -/
theorem AggressiveBehavior.selectTarget_weaker_nearest_witness :
    (AggressiveBehavior.selectTarget (Organism.sample 50) sampleNeighbours).map
        (fun e => e.1) = some 2 ∧
      ∃ e, AggressiveBehavior.selectTarget (Organism.sample 50) sampleNeighbours = some e ∧
        e ∈ sampleNeighbours ∧
        (e.2.energy < (Organism.sample 50).energy ∨ e.2.size < (Organism.sample 50).size) ∧
        ∀ x ∈ sampleNeighbours,
          (x.2.energy < (Organism.sample 50).energy ∨ x.2.size < (Organism.sample 50).size) →
          distanceSquared e.2.position (Organism.sample 50).position ≤
            distanceSquared x.2.position (Organism.sample 50).position :=
  ⟨by with_unfolding_all decide,
    (AggressiveBehavior.selectTarget_weaker_nearest (Organism.sample 50) sampleNeighbours).1
      ⟨(2, { Organism.sample 20 with meshId := 3, position := ⟨0, 0, 3⟩ }),
        by simp [sampleNeighbours], Or.inl (by with_unfolding_all decide)⟩⟩

/-! ## Tit-for-tat never retaliates on its own (C36) -/

theorem Memory.set_forall (m : Memory) (id : ℕ) (e : MemoryEntry)
    (P : ℕ × MemoryEntry → Prop) (hm : ∀ kv ∈ m, P kv) (he : P (id, e)) :
    ∀ kv ∈ m.set id e, P kv := by
  intro kv hkv
  unfold Memory.set at hkv
  split at hkv
  · rw [List.mem_map] at hkv
    obtain ⟨x, hx, hxe⟩ := hkv
    by_cases hk : (x.1 == id) = true
    · rw [if_pos hk] at hxe
      rw [← hxe]
      exact he
    · rw [if_neg hk] at hxe
      rw [← hxe]
      exact hm x hx
  · rcases List.mem_append.mp hkv with h | h
    · exact hm kv h
    · rw [List.mem_singleton.mp h]
      exact he

theorem BaseBehavior.rememberInteraction_forall (b : BaseBehavior) (id : ℕ) (p : Bool)
    (now later : ℚ) (P : ℕ × MemoryEntry → Prop) (hm : ∀ kv ∈ b.memory, P kv)
    (he : P (id, { wasPositive := p, timestamp := now })) :
    ∀ kv ∈ (b.rememberInteraction id p now later).memory, P kv := by
  have hset := Memory.set_forall b.memory id { wasPositive := p, timestamp := now } P hm he
  intro kv hkv
  unfold BaseBehavior.rememberInteraction BaseBehavior.cleanMemory at hkv
  dsimp only at hkv
  split_ifs at hkv
  · exact hset kv hkv
  · exact hset kv (List.mem_of_mem_filter hkv)
  · exact hset kv hkv

theorem TitForTatBehavior.interact_of_positive {β : Type} (b : BaseBehavior) (now later : ℚ)
    (self target : Organism β) (h : ∀ kv ∈ b.memory, kv.2.wasPositive = true) :
    TitForTatBehavior.interact b now later self target =
      ({ selfEnergyDelta := -5, targetEnergyDelta := 5 },
        b.rememberInteraction target.meshId true now later) := by
  unfold TitForTatBehavior.interact
  cases hg : b.getLastInteraction target.meshId with
  | none => rfl
  | some e =>
    have hp : e.wasPositive = true := h _ (Memory.get_mem _ _ _ hg)
    simp only [hp, if_true]

theorem TitForTatBehavior.interacts_positive {β : Type}
    (calls : List (ℚ × ℚ × Organism β × Organism β)) :
    ∀ b : BaseBehavior, (∀ kv ∈ b.memory, kv.2.wasPositive = true) →
      ∀ kv ∈ (TitForTatBehavior.interacts b calls).memory, kv.2.wasPositive = true := by
  induction calls with
  | nil => exact fun b h => h
  | cons c cs ih =>
    intro b h
    unfold TitForTatBehavior.interacts
    rw [List.foldl_cons]
    refine ih _ ?_
    rw [TitForTatBehavior.interact_of_positive b c.1 c.2.1 c.2.2.1 c.2.2.2 h]
    exact b.rememberInteraction_forall _ _ _ _ _ h rfl

/-- C36: for a TitForTat behaviour with any memory settings and an empty
memory, after any sequence of its `interact` calls (any selves, targets and
clock readings) every memory entry is positive, and one more `interact`
returns `(-5, +5)` and records a positive entry: the retaliation branch is
never reached. -/
theorem TitForTatBehavior.never_retaliates_first {β : Type} (b : BaseBehavior)
    (calls : List (ℚ × ℚ × Organism β × Organism β)) (now later : ℚ) (self target : Organism β) :
    (∀ kv ∈ (TitForTatBehavior.interacts { b with memory := [] } calls).memory,
        kv.2.wasPositive = true) ∧
      TitForTatBehavior.interact (TitForTatBehavior.interacts { b with memory := [] } calls)
          now later self target =
        ({ selfEnergyDelta := -5, targetEnergyDelta := 5 },
          (TitForTatBehavior.interacts { b with memory := [] } calls).rememberInteraction
            target.meshId true now later) := by
  have h := TitForTatBehavior.interacts_positive calls { b with memory := [] }
    (fun _ hkv => absurd hkv (List.not_mem_nil _))
  exact ⟨h, TitForTatBehavior.interact_of_positive _ now later self target h⟩

/-! ## Collision rejection in `move` (C34) -/

theorem Organism.checkCollision_isSome_iff {β : Type} (o : Organism β) (p : Vec3)
    (w : World β) (i : ℕ) :
    (o.checkCollision p w i).isSome = true ↔
      (∃ j q, w.entities[j]? = some q ∧ j ≠ i ∧ q.isAlive = true ∧
        distanceSquared p q.position < (8 / 10 * o.size + 8 / 10 * q.size) ^ 2) ∨
      (∃ (k : ℕ) (ob : Obstacle) (r : ℚ), w.obstacles[k]? = some ob ∧ ob.boundingRadius = some r ∧
        distanceSquared p ob.position < (8 / 10 * o.size + r) ^ 2) := by
  have he : ∀ je : ℕ × Organism β,
      (if je.1 = i ∨ je.2.isAlive = false then false
        else decide (distanceSquared p je.2.position <
          (o.getBoundingRadius + je.2.getBoundingRadius) *
            (o.getBoundingRadius + je.2.getBoundingRadius))) = true ↔
      (je.1 ≠ i ∧ je.2.isAlive = true ∧
        distanceSquared p je.2.position < (8 / 10 * o.size + 8 / 10 * je.2.size) ^ 2) := by
    intro je
    have hr : (o.getBoundingRadius + je.2.getBoundingRadius) *
        (o.getBoundingRadius + je.2.getBoundingRadius) =
        (8 / 10 * o.size + 8 / 10 * je.2.size) ^ 2 := by
      simp only [Organism.getBoundingRadius]
      ring
    rw [hr]
    by_cases hc : je.1 = i ∨ je.2.isAlive = false
    · rw [if_pos hc]
      constructor
      · intro h
        cases h
      · rintro ⟨hne, ha, _⟩
        rcases hc with hc | hc
        · exact absurd hc hne
        · rw [ha] at hc
          cases hc
    · rw [if_neg hc, decide_eq_true_eq]
      have hne : je.1 ≠ i := fun e => hc (Or.inl e)
      have ha : je.2.isAlive = true := by
        cases hb : je.2.isAlive
        · exact absurd (Or.inr hb) hc
        · rfl
      exact ⟨fun h => ⟨hne, ha, h⟩, fun h => h.2.2⟩
  have ho : ∀ ko : ℕ × Obstacle,
      (match ko.2.boundingRadius with
        | none => false
        | some obstacleRadius =>
          decide (distanceSquared p ko.2.position <
            (o.getBoundingRadius + obstacleRadius) * (o.getBoundingRadius + obstacleRadius)))
          = true ↔
      ∃ r, ko.2.boundingRadius = some r ∧
        distanceSquared p ko.2.position < (8 / 10 * o.size + r) ^ 2 := by
    intro ko
    cases hr : ko.2.boundingRadius with
    | none =>
      constructor
      · intro h
        cases h
      · rintro ⟨r, h, _⟩
        cases h
    | some r =>
      have hq : (o.getBoundingRadius + r) * (o.getBoundingRadius + r) =
          (8 / 10 * o.size + r) ^ 2 := by
        simp only [Organism.getBoundingRadius]
        ring
      simp only [decide_eq_true_eq, hq]
      exact ⟨fun h => ⟨r, rfl, h⟩, fun ⟨r', h1, h2⟩ => by
        rw [← Option.some.inj h1] at h2
        exact h2⟩
  unfold Organism.checkCollision indexed
  dsimp only
  split
  · rename_i je hfind
    have hmem := List.mem_enum_iff_getElem?.mp (List.mem_of_find?_eq_some hfind)
    have hp0 := List.find?_some hfind
    have hp := (he je).mp hp0
    simp only [Option.isSome_some, true_iff]
    exact Or.inl ⟨je.1, je.2, hmem, hp⟩
  · rename_i hnone
    have hno : ∀ j q, w.entities[j]? = some q → ¬ (j ≠ i ∧ q.isAlive = true ∧
        distanceSquared p q.position < (8 / 10 * o.size + 8 / 10 * q.size) ^ 2) := by
      intro j q hj hq
      have := List.find?_eq_none.mp hnone (j, q) (List.mem_enum_iff_getElem?.mpr hj)
      exact this ((he (j, q)).mpr hq)
    split
    · rename_i ko hfind
      have hmem := List.mem_enum_iff_getElem?.mp (List.mem_of_find?_eq_some hfind)
      have hp0 := List.find?_some hfind
      obtain ⟨r, hr, hd⟩ := (ho ko).mp hp0
      simp only [Option.isSome_some, true_iff]
      exact Or.inr ⟨ko.1, ko.2, r, hmem, hr, hd⟩
    · rename_i hnone2
      simp only [Option.isSome_none, Bool.false_eq_true, false_iff]
      rintro (⟨j, q, hj, hq⟩ | ⟨k, ob, r, hk, hr, hd⟩)
      · exact hno j q hj hq
      · have := List.find?_eq_none.mp hnone2 (k, ob) (List.mem_enum_iff_getElem?.mpr hk)
        exact this ((ho (k, ob)).mpr ⟨r, hr, hd⟩)

theorem Organism.handleCollision_frame {β : Type} (M : JsMath) (o : Organism β)
    (c : Collision) (w : World β) (rand : RandomSource) :
    (o.handleCollision M c w rand).1.size = o.size ∧
      (o.handleCollision M c w rand).1.previousPosition = o.previousPosition ∧
      (o.handleCollision M c w rand).1.position = o.position := by
  unfold Organism.handleCollision
  dsimp only
  split <;> exact ⟨rfl, rfl, rfl⟩

/-- C34: `checkCollision(p)` reports a collision exactly when some other living
organism `q` has `dist²(p, q) < (0.8 * size + 0.8 * size_q)²` or some obstacle
with a radius has `dist²(p, o) < (0.8 * size + radius_o)²`.  In `move`, a
proposed position without collision is taken; when it collides, the position
before clamping is the pre-tick position, or the pre-tick position plus
`0.2 * speed * dt` times the avoidance direction held after the collision was
handled, the latter only if that point is collision-free; and a collision
handled at least 0.5 s after the previous one sets the avoidance timer to 2. -/
theorem Organism.collision_rejection {β : Type} (M : JsMath) (deltaTime : ℚ) (w : World β)
    (i : ℕ) (o : Organism β) (p : Vec3) (c : Collision) (rand : RandomSource) :
    ((o.checkCollision p w i).isSome = true ↔
      (∃ j q, w.entities[j]? = some q ∧ j ≠ i ∧ q.isAlive = true ∧
        distanceSquared p q.position < (8 / 10 * o.size + 8 / 10 * q.size) ^ 2) ∨
      (∃ (k : ℕ) (ob : Obstacle) (r : ℚ), w.obstacles[k]? = some ob ∧ ob.boundingRadius = some r ∧
        distanceSquared p ob.position < (8 / 10 * o.size + r) ^ 2)) ∧
    ((o.checkCollision (o.proposedPosition deltaTime) w i).isSome = false →
      (o.displace M deltaTime w i rand).1.position = o.proposedPosition deltaTime) ∧
    ((o.checkCollision (o.proposedPosition deltaTime) w i).isSome = true →
      (o.displace M deltaTime w i rand).1.position = o.previousPosition ∨
      ∃ d, (o.displace M deltaTime w i rand).1.avoidanceDirection = some d ∧
        (o.displace M deltaTime w i rand).1.position = o.avoidanceStep deltaTime d ∧
        (o.checkCollision (o.avoidanceStep deltaTime d) w i).isSome = false) ∧
    (¬ (o.age - o.lastCollisionTime < 5 / 10) →
      (o.handleCollision M c w rand).1.collisionAvoidanceTime = 2) := by
  refine ⟨o.checkCollision_isSome_iff p w i, fun hfree => ?_, fun hhit => ?_, fun hfresh => ?_⟩
  · unfold Organism.displace
    dsimp only
    have hnone : o.checkCollision (o.proposedPosition deltaTime) w i = none := by
      cases hc : o.checkCollision (o.proposedPosition deltaTime) w i with
      | none => rfl
      | some c => simp [hc] at hfree
    unfold Organism.proposedPosition at hnone
    rw [hnone]
    rfl
  · cases hc : o.checkCollision (o.proposedPosition deltaTime) w i with
    | none => simp [hc] at hhit
    | some c' =>
      obtain ⟨hsize, hprev, _⟩ := Organism.handleCollision_frame M o c' w rand
      unfold Organism.proposedPosition at hc
      unfold Organism.displace
      dsimp only
      rw [hc]
      dsimp only
      cases hd : (o.handleCollision M c' w rand).1.avoidanceDirection with
      | none =>
        left
        simp only [hd]
        exact hprev
      | some d =>
        simp only [hd]
        split_ifs with hfree
        · right
          refine ⟨d, rfl, ?_, ?_⟩
          · simp only [hprev, Organism.avoidanceStep]
          · have hnone : o.checkCollision (o.avoidanceStep deltaTime d) w i = none := by
              rw [Option.isNone_iff_eq_none] at hfree
              rw [← hfree]
              unfold Organism.checkCollision Organism.getBoundingRadius Organism.avoidanceStep
              simp only [hsize, hprev]
            rw [hnone]
            rfl
        · left
          exact hprev
  · unfold Organism.handleCollision
    dsimp only
    rw [if_neg hfresh]

/-- C34 on two unit organisms at the origin and at `(2, 0, 0)`: the step of the
first to `(1, 0, 0)` collides with the second (squared distance 1 below
`1.6²`); the collision comes less than 0.5 s after the last one recorded, so
no avoidance direction is set and the organism stays at its pre-tick
position. -/
theorem Organism.collision_rejection_witness :
    ((Organism.sample 100).checkCollision ((Organism.sample 100).proposedPosition 1)
        World.blocked 0).isSome = true ∧
      ((Organism.sample 100).displace JsMath.crude 1 World.blocked 0
        RandomSource.half).1.position = ⟨0, 0, 0⟩ ∧
      (((Organism.sample 100).displace JsMath.crude 1 World.blocked 0
          RandomSource.half).1.position = (Organism.sample 100).previousPosition ∨
        ∃ d, ((Organism.sample 100).displace JsMath.crude 1 World.blocked 0
            RandomSource.half).1.avoidanceDirection = some d ∧
          ((Organism.sample 100).displace JsMath.crude 1 World.blocked 0
            RandomSource.half).1.position = (Organism.sample 100).avoidanceStep 1 d ∧
          ((Organism.sample 100).checkCollision ((Organism.sample 100).avoidanceStep 1 d)
            World.blocked 0).isSome = false) :=
  ⟨by with_unfolding_all decide, by with_unfolding_all decide,
    (Organism.collision_rejection JsMath.crude 1 World.blocked 0 (Organism.sample 100)
      ⟨0, 0, 0⟩ (Collision.entity 1) RandomSource.half).2.2.1 (by with_unfolding_all decide)⟩

/-! ## Interaction strength (C35) -/

/-- What `interactWithTarget` does to the two energies, for a living target:
the deltas are scaled by `interactionStrength || 1.0`, which is the strength
itself unless the strength is 0; a target that is not alive leaves the world
and the random stream as they were. -/
theorem Organism.interactWithTarget_energies {β : Type} (ops : BehaviorOps β) (now : ℚ)
    (w : World β) (i j : ℕ) (rand : RandomSource) (self target : Organism β)
    (hi : w.entities[i]? = some self) (hj : w.entities[j]? = some target) (hij : i ≠ j) :
    (target.isAlive = true →
      ((Organism.interactWithTarget ops now w i j rand).1.entities[i]?).map (fun o => o.energy) =
          some (min (self.energy + (ops.interact self.behavior now self target rand).1.selfEnergyDelta *
            jsOr (some (ops.interactionStrength
              (ops.interact self.behavior now self target rand).2.1)) 1) 150) ∧
        ((Organism.interactWithTarget ops now w i j rand).1.entities[j]?).map (fun o => o.energy) =
          some (min (target.energy +
            (ops.interact self.behavior now self target rand).1.targetEnergyDelta *
            jsOr (some (ops.interactionStrength
              (ops.interact self.behavior now self target rand).2.1)) 1) 150)) ∧
    (target.isAlive = false → Organism.interactWithTarget ops now w i j rand = (w, rand)) ∧
    (∀ s : ℚ, s ≠ 0 → jsOr (some s) 1 = s) ∧ jsOr (some 0) 1 = 1 := by
  have hji : j ≠ i := fun h => hij h.symm
  refine ⟨fun halive => ?_, fun hdead => ?_, fun s hs => jsOr_some_of_ne s 1 hs, rfl⟩
  · unfold Organism.interactWithTarget
    rw [hi, hj]
    simp only [halive, Bool.true_eq_false, if_false]
    constructor
    · simp only [World.modifyEntity_getElem?, if_pos, if_neg hij, hi, Option.map_some',
        Option.map_map]
    · simp only [World.modifyEntity_getElem?, if_pos, if_neg hji, hj, Option.map_some',
        Option.map_map]
  · unfold Organism.interactWithTarget
    rw [hi, hj]
    simp only [hdead, if_true]

/-- C35 at interaction strength 0: two cooperative organisms of energy 100 and
50 whose behaviour has `interactionStrength = 0`; after `interactWithTarget`
the energies are 94.4 and 58, the transfer of strength 1, not 100 and 50. -/
theorem Organism.interactWithTarget_at_strength_zero :
    World.muted.entities.map (fun o => (o.behavior.interactionStrength, o.energy, o.isAlive)) =
        [(0, 100, true), (0, 50, true)] ∧
      (Organism.interactWithTarget BehaviorOps.cooperative 0 World.muted 0 1
        RandomSource.half).1.entities.map (fun o => o.energy) = [944 / 10, 58] := by
  with_unfolding_all decide

/-! ## Population safety net (C31) -/

theorem SimulationManager.addOrganism_entities {β : Type} (M : JsMath) (ops : BehaviorOps β)
    (sim : SimulationManager β) (behaviorType : Option BehaviorType) (rand : RandomSource) :
    ∃ organism, (sim.addOrganism M ops behaviorType rand).1.world.entities =
      sim.world.entities ++ [organism] :=
  ⟨_, rfl⟩

theorem SimulationManager.addOrganisms_entities {β : Type} (M : JsMath) (ops : BehaviorOps β)
    (n : ℕ) :
    ∀ state : SimulationManager β × RandomSource,
      ∃ added : List (Organism β), added.length = n ∧
        (SimulationManager.addOrganisms M ops n state).1.world.entities =
          state.1.world.entities ++ added := by
  induction n with
  | zero => exact fun state => ⟨[], rfl, (List.append_nil _).symm⟩
  | succ n ih =>
    intro state
    obtain ⟨organism, h1⟩ := state.1.addOrganism_entities M ops none state.2
    obtain ⟨added, hlen, h2⟩ := ih (state.1.addOrganism M ops none state.2)
    refine ⟨organism :: added, by simp [hlen], ?_⟩
    unfold SimulationManager.addOrganisms
    rw [h2, h1, List.append_assoc]
    rfl

/-- C31: a paused `update` returns the manager and the random stream unchanged.
Otherwise, with `n` the number of organisms alive at the start of the tick,
the safety net at the end of the tick appends to the world's organisms, as they
are after the rest of the tick: exactly 5 organisms when `n = 0`; exactly one
when `n` is 1 or 2 and the draw made at that point is below 0.1, and none when
that draw is not below 0.1; none when `n ≥ 3`. -/
theorem SimulationManager.update_safety_net {β : Type} (M : JsMath) (ops : BehaviorOps β)
    (configure : β → BehaviorParameters → β) (deltaTime now : ℚ) (sim : SimulationManager β)
    (rand : RandomSource) :
    (sim.isPaused = true → sim.update M ops configure deltaTime now rand = (sim, rand)) ∧
    (sim.isPaused = false →
      (livingCount sim.world.entities = 0 →
        ∃ added : List (Organism β), added.length = 5 ∧
          (sim.update M ops configure deltaTime now rand).1.world.entities =
            (sim.beforeSafetyNet M ops configure deltaTime now rand).1.world.entities ++ added) ∧
      (0 < livingCount sim.world.entities → livingCount sim.world.entities < 3 →
        ((sim.beforeSafetyNet M ops configure deltaTime now rand).2.next.1 < 1 / 10 →
          ∃ organism,
            (sim.update M ops configure deltaTime now rand).1.world.entities =
              (sim.beforeSafetyNet M ops configure deltaTime now rand).1.world.entities ++
                [organism]) ∧
        (¬ (sim.beforeSafetyNet M ops configure deltaTime now rand).2.next.1 < 1 / 10 →
          (sim.update M ops configure deltaTime now rand).1.world.entities =
            (sim.beforeSafetyNet M ops configure deltaTime now rand).1.world.entities)) ∧
      (3 ≤ livingCount sim.world.entities →
        (sim.update M ops configure deltaTime now rand).1.world.entities =
          (sim.beforeSafetyNet M ops configure deltaTime now rand).1.world.entities)) := by
  refine ⟨fun hp => ?_, fun hp => ⟨fun h0 => ?_, fun hpos hlt => ⟨fun hu => ?_, fun hu => ?_⟩,
    fun h3 => ?_⟩⟩
  · unfold SimulationManager.update
    rw [hp, if_pos rfl]
  · unfold SimulationManager.update SimulationManager.safetyNet
    rw [hp, if_neg (by simp), if_pos h0]
    exact SimulationManager.addOrganisms_entities M ops 5 _
  · unfold SimulationManager.update SimulationManager.safetyNet
    rw [hp, if_neg (by simp), if_neg (by omega), if_pos hlt, if_pos hu]
    exact SimulationManager.addOrganism_entities M ops _ none _
  · unfold SimulationManager.update SimulationManager.safetyNet
    rw [hp, if_neg (by simp), if_neg (by omega), if_pos hlt, if_neg hu]
  · unfold SimulationManager.update SimulationManager.safetyNet
    rw [hp, if_neg (by simp), if_neg (by omega), if_neg (by omega)]

/-- C31 on a world without organisms: the tick ends by appending 5 organisms;
and the same manager, paused, is left as it is. -/
theorem SimulationManager.update_safety_net_witness :
    (∃ added : List (Organism Unit), added.length = 5 ∧
      (SimulationManager.extinct.update JsMath.crude BehaviorOps.idle (fun b _ => b) 1 0
          RandomSource.half).1.world.entities =
        (SimulationManager.extinct.beforeSafetyNet JsMath.crude BehaviorOps.idle (fun b _ => b)
          1 0 RandomSource.half).1.world.entities ++ added) ∧
      ({ SimulationManager.extinct with isPaused := true } : SimulationManager Unit).update
          JsMath.crude BehaviorOps.idle (fun b _ => b) 1 0 RandomSource.half =
        ({ SimulationManager.extinct with isPaused := true }, RandomSource.half) :=
  ⟨((SimulationManager.update_safety_net JsMath.crude BehaviorOps.idle (fun b _ => b) 1 0
      SimulationManager.extinct RandomSource.half).2 rfl).1 rfl,
    (SimulationManager.update_safety_net JsMath.crude BehaviorOps.idle (fun b _ => b) 1 0
      { SimulationManager.extinct with isPaused := true } RandomSource.half).1 rfl⟩

/-! ## Target selection is closed over the neighbour list (C37) -/

theorem ClosedOver.of_some_mem {α : Type} {r : Option α} {l : List α} (e : α)
    (hr : r = some e) (he : e ∈ l) : ClosedOver r l := by
  subst hr
  refine ⟨⟨fun h => (by cases h), fun h => ?_⟩, fun x hx => ?_⟩
  · rw [h] at he
    cases he
  · cases hx
    exact he

theorem ClosedOver.of_filter {α : Type} {r : Option α} {l : List α} (p : α → Bool)
    (h : ClosedOver r (l.filter p)) (hne : (l.filter p).length > 0) : ClosedOver r l := by
  have hne' : l.filter p ≠ [] := List.ne_nil_of_length_pos hne
  cases hr : r with
  | none => exact absurd (h.1.1 hr) hne'
  | some e => exact ClosedOver.of_some_mem e rfl (List.mem_of_mem_filter (h.2 e hr))

theorem BaseBehavior.selectTarget_closed_nearest {β : Type} (self : Organism β)
    (l : List (ℕ × Organism β)) : ClosedOver (BaseBehavior.selectTarget self l) l := by
  by_cases hl : l = []
  · refine ⟨⟨fun _ => hl, fun _ => (BaseBehavior.selectTarget_spec self l).1 hl⟩, fun e he => ?_⟩
    rw [(BaseBehavior.selectTarget_spec self l).1 hl] at he
    cases he
  · obtain ⟨e, he, hmin⟩ := (BaseBehavior.selectTarget_spec self l).2 hl
    exact ClosedOver.of_some_mem e he hmin.le_of_mem.1

theorem insertionSort_head_closed {α : Type} (rel : α → α → Prop) [DecidableRel rel]
    (l : List α) : ClosedOver (l.insertionSort rel)[0]? l := by
  have hperm := List.perm_insertionSort rel l
  cases hs : l.insertionSort rel with
  | nil =>
    rw [hs] at hperm
    have hl : l = [] := List.Perm.eq_nil hperm.symm
    refine ⟨⟨fun _ => hl, fun _ => rfl⟩, fun e he => by cases he⟩
  | cons x xs =>
    rw [hs] at hperm
    exact ClosedOver.of_some_mem x (by simp) (hperm.subset (List.mem_cons_self x xs))

theorem getElem?_floorIndex_closed {α : Type} (l : List α) (u : ℚ) (h0 : 0 ≤ u) (h1 : u < 1)
    (hl : 0 < l.length) : ClosedOver l[floorIndex u l.length]? l := by
  have hlt := floorIndex_lt u l.length h0 h1 hl
  exact ClosedOver.of_some_mem (l.get ⟨floorIndex u l.length, hlt⟩)
    (List.getElem?_eq_getElem hlt) (List.get_mem _ _ _)

/-- The running best of a selection loop is one of the elements seen: `tgt`
reads the running best off the accumulator and `inv` is the loop invariant. -/
theorem foldl_best_closed {α γ : Type} (step : γ → α → γ) (tgt : γ → Option α)
    (inv : γ → Prop)
    (hstep : ∀ acc x, inv acc → inv (step acc x) ∧ tgt (step acc x) ≠ none ∧
      (tgt (step acc x) = some x ∨ tgt (step acc x) = tgt acc)) :
    ∀ (l : List α) (acc : γ), inv acc →
      (tgt (l.foldl step acc) = none → l = [] ∧ tgt acc = none) ∧
        ∀ e, tgt (l.foldl step acc) = some e → e ∈ l ∨ tgt acc = some e := by
  intro l
  induction l with
  | nil => exact fun acc _ => ⟨fun h => ⟨rfl, h⟩, fun e h => Or.inr h⟩
  | cons x xs ih =>
    intro acc hacc
    obtain ⟨hinv, hne, hcase⟩ := hstep acc x hacc
    obtain ⟨h1, h2⟩ := ih (step acc x) hinv
    refine ⟨fun h => absurd (h1 h).2 hne, fun e he => ?_⟩
    rcases h2 e he with hmem | hx
    · exact Or.inl (List.mem_cons_of_mem x hmem)
    · rcases hcase with hsome | hsame
      · rw [hsome] at hx
        cases hx
        exact Or.inl (List.mem_cons_self _ _)
      · exact Or.inr (hsame ▸ hx)

theorem QLearningBehavior.betterTarget_step_table {β : Type} (ops : BehaviorOps β)
    (self : Organism β) (acc : Option (ℕ × Organism β) × Option ℚ × QLearningBehavior)
    (x : ℕ × Organism β) (hacc : acc.1 = none ↔ acc.2.1 = none) :
    ((QLearningBehavior.betterTarget ops self acc x).1 = none ↔
        (QLearningBehavior.betterTarget ops self acc x).2.1 = none) ∧
      (QLearningBehavior.betterTarget ops self acc x).1 ≠ none ∧
      ((QLearningBehavior.betterTarget ops self acc x).1 = some x ∨
        (QLearningBehavior.betterTarget ops self acc x).1 = acc.1) := by
  obtain ⟨t, v, q⟩ := acc
  unfold QLearningBehavior.betterTarget
  cases v with
  | none => simp
  | some m =>
    have ht : t ≠ none := fun h => by simpa using hacc.1 h
    dsimp only
    split_ifs
    · simp
    · simp [ht]

theorem DeepQLearningBehavior.betterTarget_step_neural {β : Type} (ops : BehaviorOps β)
    (q : DeepQLearningBehavior) (self : Organism β)
    (acc : Option (ℕ × Organism β) × Option ℚ) (x : ℕ × Organism β)
    (hacc : acc.1 = none ↔ acc.2 = none) :
    ((DeepQLearningBehavior.betterTarget ops q self acc x).1 = none ↔
        (DeepQLearningBehavior.betterTarget ops q self acc x).2 = none) ∧
      (DeepQLearningBehavior.betterTarget ops q self acc x).1 ≠ none ∧
      ((DeepQLearningBehavior.betterTarget ops q self acc x).1 = some x ∨
        (DeepQLearningBehavior.betterTarget ops q self acc x).1 = acc.1) := by
  obtain ⟨t, v⟩ := acc
  unfold DeepQLearningBehavior.betterTarget
  cases v with
  | none => simp
  | some m =>
    have ht : t ≠ none := fun h => by simpa using hacc.1 h
    dsimp only
    split_ifs
    · simp
    · simp [ht]

theorem AggressiveBehavior.selectTarget_closed_aggressive {β : Type} (self : Organism β)
    (l : List (ℕ × Organism β)) : ClosedOver (AggressiveBehavior.selectTarget self l) l := by
  unfold AggressiveBehavior.selectTarget
  dsimp only
  split_ifs with h
  · exact ClosedOver.of_filter _ (BaseBehavior.selectTarget_closed_nearest self _) h
  · exact BaseBehavior.selectTarget_closed_nearest self l

theorem AltruisticBehavior.selectTarget_closed_altruistic {β : Type} (self : Organism β)
    (l : List (ℕ × Organism β)) : ClosedOver (AltruisticBehavior.selectTarget self l) l := by
  unfold AltruisticBehavior.selectTarget
  dsimp only
  split_ifs with h
  · exact ClosedOver.of_filter _ (insertionSort_head_closed _ _) h
  · exact BaseBehavior.selectTarget_closed_nearest self l

theorem CooperativeBehavior.selectTarget_closed_cooperative {β : Type}
    (typeOf : β → BehaviorType) (b : BaseBehavior) (self : Organism β) (l : List (ℕ × Organism β)) :
    ClosedOver (CooperativeBehavior.selectTarget typeOf b self l) l := by
  unfold CooperativeBehavior.selectTarget
  dsimp only
  split_ifs with h h2
  · exact ClosedOver.of_filter _ (BaseBehavior.selectTarget_closed_nearest self _) h
  · exact ClosedOver.of_filter _ (BaseBehavior.selectTarget_closed_nearest self _) h2
  · exact BaseBehavior.selectTarget_closed_nearest self l

theorem SelfishBehavior.selectTarget_closed_selfish {β : Type} (self : Organism β)
    (l : List (ℕ × Organism β)) : ClosedOver (SelfishBehavior.selectTarget self l) l := by
  unfold SelfishBehavior.selectTarget
  dsimp only
  split_ifs with h
  · exact insertionSort_head_closed _ l
  · have hl : l = [] := by
      rw [List.length_insertionSort] at h
      exact List.eq_nil_of_length_eq_zero (by omega)
    exact ⟨⟨fun _ => hl, fun _ => rfl⟩, fun e he => by cases he⟩

theorem TitForTatBehavior.selectTarget_closed_titfortat {β : Type} (b : BaseBehavior)
    (self : Organism β) (l : List (ℕ × Organism β)) (rand : RandomSource)
    (hr : ∀ k, 0 ≤ rand.draws k ∧ rand.draws k < 1) :
    ClosedOver (TitForTatBehavior.selectTarget b self l rand).1 l := by
  unfold TitForTatBehavior.selectTarget
  dsimp only
  split_ifs with h h2
  · exact ClosedOver.of_filter _ (BaseBehavior.selectTarget_closed_nearest self _) h
  · exact getElem?_floorIndex_closed l _ (hr _).1 (hr _).2 h2
  · have hl : l = [] := List.eq_nil_of_length_eq_zero (by omega)
    exact ⟨⟨fun _ => hl, fun _ => rfl⟩, fun e he => by cases he⟩

theorem QLearningBehavior.selectTarget_closed_table {β : Type} (ops : BehaviorOps β)
    (q : QLearningBehavior) (self : Organism β) (l : List (ℕ × Organism β))
    (rand : RandomSource) (hr : ∀ k, 0 ≤ rand.draws k ∧ rand.draws k < 1) :
    ClosedOver (QLearningBehavior.selectTarget ops q self l rand).1 l := by
  unfold QLearningBehavior.selectTarget
  dsimp only
  split_ifs with h h2 h3
  · exact ⟨⟨fun _ => List.eq_nil_of_length_eq_zero h, fun _ => rfl⟩, fun e he => by cases he⟩
  · exact getElem?_floorIndex_closed l _ (hr _).1 (hr _).2 (by omega)
  · exact getElem?_floorIndex_closed l _ (hr _).1 (hr _).2 (by omega)
  · obtain ⟨h1, h2⟩ := foldl_best_closed (QLearningBehavior.betterTarget ops self)
      (fun acc => acc.1) (fun acc => acc.1 = none ↔ acc.2.1 = none)
      (QLearningBehavior.betterTarget_step_table ops self) l (none, none, q)
      ⟨fun _ => rfl, fun _ => rfl⟩
    refine ⟨⟨fun hn => (h1 hn).1, fun hl => absurd (by rw [hl]; rfl) h⟩, fun e he => ?_⟩
    rcases h2 e he with hm | hx
    · exact hm
    · cases hx

theorem DeepQLearningBehavior.selectTarget_closed_neural {β : Type} (ops : BehaviorOps β)
    (q : DeepQLearningBehavior) (self : Organism β) (l : List (ℕ × Organism β))
    (rand : RandomSource) (hr : ∀ k, 0 ≤ rand.draws k ∧ rand.draws k < 1) :
    ClosedOver (DeepQLearningBehavior.selectTarget ops q self l rand).1 l := by
  unfold DeepQLearningBehavior.selectTarget
  split_ifs with h h2
  · exact ⟨⟨fun _ => List.eq_nil_of_length_eq_zero h, fun _ => rfl⟩, fun e he => by cases he⟩
  · exact getElem?_floorIndex_closed l _ (hr _).1 (hr _).2 (by omega)
  · obtain ⟨h1, h2⟩ := foldl_best_closed (DeepQLearningBehavior.betterTarget ops q self)
      (fun acc => acc.1) (fun acc => acc.1 = none ↔ acc.2 = none)
      (DeepQLearningBehavior.betterTarget_step_neural ops q self) l (none, none)
      ⟨fun _ => rfl, fun _ => rfl⟩
    cases hb : (l.foldl (DeepQLearningBehavior.betterTarget ops q self) (none, none)).1 with
    | none => exact absurd (by rw [(h1 hb).1]; rfl) h
    | some t =>
      rcases h2 t hb with hm | hx
      · exact ClosedOver.of_some_mem t rfl hm
      · cases hx

/-- C37: for each of the seven behaviours, every self, every neighbour list
(each neighbour given with its index) and every stream of draws in `[0, 1)`,
`selectTarget` returns nothing if and only if the list is empty, and otherwise
returns an element of the list. -/
theorem selectTarget_closed_over_neighbours {β : Type} (ops : BehaviorOps β)
    (b : BaseBehavior) (q : QLearningBehavior) (d : DeepQLearningBehavior) (self : Organism β)
    (nearbyEntities : List (ℕ × Organism β)) (rand : RandomSource)
    (hr : ∀ k, 0 ≤ rand.draws k ∧ rand.draws k < 1) :
    ClosedOver (AggressiveBehavior.selectTarget self nearbyEntities) nearbyEntities ∧
      ClosedOver (AltruisticBehavior.selectTarget self nearbyEntities) nearbyEntities ∧
      ClosedOver (TitForTatBehavior.selectTarget b self nearbyEntities rand).1 nearbyEntities ∧
      ClosedOver (CooperativeBehavior.selectTarget ops.type b self nearbyEntities)
        nearbyEntities ∧
      ClosedOver (SelfishBehavior.selectTarget self nearbyEntities) nearbyEntities ∧
      ClosedOver (QLearningBehavior.selectTarget ops q self nearbyEntities rand).1
        nearbyEntities ∧
      ClosedOver (DeepQLearningBehavior.selectTarget ops d self nearbyEntities rand).1
        nearbyEntities :=
  ⟨AggressiveBehavior.selectTarget_closed_aggressive self nearbyEntities,
    AltruisticBehavior.selectTarget_closed_altruistic self nearbyEntities,
    TitForTatBehavior.selectTarget_closed_titfortat b self nearbyEntities rand hr,
    CooperativeBehavior.selectTarget_closed_cooperative ops.type b self nearbyEntities,
    SelfishBehavior.selectTarget_closed_selfish self nearbyEntities,
    QLearningBehavior.selectTarget_closed_table ops q self nearbyEntities rand hr,
    DeepQLearningBehavior.selectTarget_closed_neural ops d self nearbyEntities rand hr⟩

/-- C37 on the two sample neighbours with every draw equal to 1/2. -/
theorem selectTarget_closed_over_neighbours_witness :
    (∀ k, 0 ≤ RandomSource.half.draws k ∧ RandomSource.half.draws k < 1) ∧
      ClosedOver (AggressiveBehavior.selectTarget (Organism.sample 60) sampleNeighbours)
        sampleNeighbours ∧
      ClosedOver (TitForTatBehavior.selectTarget (BaseBehavior.new .titfortat)
        (Organism.sample 60) sampleNeighbours RandomSource.half).1 sampleNeighbours ∧
      ClosedOver (QLearningBehavior.selectTarget BehaviorOps.idle QLearningBehavior.new
        (Organism.sample 60) sampleNeighbours RandomSource.half).1 sampleNeighbours ∧
      ClosedOver (DeepQLearningBehavior.selectTarget BehaviorOps.idle
        DeepQLearningBehavior.sample (Organism.sample 60) sampleNeighbours
        RandomSource.half).1 sampleNeighbours :=
  have hr : ∀ k, 0 ≤ RandomSource.half.draws k ∧ RandomSource.half.draws k < 1 :=
    fun _ => ⟨by norm_num [RandomSource.half], by norm_num [RandomSource.half]⟩
  have h := selectTarget_closed_over_neighbours BehaviorOps.idle (BaseBehavior.new .titfortat)
    QLearningBehavior.new DeepQLearningBehavior.sample (Organism.sample 60) sampleNeighbours
    RandomSource.half hr
  ⟨hr, h.1, h.2.2.1, h.2.2.2.2.2.1, h.2.2.2.2.2.2⟩

/-! ## Clearance of a newborn (C38) -/

theorem Organism.reproduce_position_safe {β : Type} (M : JsMath) (ops : BehaviorOps β)
    (w : World β) (i : ℕ) (rand : RandomSource) (o child : Organism β)
    (ho : w.entities[i]? = some o)
    (hchild : (Organism.reproduce M ops w i rand).2.2 = some child) :
    o.isPositionSafe child.position w i = true := by
  by_cases hlow : o.energy < 50
  · rw [Organism.reproduce_of_low_energy M ops w i rand o ho hlow] at hchild
    cases hchild
  · rw [Organism.reproduce_eq M ops w i rand o ho hlow] at hchild
    have hfind := Organism.findSafeSpawnPosition_eq_find M o w i
      (Organism.reproduceSpawnRand w rand)
    cases hres : o.findSafeSpawnPosition M w i (Organism.reproduceSpawnRand w rand) with
    | mk res rand' =>
      rw [hres] at hchild hfind
      cases res with
      | none => cases hchild
      | some p =>
        dsimp only at hchild hfind
        have hsafe := List.find?_some hfind.symm
        have hpos : child.position = p := by
          cases hchild
          rfl
        rw [hpos]
        exact hsafe

theorem clearance_mono (c p r D : ℚ) (h0 : 0 ≤ c) (hle : c ≤ p) (hr : 0 ≤ r)
    (h : (p * (8 / 10) + r) ^ 2 ≤ D) : (c * (8 / 10) + r) ^ 2 ≤ D := by
  exact le_trans (pow_le_pow_left₀ (by positivity) (by linarith) 2) h

/-- C38 evaluated at two failing inputs.  In `World.crowded` the size draw 3/4
gives an offspring of size 1.01 at `(2, 0, 0)`, which passed the test with the
parent's radius 0.8 and overlaps the neighbour at `(3.6, 0, 0)`.  In
`World.cornered` every point of the spiral is rejected, the fallback point
`(15.75, 0, 0)` is accepted without being compared with the parent, and the
offspring of size 0.98 placed there overlaps its parent at `(17.2, 0, 0)`.  All
angles drawn are 0, where the cosine is 1 and the sine 0. -/
theorem Organism.reproduce_newborn_overlaps :
    (∃ child q,
      (Organism.reproduce JsMath.crude BehaviorOps.idle World.crowded 0
        (RandomSource.zeroExcept [(1, 3 / 4)])).2.2 = some child ∧
      World.crowded.entities[1]? = some q ∧ q.isAlive = true ∧
      distanceSquared child.position q.position <
        (child.size * (8 / 10) + q.getBoundingRadius) ^ 2) ∧
    (∃ child parent,
      (Organism.reproduce JsMath.crude BehaviorOps.idle World.cornered 0
        (RandomSource.zeroExcept [(27, 127 / 128), (28, 1 / 2)])).2.2 = some child ∧
      World.cornered.entities[0]? = some parent ∧ parent.isAlive = true ∧
      distanceSquared child.position parent.position <
        (child.size * (8 / 10) + parent.getBoundingRadius) ^ 2) := by
  constructor
  · have h : (Organism.reproduce JsMath.crude BehaviorOps.idle World.crowded 0
        (RandomSource.zeroExcept [(1, 3 / 4)])).2.2.map (fun c => (c.position, c.size)) =
        some (⟨2, 0, 0⟩, 101 / 100) := by
      with_unfolding_all decide
    obtain ⟨child, hc, hv⟩ := Option.map_eq_some'.mp h
    refine ⟨child, _, hc, rfl, rfl, ?_⟩
    have hp : child.position = ⟨2, 0, 0⟩ := congrArg Prod.fst hv
    have hs : child.size = 101 / 100 := congrArg Prod.snd hv
    rw [hp, hs]
    norm_num [distanceSquared, Organism.getBoundingRadius, Organism.sample, World.crowded,
      World.cornered]
  · have h : (Organism.reproduce JsMath.crude BehaviorOps.idle World.cornered 0
        (RandomSource.zeroExcept [(27, 127 / 128), (28, 1 / 2)])).2.2.map
          (fun c => (c.position, c.size)) = some (⟨63 / 4, 0, 0⟩, 98 / 100) := by
      with_unfolding_all decide
    obtain ⟨child, hc, hv⟩ := Option.map_eq_some'.mp h
    refine ⟨child, _, hc, rfl, rfl, ?_⟩
    have hp : child.position = ⟨63 / 4, 0, 0⟩ := congrArg Prod.fst hv
    have hs : child.size = 98 / 100 := congrArg Prod.snd hv
    rw [hp, hs]
    norm_num [distanceSquared, Organism.getBoundingRadius, Organism.sample, World.crowded,
      World.cornered]

/-- How far the test of `isPositionSafe` goes for the offspring: the offspring
registered by a successful `reproduce`, when it is not larger than its parent,
has squared distance at least `(0.8 * childSize + radius_q)^2` from every
living organism `q` other than its parent, from every obstacle that has a
radius and from every unconsumed food item (sizes and radii being
non-negative).  For a larger offspring, and for the parent, the test gives
nothing. -/
theorem Organism.reproduce_newborn_clearance {β : Type} (M : JsMath) (ops : BehaviorOps β)
    (w : World β) (i : ℕ) (rand : RandomSource) (o child : Organism β)
    (ho : w.entities[i]? = some o)
    (hchild : (Organism.reproduce M ops w i rand).2.2 = some child)
    (h0 : 0 ≤ child.size) (hle : child.size ≤ o.size) :
    (∀ (j : ℕ) (q : Organism β), w.entities[j]? = some q → j ≠ i → q.isAlive = true →
      0 ≤ q.getBoundingRadius →
      (child.size * (8 / 10) + q.getBoundingRadius) ^ 2 ≤
        distanceSquared child.position q.position) ∧
    (∀ ob ∈ w.obstacles, ∀ r, ob.boundingRadius = some r → 0 ≤ r →
      (child.size * (8 / 10) + r) ^ 2 ≤ distanceSquared child.position ob.position) ∧
    (∀ f ∈ w.foods, f.isConsumed = false → 0 ≤ f.getBoundingRadius →
      (child.size * (8 / 10) + f.getBoundingRadius) ^ 2 ≤
        distanceSquared child.position f.position) := by
  obtain ⟨h1, h2, h3⟩ := (Organism.isPositionSafe_iff o child.position w i).mp
    (Organism.reproduce_position_safe M ops w i rand o child ho hchild)
  refine ⟨fun j q hq hj ha hr => ?_, fun ob hob r hr hr0 => ?_, fun f hf hc hr => ?_⟩
  · exact clearance_mono _ _ _ _ h0 hle hr (h1 j q hq hj ha)
  · exact clearance_mono _ _ _ _ h0 hle hr0 (h2 ob hob r hr)
  · exact clearance_mono _ _ _ _ h0 hle hr (h3 f hf hc)

/-- The clearance lemma on `World.sample`: the parent at index 1 (size 1) gets
an offspring of size 1 at `(2, 0, -3)`, which keeps the clearance from every
other living organism, every obstacle with a radius and every unconsumed food. -/
theorem Organism.reproduce_newborn_clearance_witness :
    ∃ child,
      (Organism.reproduce JsMath.crude BehaviorOps.idle World.sample 1
        RandomSource.half).2.2 = some child ∧
      (∀ (j : ℕ) (q : Organism Unit), World.sample.entities[j]? = some q → j ≠ 1 →
        q.isAlive = true → 0 ≤ q.getBoundingRadius →
        (child.size * (8 / 10) + q.getBoundingRadius) ^ 2 ≤
          distanceSquared child.position q.position) ∧
      (∀ ob ∈ World.sample.obstacles, ∀ r, ob.boundingRadius = some r → 0 ≤ r →
        (child.size * (8 / 10) + r) ^ 2 ≤ distanceSquared child.position ob.position) ∧
      (∀ f ∈ World.sample.foods, f.isConsumed = false → 0 ≤ f.getBoundingRadius →
        (child.size * (8 / 10) + f.getBoundingRadius) ^ 2 ≤
          distanceSquared child.position f.position) := by
  have h : (Organism.reproduce JsMath.crude BehaviorOps.idle World.sample 1
      RandomSource.half).2.2.map (fun c => c.size) = some 1 := by
    with_unfolding_all decide
  obtain ⟨child, hc, hs⟩ := Option.map_eq_some'.mp h
  exact ⟨child, hc,
    Organism.reproduce_newborn_clearance JsMath.crude BehaviorOps.idle World.sample 1
      RandomSource.half Organism.sampleParent child rfl hc (by rw [hs]; norm_num)
      (by rw [hs]; exact le_refl _)⟩

/-! ## Spawn points and the arena (C39) -/

/-- The points of the fallback loop of `findSafeSpawnPosition` lie within
`terrainSize / 2.5` of the centre on both axes, hence within the arena bound
`terrainSize / 2.1`. -/
theorem Organism.randomCandidates_within_arena {β : Type} (w : World β)
    (hsize : 0 ≤ w.terrainSize) (n : ℕ) :
    ∀ rand : RandomSource, (∀ k, 0 ≤ rand.draws k ∧ rand.draws k < 1) →
      ∀ p ∈ Organism.randomCandidates w n rand,
        |p.x| ≤ w.terrainSize / (21 / 10) ∧ |p.z| ≤ w.terrainSize / (21 / 10) := by
  have hscale : ∀ u : ℚ, 0 ≤ u → u < 1 →
      |(u * 2 - 1) * (w.terrainSize / (25 / 10))| ≤ w.terrainSize / (21 / 10) := by
    intro u h0 h1
    have hb : 0 ≤ w.terrainSize / (25 / 10) := by positivity
    have hu : |u * 2 - 1| ≤ 1 := abs_le.mpr ⟨by linarith, by linarith⟩
    rw [abs_mul, abs_of_nonneg hb]
    calc |u * 2 - 1| * (w.terrainSize / (25 / 10))
        ≤ 1 * (w.terrainSize / (25 / 10)) := mul_le_mul_of_nonneg_right hu hb
      _ ≤ w.terrainSize / (21 / 10) := by
        rw [one_mul]
        exact div_le_div_of_nonneg_left hsize (by norm_num) (by norm_num)
  induction n with
  | zero =>
    intro rand _ p hp
    cases hp
  | succ n ih =>
    intro rand hr p hp
    unfold Organism.randomCandidates at hp
    rcases List.mem_cons.mp hp with h | h
    · subst h
      exact ⟨hscale _ (hr _).1 (hr _).2, hscale _ (hr _).1 (hr _).2⟩
    · exact ih rand.next.2.next.2 hr p h

/-- C39 evaluated at the failing input.  The parent stands at `(19, 0, 0)`,
inside the bound `40 / 2.1` of the default arena, alone; the angle drawn is 0
(where the cosine is 1 and the sine 0).  The first point of the spiral,
`(21, 0, 0)`, is tested and returned before the bounds test of the loop is
reached, and it lies beyond the bound. -/
theorem Organism.findSafeSpawnPosition_leaves_arena :
    World.edge.entities[0]? = some Organism.edgeParent ∧
      |Organism.edgeParent.position.x| ≤ World.edge.terrainSize / (21 / 10) ∧
      |Organism.edgeParent.position.z| ≤ World.edge.terrainSize / (21 / 10) ∧
      (Organism.findSafeSpawnPosition JsMath.crude Organism.edgeParent World.edge 0
        RandomSource.zero).1 = some ⟨21, 0, 0⟩ ∧
      ¬ |(21 : ℚ)| ≤ World.edge.terrainSize / (21 / 10) := by
  refine ⟨rfl, ?_, ?_, ?_, ?_⟩
  · with_unfolding_all decide
  · with_unfolding_all decide
  · with_unfolding_all decide
  · with_unfolding_all decide

/-! ## Movement and the boundary clamp (C40) -/

/-- C40 evaluated at the failing input.  `Organism.wallHugger` stands on the
bound of the arena and overlaps nobody.  Its step of length 0.2 proposes a
point beyond the bound that is clear of `Organism.bystander` (squared distance
2.81 against 2.56), so no collision is found; the clamp then puts it back on
the bound at `(40 / 2.1, 0, 0.12)`, where the squared distance to the unmoved
bystander is 2.4004, less than 2.56: the two overlap. -/
theorem Organism.move_clamped_into_overlap :
    (|Organism.wallHugger.position.x| ≤ World.boundary.terrainSize / (21 / 10) ∧
      |Organism.wallHugger.position.z| ≤ World.boundary.terrainSize / (21 / 10) ∧
      (Organism.wallHugger.getBoundingRadius + Organism.bystander.getBoundingRadius) ^ 2 ≤
        distanceSquared Organism.wallHugger.position Organism.bystander.position) ∧
    Organism.wallHugger.checkCollision (Organism.wallHugger.proposedPosition (1 / 10))
      World.boundary 0 = none ∧
    ∃ moved other,
      (Organism.move JsMath.crude (1 / 10) World.boundary 0 RandomSource.half).1.entities[0]? =
        some moved ∧
      (Organism.move JsMath.crude (1 / 10) World.boundary 0 RandomSource.half).1.entities[1]? =
        some other ∧
      moved.position = ⟨400 / 21, 0, 3 / 25⟩ ∧
      other.position = Organism.bystander.position ∧ other.isAlive = true ∧
      distanceSquared moved.position other.position <
        (moved.getBoundingRadius + other.getBoundingRadius) ^ 2 := by
  refine ⟨⟨?_, ?_, ?_⟩, ?_, ?_⟩
  · with_unfolding_all decide
  · with_unfolding_all decide
  · with_unfolding_all decide
  · with_unfolding_all decide
  · have h0 : (Organism.move JsMath.crude (1 / 10) World.boundary 0
        RandomSource.half).1.entities[0]?.map (fun e => (e.position, e.size)) =
        some (⟨400 / 21, 0, 3 / 25⟩, 1) := by
      set_option maxRecDepth 8000 in with_unfolding_all decide
    have h1 : (Organism.move JsMath.crude (1 / 10) World.boundary 0
        RandomSource.half).1.entities[1]?.map (fun e => (e.position, e.size, e.isAlive)) =
        some (⟨400 / 21 - 6 / 5, 0, 11 / 10⟩, 1, true) := by
      set_option maxRecDepth 8000 in with_unfolding_all decide
    obtain ⟨moved, hm, hmv⟩ := Option.map_eq_some'.mp h0
    obtain ⟨other, ho, hov⟩ := Option.map_eq_some'.mp h1
    have hmp : moved.position = ⟨400 / 21, 0, 3 / 25⟩ := congrArg Prod.fst hmv
    have hms : moved.size = 1 := congrArg Prod.snd hmv
    have hop : other.position = ⟨400 / 21 - 6 / 5, 0, 11 / 10⟩ := congrArg Prod.fst hov
    have hos : other.size = 1 := congrArg (fun v => v.2.1) hov
    have hoa : other.isAlive = true := congrArg (fun v => v.2.2) hov
    refine ⟨moved, other, hm, ho, hmp, hop, hoa, ?_⟩
    rw [hmp, hop]
    norm_num [distanceSquared, Organism.getBoundingRadius, hms, hos]

end EvoSim
